import Mathlib

/-! Job server of the sim judge: a shallow embedding.

The definitions below embed the job-processing core of the repository:

* `src/Job-server/judge.cc`: the lambdas `calc_status`, `construct_report`,
  `update_submission`, `send_judge_report`, `job_done` and the handler
  `judge_or_rejudge_submission` that owns them;
* `src/Job-server/judge.cc`: the two handlers that judge a model solution,
  `problem_add_or_reupload_jugde_model_solution` and
  `reset_problem_time_limits_using_model_solution`;
* `src/Job-server/main.cc`: `processJobQueue` and the start of `main`;
* `src/job_server/job_handlers/add_or_reupload_problem_base.cc`:
  `build_package`, `job_done`, `open_package` and `submit_solutions`;
* `src/Job-server/delete_internal_file_job_handler.cc`:
  `DeleteInternalFileJobHandler::run`;
* `src/lib/jobs.cc`: the two overloads of `restart_job`;
* `src/web-interface/users.cc`: `users_get_permissions`;
* `src/server/contest.cc`: `findWithId` and the places of `Contest::ranking`;
* `src/web_interface/contest_entry_token_api.cc`: the checks of
  `api_contest_entry_token_short_add` and
  `api_contest_entry_token_short_regen`.

Database tables are lists of rows and SQL statements are functions on those
lists; a thrown C++ exception is a value (`Except.error`, `Res.threw`,
`Outcome.escaped`) that carries the state reached when it was thrown.
-/

namespace Sim

/-! ## Judge reports and submission statuses -/

/-- The enumeration `JudgeReport::Test::Status`, with the seven members that the
switch statements of `judge.cc` enumerate. -/
inductive TestStatus where
  | OK | WA | TLE | MLE | RTE | CHECKER_ERROR | SKIPPED
  deriving DecidableEq, Repr

/-- A test of a judge report (`JudgeReport::Test`); times are in nanoseconds,
memory in bytes. -/
structure Test where
  name : String
  status : TestStatus
  runtime : Nat := 0
  time_limit : Nat := 0
  memory_consumed : Nat := 0
  memory_limit : Nat := 0
  comment : String := ""
  deriving DecidableEq, Repr

/-- A group of tests of a judge report (`JudgeReport::Group`); `score` and
`max_score` are `int64_t` in the source. -/
structure Group where
  tests : List Test
  score : Int
  max_score : Int
  deriving DecidableEq, Repr

/-- A judge report (`sim::JudgeReport`). -/
structure JudgeReport where
  groups : List Group
  judge_log : String := ""
  deriving DecidableEq, Repr

/-- Modelled from the spec: the enumeration `SubmissionStatus` is declared in
`sim/constants.h`, which is not among the sources; these are the members that
`judge.cc` names, which are also the statuses the specification lists (the
judge outcomes, plus PENDING, the two compilation errors and JUDGE_ERROR). -/
inductive SubmissionStatus where
  | OK | WA | TLE | MLE | RTE
  | PENDING
  | COMPILATION_ERROR | CHECKER_COMPILATION_ERROR | JUDGE_ERROR
  deriving DecidableEq, Repr

/-- Modelled from the spec: `is_fatal` is declared in `sim/constants.h`, which
is not among the sources. The specification gives the score as "null when
status is fatal" and names the statuses that carry no score: the terminal
statuses CHECKER_COMPILATION_ERROR and COMPILATION_ERROR ("with no score") and
JUDGE_ERROR ("score discarded"). -/
def is_fatal : SubmissionStatus → Bool
  | .COMPILATION_ERROR => true
  | .CHECKER_COMPILATION_ERROR => true
  | .JUDGE_ERROR => true
  | _ => false

/-- The message of the exception a failed `throw_assert` raises. -/
def assert_failed : String := "throw_assert failed"

/-- First loop nest of `calc_status` (judge.cc:284-287), inner loop: is there a
test of the group with status CHECKER_ERROR. -/
def checker_error_in_tests : List Test → Bool
  | [] => false
  | test :: rest =>
    if test.status = TestStatus.CHECKER_ERROR then true
    else checker_error_in_tests rest

/-- First loop nest of `calc_status` (judge.cc:284-287), outer loop. -/
def checker_error_in_groups : List Group → Bool
  | [] => false
  | group :: rest =>
    if checker_error_in_tests group.tests then true
    else checker_error_in_groups rest

/-- Second loop nest of `calc_status` (judge.cc:289-305), inner loop over the
tests of one group: `none` when the loop runs to its end, `some r` when the
switch leaves the lambda with `r` (a returned status, or the exception of
`throw_assert(false)` in the CHECKER_ERROR case). -/
def first_error_in_tests : List Test → Option (Except String SubmissionStatus)
  | [] => none
  | test :: rest =>
    match test.status with
    | .OK => first_error_in_tests rest
    | .SKIPPED => first_error_in_tests rest
    | .WA => some (.ok .WA)
    | .TLE => some (.ok .TLE)
    | .MLE => some (.ok .MLE)
    | .RTE => some (.ok .RTE)
    | .CHECKER_ERROR => some (.error assert_failed)

/-- Second loop nest of `calc_status` (judge.cc:289-307), outer loop, followed
by the closing `return SubmissionStatus::OK`. -/
def first_error_in_groups : List Group → Except String SubmissionStatus
  | [] => .ok .OK
  | group :: rest =>
    match first_error_in_tests group.tests with
    | some r => r
    | none => first_error_in_groups rest

/-- The lambda `calc_status` (judge.cc:281-308): "Returns OK or the first
encountered error status". -/
def calc_status (jr : JudgeReport) : Except String SubmissionStatus :=
  if checker_error_in_groups jr.groups then .ok .JUDGE_ERROR
  else first_error_in_groups jr.groups

/-! ### The specification's reading of status resolution -/

/-- All tests of a report, in group order and then test order within the
group. -/
def all_tests (jr : JudgeReport) : List Test :=
  jr.groups.flatMap (fun group => group.tests)

/-- The submission status that corresponds to a test status (WA to WA, TLE to
TLE, MLE to MLE, RTE to RTE); OK and SKIPPED are not failures and a
CHECKER_ERROR is a judge error. -/
def status_of_test : TestStatus → SubmissionStatus
  | .OK => .OK
  | .SKIPPED => .OK
  | .WA => .WA
  | .TLE => .TLE
  | .MLE => .MLE
  | .RTE => .RTE
  | .CHECKER_ERROR => .JUDGE_ERROR

/-- Resolution as the specification words it for a report without checker
errors: the status of the first test that is neither OK nor SKIPPED, and OK
when there is none. -/
def first_failure_status (jr : JudgeReport) : SubmissionStatus :=
  match (all_tests jr).find? (fun test =>
      decide (test.status ≠ TestStatus.OK ∧ test.status ≠ TestStatus.SKIPPED)) with
  | some test => status_of_test test.status
  | none => .OK

/-! ## The database tables that `judge.cc` reads and writes -/

/-- Modelled from the spec: the job statuses behind the macros `JSTATUS_*_STR`
and `JQSTATUS_*_STR` of `sim/constants.h`, which is not among the sources;
the specification gives the status set PENDING, IN_PROGRESS, DONE, FAILED,
CANCELED. -/
inductive JobStatus where
  | PENDING | IN_PROGRESS | DONE | FAILED | CANCELED
  deriving DecidableEq, Repr

/-- A row of table `jobs`, with the columns `judge_or_rejudge_submission`
writes. The column `data` holds the job log; the log buffer is the sequence of
the messages appended to it, oldest first. -/
structure JobRow where
  id : Nat
  status : JobStatus
  data : List String
  deriving DecidableEq, Repr

/-- Modelled from the spec: the enumeration `SubmissionType` is declared in
`sim/constants.h`, which is not among the sources; NORMAL, VOID and
PROBLEM_SOLUTION are the members the sources name, `other` stands for every
further value the column `type` can hold. -/
inductive SubmissionType where
  | NORMAL | VOID | PROBLEM_SOLUTION
  | other (ordinal : Nat)
  deriving DecidableEq, Repr

/-- The enumeration `SubmissionLanguage` as `to_sol_lang` (judge.cc:14-23)
enumerates it; `invalid` is a column value outside the four cases. -/
inductive SubmissionLanguage where
  | C11 | CPP11 | CPP14 | PASCAL
  | invalid (int_val : Nat)
  deriving DecidableEq, Repr

/-- The enumeration `sim::SolutionLanguage`, the codomain of `to_sol_lang`. -/
inductive SolutionLanguage where
  | C11 | CPP11 | CPP14 | PASCAL
  deriving DecidableEq, Repr

/-- The function `to_sol_lang` (judge.cc:14-23). -/
def to_sol_lang : SubmissionLanguage → Except String SolutionLanguage
  | .C11 => .ok .C11
  | .CPP11 => .ok .CPP11
  | .CPP14 => .ok .CPP14
  | .PASCAL => .ok .PASCAL
  | .invalid int_val => .error ("Invalid Language: " ++ toString int_val)

/-- Lexicographic comparison of two texts, character by character, a proper
prefix coming first. -/
def chars_lt : List Char → List Char → Bool
  | [], [] => false
  | [], _ :: _ => true
  | _ :: _, [] => false
  | a :: as, b :: bs =>
    if a.toNat < b.toNat then true
    else if b.toNat < a.toNat then false
    else chars_lt as bs

/-- The comparison `later > earlier` of two text buffers (judge.cc:61), as
`text_lt earlier later`. -/
def text_lt (earlier later : String) : Bool :=
  chars_lt earlier.data later.data

/-- A row of table `submissions`, with the columns `judge.cc` reads and
writes. Timestamps are the text MySQL returns, compared as text like the
buffers of the source. -/
structure SubmissionRow where
  id : Nat
  type : SubmissionType
  language : SubmissionLanguage
  owner : String
  contest_problem_id : String
  problem_id : Nat
  final_candidate : Bool
  initial_status : SubmissionStatus
  full_status : SubmissionStatus
  score : Option Int
  last_judgment : String
  initial_report : String
  final_report : String
  deriving DecidableEq, Repr

/-- A row of table `problems`, with the columns `judge.cc` reads. -/
structure ProblemRow where
  id : Nat
  last_edit : String
  deriving DecidableEq, Repr

/-- The values bound to the statement `UPDATE submissions SET
final_candidate=?, initial_status=?, full_status=?, score=?, last_judgment=?,
initial_report=?, final_report=? WHERE id=?` (judge.cc:105-108). -/
structure SubmissionWrite where
  final_candidate : Bool
  initial_status : SubmissionStatus
  full_status : SubmissionStatus
  score : Option Int
  last_judgment : String
  initial_report : String
  final_report : String
  deriving DecidableEq, Repr

/-- The statements `judge_or_rejudge_submission` sends to the database that
change it, and the call of `submission::update_final`. -/
inductive Stmt where
  /-- The statement `LOCK TABLES submissions WRITE, contest_problems READ`. -/
  | lock_tables
  /-- The statement `UNLOCK TABLES`. -/
  | unlock_tables
  /-- The statement `UPDATE jobs SET status=..., data=? WHERE id=?`. -/
  | update_job_status (job_id : Nat) (status : JobStatus) (data : List String)
  /-- The statement `UPDATE jobs SET data=? WHERE id=?`. -/
  | update_job_data (job_id : Nat) (data : List String)
  /-- The statement `UPDATE submissions SET ... WHERE id=?`. -/
  | update_submission (submission_id : Nat) (w : SubmissionWrite)
  /-- The call `submission::update_final(mysql, sowner, problem_id,
  contest_problem_id, false)`. -/
  | update_final (sowner : String) (problem_id : Nat) (contest_problem_id : String)
  deriving DecidableEq, Repr

/-- The database as `judge.cc` sees it: three tables, and the statements
executed so far, oldest first. -/
structure DB where
  jobs : List JobRow
  submissions : List SubmissionRow
  problems : List ProblemRow
  trace : List Stmt := []
  deriving DecidableEq, Repr

/-- Effect of `UPDATE jobs SET status=s, data=? WHERE id=?` on table `jobs`. -/
def set_job_status_data (job_id : Nat) (s : JobStatus) (data : List String)
    (jobs : List JobRow) : List JobRow :=
  jobs.map (fun row => if row.id = job_id then { row with status := s, data := data } else row)

/-- Effect of `UPDATE jobs SET data=? WHERE id=?` on table `jobs`. -/
def set_job_data (job_id : Nat) (data : List String) (jobs : List JobRow) : List JobRow :=
  jobs.map (fun row => if row.id = job_id then { row with data := data } else row)

/-- Effect of the statement `UPDATE submissions SET ... WHERE id=?` on one
row. -/
def SubmissionWrite.apply (w : SubmissionWrite) (row : SubmissionRow) : SubmissionRow :=
  { row with
    final_candidate := w.final_candidate
    initial_status := w.initial_status
    full_status := w.full_status
    score := w.score
    last_judgment := w.last_judgment
    initial_report := w.initial_report
    final_report := w.final_report }

/-- Effect of the statement `UPDATE submissions SET ... WHERE id=?` on table
`submissions`. -/
def write_submission (submission_id : Nat) (w : SubmissionWrite)
    (submissions : List SubmissionRow) : List SubmissionRow :=
  submissions.map (fun row => if row.id = submission_id then w.apply row else row)

/-! ## What the handler does not compute itself -/

/-- Outcome of `JudgeWorker::compile_checker` and
`JudgeWorker::compile_solution`: the call throws, or returns non-zero with the
compilation errors, or returns zero. -/
inductive CompileOutcome where
  | threw (what : String)
  | failed (compilation_errors : String)
  | succeeded
  deriving DecidableEq, Repr

/-- Outcome of one call of `JudgeWorker::judge`: the reports passed to the
callback, in order, and then the returned report or the exception thrown. -/
structure PassOutcome where
  partials : List JudgeReport
  result : Except String JudgeReport

/-- The collaborators of `judge_or_rejudge_submission` whose code is outside
the sources (simlib and `submission::update_final`), as data. -/
structure JudgeEnv where
  /-- Value of `mysql_date()` at judge.cc:72. -/
  mysql_date : String
  /-- The exception `jworker.load_package` throws, if it throws. -/
  load_package : Option String
  compile_checker : CompileOutcome
  compile_solution : CompileOutcome
  /-- The call `jworker.judge(false, ...)`. -/
  initial_pass : PassOutcome
  /-- The call `jworker.judge(true, ...)`. -/
  final_pass : PassOutcome
  /-- The text `construct_report` builds for a report all of whose groups have
  a test (judge.cc:182-278); it is assembled with simlib formatters. -/
  report_html : JudgeReport → Bool → String
  htmlEscape : String → String
  /-- Effect of `submission::update_final` on table `submissions`. -/
  update_final : String → Nat → String → List SubmissionRow → List SubmissionRow

/-- Two's complement reduction of an integer to the range of `int64_t`. -/
def wrap64 (x : Int) : Int :=
  (x + 9223372036854775808) % 18446744073709551616 - 9223372036854775808

/-- The loop `for (auto&& group : jreport.groups) score += group.score;`
(judge.cc:317-319) on `int64_t`, started from `acc`. -/
def count_score (acc : Int) : List Group → Int
  | [] => acc
  | group :: rest => count_score (wrap64 (acc + group.score)) rest

/-- The lambda `construct_report` (judge.cc:176-279): the empty buffer for a
report without groups; the exception of `throw_assert(group.tests.size() > 0)`
when the loop reaches a group without tests; the rendered text otherwise. -/
def construct_report (env : JudgeEnv) (jr : JudgeReport) (final : Bool) :
    Except String String :=
  if jr.groups.isEmpty then .ok ""
  else if jr.groups.any (fun group => group.tests.isEmpty) then .error assert_failed
  else .ok (env.report_html jr final)

/-! ## The handler `judge_or_rejudge_submission` and its lambdas -/

/-- The variables of `judge_or_rejudge_submission` that its lambdas capture
and that change while it runs: the database, the buffer `job_log`, and the
three captures of `send_judge_report`. -/
structure HState where
  db : DB
  job_log : List String
  initial_status : SubmissionStatus := .OK
  initial_report : String := ""
  initial_score : Int := 0
  deriving DecidableEq, Repr

/-- The arguments of `judge_or_rejudge_submission` and the row its first query
fetched. -/
structure JudgeCtx where
  job_id : Nat
  submission_id : Nat
  sowner : String
  contest_problem_id : String
  problem_id : Nat
  judging_began : String
  deriving DecidableEq, Repr

/-- A run of a piece of the handler: it ends normally in a state, or an
exception leaves it in a state. -/
inductive Res where
  | done (s : HState)
  | threw (what : String) (s : HState)
  deriving DecidableEq, Repr

/-- The call `judge_log(args...)`: the concatenated arguments are appended to
`job_log`. -/
def judge_log (message : String) (s : HState) : HState :=
  { s with job_log := s.job_log ++ [message] }

/-- Execute a statement of `Stmt` that changes table `jobs`, and record it. -/
def exec_update_job_status (job_id : Nat) (status : JobStatus) (s : HState) : HState :=
  { s with db := { s.db with
      jobs := set_job_status_data job_id status s.job_log s.db.jobs
      trace := s.db.trace ++ [Stmt.update_job_status job_id status s.job_log] } }

/-- The query `SELECT type FROM submissions WHERE id=?` with the default
`ST::VOID` kept when no row is fetched (judge.cc:98-102). -/
def select_type (submission_id : Nat) (submissions : List SubmissionRow) : SubmissionType :=
  match submissions.filter (fun row => row.id = submission_id) with
  | row :: _ => row.type
  | [] => .VOID

/-- The values `update_submission` binds (judge.cc:110-118). -/
def submission_write (stype : SubmissionType) (judging_began : String)
    (initial_status full_status : SubmissionStatus) (score : Option Int)
    (initial_report final_report : String) : SubmissionWrite :=
  if is_fatal full_status then
    { final_candidate := false
      initial_status := initial_status
      full_status := full_status
      score := none
      last_judgment := judging_began
      initial_report := initial_report
      final_report := final_report }
  else
    { final_candidate := (decide (stype = SubmissionType.NORMAL) && score.isSome)
      initial_status := initial_status
      full_status := full_status
      score := score
      last_judgment := judging_began
      initial_report := initial_report
      final_report := final_report }

/-- The lambda `update_submission` (judge.cc:87-123): lock, read the type,
update the row, call `update_final`, unlock. -/
def update_submission (env : JudgeEnv) (ctx : JudgeCtx)
    (initial_status full_status : SubmissionStatus) (score : Option Int)
    (initial_report final_report : String) (s : HState) : HState :=
  let stype := select_type ctx.submission_id s.db.submissions
  let w := submission_write stype ctx.judging_began initial_status full_status score
    initial_report final_report
  let written := write_submission ctx.submission_id w s.db.submissions
  { s with db := { s.db with
      submissions := env.update_final ctx.sowner ctx.problem_id ctx.contest_problem_id written
      trace := s.db.trace ++
        [Stmt.lock_tables,
         Stmt.update_submission ctx.submission_id w,
         Stmt.update_final ctx.sowner ctx.problem_id ctx.contest_problem_id,
         Stmt.unlock_tables] } }

/-- The lambda `job_done` (judge.cc:125-129). -/
def job_done (ctx : JudgeCtx) (s : HState) : HState :=
  exec_update_job_status ctx.job_id JobStatus.DONE s

/-- The statement `UPDATE jobs SET data=? WHERE id=?` with the current
`job_log` (judge.cc:327-328). -/
def exec_update_job_data (job_id : Nat) (s : HState) : HState :=
  { s with db := { s.db with
      jobs := set_job_data job_id s.job_log s.db.jobs
      trace := s.db.trace ++ [Stmt.update_job_data job_id s.job_log] } }

/-- The message `send_judge_report` logs (judge.cc:323-325). -/
def report_message (ctx : JudgeCtx) (jreport : JudgeReport) (partl : Bool) : String :=
  "Job " ++ toString ctx.job_id ++ " -> submission " ++ toString ctx.submission_id ++
    " (problem " ++ toString ctx.problem_id ++ ")\n" ++
    (if partl then "Partial j" else "J") ++ "udge report: " ++ jreport.judge_log

/-- The lambda `send_judge_report` (judge.cc:310-350), called with the report,
the flag `final` and the flag `partial` (here `partl`). -/
def send_judge_report (env : JudgeEnv) (ctx : JudgeCtx) (jreport : JudgeReport)
    (final partl : Bool) (s : HState) : Res :=
  match construct_report env jreport final with
  | .error what => .threw what s
  | .ok rep =>
    match calc_status jreport with
    | .error what => .threw what s
    | .ok status =>
      -- Count score
      let score := count_score 0 jreport.groups
      -- Log reports
      let job_log_len := s.job_log.length
      let s1 := judge_log (report_message ctx jreport partl) s
      let s2 := exec_update_job_data ctx.job_id s1
      let s3 := if partl then { s2 with job_log := s2.job_log.take job_log_len } else s2
      if final = false then
        let s4 := { s3 with initial_report := rep, initial_status := status,
                            initial_score := score }
        .done (update_submission env ctx status SubmissionStatus.PENDING none rep "" s4)
      else
        -- Final
        let score := wrap64 (score + s3.initial_score)
        -- If initial tests haven't passed
        let status :=
          if s3.initial_status ≠ SubmissionStatus.OK ∧ status ≠ SubmissionStatus.JUDGE_ERROR
          then s3.initial_status else status
        .done (update_submission env ctx s3.initial_status status (some score)
          s3.initial_report rep s3)

/-- The callback given to `jworker.judge`: `send_judge_report(partial, final,
true)` for each intermediate report in turn; an exception of the callback ends
the pass. -/
def send_partials (env : JudgeEnv) (ctx : JudgeCtx) (final : Bool) :
    List JudgeReport → HState → Res
  | [], s => .done s
  | jreport :: rest, s =>
    match send_judge_report env ctx jreport final true s with
    | .done s1 => send_partials env ctx final rest s1
    | .threw what s1 => .threw what s1

/-- One pass: `jworker.judge(final, logger, callback)` followed by
`send_judge_report(jrep, final, false)` (judge.cc:356-360 and 362-366). -/
def judge_pass (env : JudgeEnv) (ctx : JudgeCtx) (final : Bool) (pass : PassOutcome)
    (s : HState) : Res :=
  match send_partials env ctx final pass.partials s with
  | .threw what s1 => .threw what s1
  | .done s1 =>
    match pass.result with
    | .error what => .threw what s1
    | .ok jrep => send_judge_report env ctx jrep final false s1

/-- The body of the `try` block (judge.cc:352-390): both passes, then
`job_done()`; the two logging loops write to the error log only. -/
def judge_try (env : JudgeEnv) (ctx : JudgeCtx) (s : HState) : Res :=
  match judge_pass env ctx false env.initial_pass s with
  | .threw what s1 => .threw what s1
  | .done s1 =>
    match judge_pass env ctx true env.final_pass s1 with
    | .threw what s2 => .threw what s2
    | .done s2 => .done (job_done ctx s2)

/-- The `catch` block (judge.cc:392-404). -/
def judge_catch (env : JudgeEnv) (ctx : JudgeCtx) (what : String) (s : HState) : HState :=
  let s1 := judge_log "Judge error." s
  let s2 := judge_log ("Caught exception -> " ++ what) s1
  let s3 := update_submission env ctx SubmissionStatus.JUDGE_ERROR SubmissionStatus.JUDGE_ERROR
    none ("<pre>" ++ env.htmlEscape what ++ "</pre>") "" s2
  job_done ctx s3

/-- The first query of the handler (judge.cc:38-47): the join of `submissions`
and `problems` on `p.id=problem_id`, restricted to `s.id=?`; `stmt.next()`
fetches its first row. -/
def select_submission (submission_id : Nat) (db : DB) : Option (SubmissionRow × ProblemRow) :=
  ((db.submissions.filter (fun s => s.id = submission_id)).flatMap (fun s =>
    (db.problems.filter (fun p => p.id = s.problem_id)).map (fun p => (s, p)))).head?

/-- How a run of the handler ends: the database it leaves, and the exception
that leaves the handler, if one does. -/
structure Outcome where
  db : DB
  escaped : Option String := none
  deriving DecidableEq, Repr

/-- The text of the compilation errors as `update_submission` receives it
(judge.cc:145-146 and 167-168). -/
def compilation_errors_report (env : JudgeEnv) (compilation_errors : String) : String :=
  "<pre class=\"compilation-errors\">" ++ env.htmlEscape compilation_errors ++ "</pre>"

/-- The handler from the solution's compilation on (judge.cc:154-405). -/
def compile_solution_and_judge (env : JudgeEnv) (ctx : JudgeCtx)
    (lang : SubmissionLanguage) (s : HState) : Outcome :=
  let s1 := judge_log "Compiling solution..." s
  match to_sol_lang lang with
  | .error what => { db := s1.db, escaped := some what }
  | .ok _ =>
    match env.compile_solution with
    | .threw what => { db := s1.db, escaped := some what }
    | .failed compilation_errors =>
      let s2 := judge_log " failed." s1
      let s3 := update_submission env ctx SubmissionStatus.COMPILATION_ERROR
        SubmissionStatus.COMPILATION_ERROR none
        (compilation_errors_report env compilation_errors) "" s2
      { db := (job_done ctx s3).db }
    | .succeeded =>
      let s2 := judge_log " done." s1
      match judge_try env ctx s2 with
      | .done s3 => { db := s3.db }
      | .threw what s3 => { db := (judge_catch env ctx what s3).db }

/-- The handler from the checker's compilation on (judge.cc:131-405). -/
def compile_checker_and_judge (env : JudgeEnv) (ctx : JudgeCtx)
    (lang : SubmissionLanguage) (s : HState) : Outcome :=
  let s1 := judge_log "Compiling checker..." s
  match env.compile_checker with
  | .threw what => { db := s1.db, escaped := some what }
  | .failed compilation_errors =>
    let s2 := judge_log " failed." s1
    let s3 := update_submission env ctx SubmissionStatus.CHECKER_COMPILATION_ERROR
      SubmissionStatus.CHECKER_COMPILATION_ERROR none
      (compilation_errors_report env compilation_errors) "" s2
    { db := (job_done ctx s3).db }
  | .succeeded =>
    compile_solution_and_judge env ctx lang (judge_log " done." s1)

/-- The log of the job failed for a missing submission (judge.cc:51-52). -/
def no_such_submission_message (submission_id : Nat) : String :=
  "Failed the job of judging the submission " ++ toString submission_id ++
    ", since there is no such submission."

/-- The log of the skipped job (judge.cc:63-65). -/
def skipped_message (submission_id : Nat) : String :=
  "Skipped judging of the submission " ++ toString submission_id ++
    " because it has already been rejudged after this job had been" ++
    " scheduled"

/-- The function `judge_or_rejudge_submission` (judge.cc:25-405). Database
statements are taken to succeed. -/
def judge_or_rejudge_submission (env : JudgeEnv) (job_id submission_id : Nat)
    (job_creation_time : String) (db : DB) : Outcome :=
  let s0 : HState := { db := db, job_log := [] }
  match select_submission submission_id db with
  | none =>
    -- If the submission doesn't exist (probably was removed): fail the job
    let s1 := judge_log (no_such_submission_message submission_id) s0
    { db := (exec_update_job_status job_id JobStatus.FAILED s1).db }
  | some (sub, problem) =>
    if text_lt problem.last_edit sub.last_judgment &&
        text_lt job_creation_time sub.last_judgment then
      -- Skip the job - the submission has already been rejudged
      let s1 := judge_log (skipped_message submission_id) s0
      { db := (exec_update_job_status job_id JobStatus.DONE s1).db }
    else
      let ctx : JudgeCtx :=
        { job_id := job_id, submission_id := submission_id, sowner := sub.owner,
          contest_problem_id := sub.contest_problem_id, problem_id := sub.problem_id,
          judging_began := env.mysql_date }
      let s1 := judge_log "Loading problem package..." s0
      match env.load_package with
      | some what => { db := s1.db, escaped := some what }
      | none => compile_checker_and_judge env ctx sub.language (judge_log " done." s1)

/-! ### Vocabulary for the statements about the handler -/

/-- The condition `construct_report` asserts of a report: every group has a
test. -/
def groups_have_tests (jr : JudgeReport) : Prop :=
  ∀ group ∈ jr.groups, group.tests ≠ []

instance (jr : JudgeReport) : Decidable (groups_have_tests jr) :=
  inferInstanceAs (Decidable (∀ group ∈ jr.groups, group.tests ≠ []))

/-- The sum of the group scores of a report. -/
def total_score (jr : JudgeReport) : Int :=
  (jr.groups.map (fun group => group.score)).sum

/-- Is an integer a value of `int64_t`. -/
def in_int64 (x : Int) : Prop :=
  -9223372036854775808 ≤ x ∧ x < 9223372036854775808

instance (x : Int) : Decidable (in_int64 x) :=
  inferInstanceAs (Decidable (-9223372036854775808 ≤ x ∧ x < 9223372036854775808))

/-- The submission write of a statement, if it is an `UPDATE submissions`. -/
def Stmt.submission_write? : Stmt → Option (Nat × SubmissionWrite)
  | .update_submission submission_id w => some (submission_id, w)
  | _ => none

/-- The most recent `UPDATE submissions` of a trace: the submission id and
the values it bound. -/
def last_submission_write (trace : List Stmt) : Option (Nat × SubmissionWrite) :=
  trace.reverse.findSome? Stmt.submission_write?

/-- The most recent `UPDATE jobs SET status=..., data=?` of a trace: the job
id, the status and the log it bound. -/
def last_job_status_write (trace : List Stmt) : Option (Nat × JobStatus × List String) :=
  trace.reverse.findSome? (fun stmt =>
    match stmt with
    | .update_job_status job_id status data => some (job_id, status, data)
    | _ => none)

/-! ## The job queue of `main.cc` -/

/-- The enumeration `JobQueueType` as the switch of `processJobQueue`
(main.cc:37-56) enumerates it; `other` is a column value outside the six
cases. -/
inductive JobQueueType where
  | JUDGE_SUBMISSION | ADD_PROBLEM | JUDGE_MODEL_SOLUTION
  | REUPLOAD_PROBLEM | EDIT_PROBLEM | DELETE_PROBLEM
  | other (ordinal : Nat)
  deriving DecidableEq, Repr

/-- A row of table `job_queue`, with the columns `main.cc` names. -/
structure JobQueueRow where
  id : Nat
  type : JobQueueType
  aux_id : Option String
  info : String
  creator : String
  status : JobStatus
  priority : Int
  deriving DecidableEq, Repr

/-- The order of `ORDER BY priority DESC, id`: does row `a` come no later than
row `b`. -/
def job_order (a b : JobQueueRow) : Bool :=
  decide (b.priority < a.priority) || (decide (a.priority = b.priority) && decide (a.id ≤ b.id))

/-- Insert a row into a list sorted by `job_order`, after the rows that come
no later. -/
def order_insert (a : JobQueueRow) : List JobQueueRow → List JobQueueRow
  | [] => [a]
  | b :: rest => if job_order b a then b :: order_insert a rest else a :: b :: rest

/-- The clause `ORDER BY priority DESC, id`: the rows sorted by `job_order`. -/
def order_by_priority_desc_id : List JobQueueRow → List JobQueueRow
  | [] => []
  | a :: rest => order_insert a (order_by_priority_desc_id rest)

/-- The query `SELECT id, type, aux_id, info, creator FROM job_queue WHERE
status=PENDING ORDER BY priority DESC, id LIMIT 1` (main.cc:19-22); `none` when
`res.next()` is false. -/
def select_pending (job_queue : List JobQueueRow) : Option JobQueueRow :=
  (order_by_priority_desc_id
    (job_queue.filter (fun row => row.status = JobStatus.PENDING))).head?

/-- The statement `UPDATE job_queue SET status=... WHERE id=` followed by
`job_id` (main.cc:33-34 and 53-54). -/
def set_status_where_id (status : JobStatus) (job_id : Nat)
    (job_queue : List JobQueueRow) : List JobQueueRow :=
  job_queue.map (fun row => if row.id = job_id then { row with status := status } else row)

/-- What the switch of `processJobQueue` does with a fetched job
(main.cc:37-56). -/
inductive Action where
  /-- The call `judgeSubmission(job_id, aux_id, info)`. -/
  | judgeSubmission (job_id : Nat) (aux_id : String) (info : String)
  /-- The call `addProblem(job_id, res[5], info)`. -/
  | addProblem (job_id : Nat) (creator : String) (info : String)
  /-- The call `judgeModelSolution(job_id)`. -/
  | judgeModelSolution (job_id : Nat)
  /-- The update that sets the job's status to CANCELED. -/
  | cancel (job_id : Nat)
  /-- No case of the switch matches. -/
  | nothing
  deriving DecidableEq, Repr

/-- The switch of `processJobQueue` (main.cc:37-56) on the fetched row, with
`aux_id` read as the empty string when it is NULL (main.cc:29). -/
def dispatch (job : JobQueueRow) : Action :=
  let aux_id := match job.aux_id with
    | none => ""
    | some a => a
  match job.type with
  | .JUDGE_SUBMISSION => .judgeSubmission job.id aux_id job.info
  | .ADD_PROBLEM => .addProblem job.id job.creator job.info
  | .JUDGE_MODEL_SOLUTION => .judgeModelSolution job.id
  | .REUPLOAD_PROBLEM => .cancel job.id
  | .EDIT_PROBLEM => .cancel job.id
  | .DELETE_PROBLEM => .cancel job.id
  | .other _ => .nothing

/-- The claim step of one iteration of `processJobQueue` (main.cc:19-34): the
query, the `break` when it fetches nothing (`none`), and otherwise the update
to IN_PROGRESS; it yields the fetched row and the table after the update. -/
def claim_step (job_queue : List JobQueueRow) : Option (JobQueueRow × List JobQueueRow) :=
  match select_pending job_queue with
  | none => none
  | some job => some (job, set_status_where_id JobStatus.IN_PROGRESS job.id job_queue)

/-- The handlers `judgeSubmission`, `addProblem` and `judgeModelSolution`,
whose code is outside the sources: the table a call leaves, and the exception
it throws, if it throws. -/
abbrev Handlers := Action → List JobQueueRow → List JobQueueRow × Option String

/-- Run the action the switch chose; the CANCELED update is part of
`processJobQueue` itself. -/
def run_action (handlers : Handlers) (action : Action) (job_queue : List JobQueueRow) :
    List JobQueueRow × Option String :=
  match action with
  | .cancel job_id => (set_status_where_id JobStatus.CANCELED job_id job_queue, none)
  | .nothing => (job_queue, none)
  | other => handlers other job_queue

/-- One iteration of the loop of `processJobQueue` (main.cc:18-67) when the
query and the update succeed: `none` for the `break`, otherwise the table
after the iteration; an exception of the handler is caught by the loop. -/
def processJobQueue_iteration (handlers : Handlers) (job_queue : List JobQueueRow) :
    Option (List JobQueueRow) :=
  match claim_step job_queue with
  | none => none
  | some (job, claimed) => some (run_action handlers (dispatch job) claimed).1

/-- The loop of `processJobQueue` (main.cc:15-68), for at most `fuel`
iterations: the table when the loop has ended (`some`), or `none` when it is
still running after `fuel` iterations. -/
def processJobQueue (handlers : Handlers) : Nat → List JobQueueRow → Option (List JobQueueRow)
  | 0, _ => none
  | fuel + 1, job_queue =>
    match processJobQueue_iteration handlers job_queue with
    | none => some job_queue
    | some next => processJobQueue handlers fuel next

/-- The statement `UPDATE job_queue SET status=PENDING WHERE
status=IN_PROGRESS` (main.cc:111-113): "Fix jobs that are in progress after
the job-server died". -/
def recover_in_progress (job_queue : List JobQueueRow) : List JobQueueRow :=
  job_queue.map (fun row =>
    if row.status = JobStatus.IN_PROGRESS then { row with status := JobStatus.PENDING } else row)

/-- What the environment decides while `main` runs. -/
structure MainEnv where
  /-- Do the two connections and the recovery update of the `try` block
  (main.cc:107-118) all succeed. -/
  connected : Bool
  /-- How many times `inotify_init()` returns -1 before it succeeds. -/
  inotify_init_failures : Nat
  /-- How many times `inotify_add_watch()` returns -1 in the first call of
  `startWatchingWd` before it succeeds. -/
  add_watch_failures : Nat
  /-- The notifications read in the final loop: for each, how many times
  `inotify_add_watch()` returns -1 when the watch is set up again (none when
  the file was neither moved nor removed). -/
  notifications : List Nat

/-- The steps of `main` that touch the job queue, and its return. -/
inductive MainStep where
  /-- The recovery update (main.cc:111-113). -/
  | recovery
  /-- A call of `processJobQueue()`. -/
  | run_queue
  /-- The statement `return 1` of the `catch` block (main.cc:117). -/
  | return_1
  deriving DecidableEq, Repr

/-- The function `main` (main.cc:70-183) as the sequence of its steps on the
job queue: the `try` block, the loop around `inotify_init`, the first call of
`startWatchingWd`, the call before waiting, and for each notification read
the calls of `startWatchingWd` and the call that ends the loop body. -/
def main_steps (env : MainEnv) : List MainStep :=
  if env.connected then
    [MainStep.recovery]
      ++ List.replicate env.inotify_init_failures MainStep.run_queue
      ++ List.replicate env.add_watch_failures MainStep.run_queue
      ++ [MainStep.run_queue]
      ++ env.notifications.flatMap (fun failures =>
          List.replicate failures MainStep.run_queue ++ [MainStep.run_queue])
  else [MainStep.return_1]

/-- The table after the steps of `main`, each call of `processJobQueue`
running for at most `fuel` iterations; `none` when a call has not ended by
then. -/
def run_main_steps (handlers : Handlers) (fuel : Nat) :
    List MainStep → List JobQueueRow → Option (List JobQueueRow)
  | [], job_queue => some job_queue
  | MainStep.recovery :: rest, job_queue =>
    run_main_steps handlers fuel rest (recover_in_progress job_queue)
  | MainStep.run_queue :: rest, job_queue =>
    match processJobQueue handlers fuel job_queue with
    | none => none
    | some next => run_main_steps handlers fuel rest next
  | MainStep.return_1 :: _, job_queue => some job_queue

/-! ## Two workers on one queue -/

/-- A worker inside the claim step of `processJobQueue`: about to run the
query, holding the row it fetched and about to run the update, running the
job it fetched, or out of the loop because the query fetched nothing. -/
inductive Worker where
  | selecting
  | updating (job : JobQueueRow)
  | running (job : JobQueueRow)
  | idle
  deriving DecidableEq, Repr

/-- Two workers and the table they share. -/
structure Shared where
  job_queue : List JobQueueRow
  first : Worker
  second : Worker
  deriving DecidableEq, Repr

/-- The next statement of a worker inside the claim step (main.cc:19-34): the
query, or the update `SET status=IN_PROGRESS WHERE id=` of the fetched id. A
worker that runs a job or has left the loop takes no further step here. -/
def worker_step (w : Worker) (job_queue : List JobQueueRow) : Worker × List JobQueueRow :=
  match w with
  | .selecting =>
    match select_pending job_queue with
    | none => (.idle, job_queue)
    | some job => (.updating job, job_queue)
  | .updating job => (.running job, set_status_where_id JobStatus.IN_PROGRESS job.id job_queue)
  | .running job => (.running job, job_queue)
  | .idle => (.idle, job_queue)

/-- One step of the worker the schedule names (`false` the first worker,
`true` the second). -/
def shared_step (s : Shared) (who : Bool) : Shared :=
  if who then
    let r := worker_step s.second s.job_queue
    { s with second := r.1, job_queue := r.2 }
  else
    let r := worker_step s.first s.job_queue
    { s with first := r.1, job_queue := r.2 }

/-- Run a schedule from two workers about to run their queries. -/
def run_schedule (job_queue : List JobQueueRow) (schedule : List Bool) : Shared :=
  schedule.foldl shared_step { job_queue := job_queue, first := .selecting, second := .selecting }

/-- The job a worker goes on to run. -/
def Worker.runs : Worker → Option JobQueueRow
  | .running job => some job
  | _ => none

/-- A schedule of the two claim steps: each worker takes exactly two steps
(its query, then its update). -/
def is_interleaving (schedule : List Bool) : Bool :=
  decide (schedule.count false = 2) && decide (schedule.count true = 2)

/-- Do both queries run before the first update: in a schedule of two claim
steps, are the first two steps taken by different workers. -/
def queries_first : List Bool → Bool
  | a :: b :: _ => a != b
  | _ => false

/-! ## Problem packages and `AddOrReuploadProblemBase` -/

/-- A file of a zip archive: its name and its bytes, as text. -/
structure ZipEntry where
  name : String
  content : String
  deriving DecidableEq, Repr

/-- Modelled from the spec: `ZipFile::file_add` is declared in
`simlib/libzip.hh`, which is not among the sources. An archive is the ordered
list of its entries. Adding under a name the archive does not have appends an
entry; adding under a name it has replaces that entry's content where it
stands when the flag `ZIP_FL_OVERWRITE` is given, and is an error without the
flag. -/
def file_add (name content : String) (overwrite : Bool) (zip : List ZipEntry) :
    Except String (List ZipEntry) :=
  if zip.any (fun entry => entry.name = name) then
    if overwrite then
      .ok (zip.map (fun entry => if entry.name = name then { entry with content := content }
        else entry))
    else .error ("file already exists: " ++ name)
  else .ok (zip ++ [{ name := name, content := content }])

/-- Modelled from the spec: `ZipFile::get_index`, the position of the entry
with the given name, if the archive has one. -/
def get_index (name : String) (zip : List ZipEntry) : Option Nat :=
  match zip.findIdx? (fun entry => entry.name = name) with
  | some i => some i
  | none => none

/-- Modelled from the spec: `ZipFile::extract_to_str`, the content of the
entry at the given position; there is nothing to extract without a
position. -/
def extract_to_str (zip : List ZipEntry) (index : Option Nat) : Except String String :=
  match index with
  | none => .error "no such entry"
  | some i =>
    match zip[i]? with
    | some entry => .ok entry.content
    | none => .error "no such entry"

/-- Modelled from the spec: the enumeration `JobType` is declared in
`sim/constants.hh`, which is not among the sources; these are the members the
sources name, `other` stands for every further value. -/
inductive JobType where
  | JUDGE_SUBMISSION
  | ADD_PROBLEM | REUPLOAD_PROBLEM
  | ADD_PROBLEM__JUDGE_MODEL_SOLUTION | REUPLOAD_PROBLEM__JUDGE_MODEL_SOLUTION
  | DELETE_FILE
  | other (ordinal : Nat)
  deriving DecidableEq, Repr

/-- A row of table `jobs` with the columns the sources under `job_server/` and
`lib/jobs.cc` name. -/
structure JobRecord where
  id : Nat
  file_id : Option Nat
  tmp_file_id : Option Nat
  creator : Option Nat
  type : JobType
  priority : Int
  status : JobStatus
  added : String
  aux_id : Option Nat
  info : String
  data : List String
  deriving DecidableEq, Repr

/-- The enumeration `sim::Conver::Status`. -/
inductive ConverStatus where
  | COMPLETE | NEED_MODEL_SOLUTION_JUDGE_REPORT
  deriving DecidableEq, Repr

/-- What the handler reads of a `sim::Simfile`: name, label, solutions, and
the text `dump()` returns. -/
structure SimfileData where
  name : String
  label : String
  solutions : List String
  dump : String
  deriving DecidableEq, Repr

/-- The structure `sim::Conver::ConstructionResult`. -/
structure ConstructionResult where
  simfile : SimfileData
  pkg_main_dir : String
  status : ConverStatus
  deriving DecidableEq, Repr

/-- The collaborators of `AddOrReuploadProblemBase` whose code is outside the
sources, and the constants it takes from them. -/
structure PackageEnv where
  /-- The call `conver.construct_simfile(copts)`: the result, or the exception
  thrown. -/
  construct_simfile : Except String ConstructionResult
  /-- The text `conver.report()` returns. -/
  conver_report : String
  /-- The constant `decltype(Problem::name)::max_len`. -/
  name_max_len : Nat
  /-- The constant `decltype(Problem::label)::max_len`. -/
  label_max_len : Nat
  /-- The function `priority(JobType)`. -/
  priority : JobType → Int
  /-- The function `sim::zip_package_main_dir`. -/
  zip_package_main_dir : List ZipEntry → String
  /-- The constructor `sim::Simfile(simfile_str)` followed by `load_name`,
  `load_label` and `load_solutions`. -/
  parse_simfile : String → Except String SimfileData
  /-- The value of `mysql_date()`. -/
  mysql_date : String

/-- The members of `AddOrReuploadProblemBase` and of its base `JobHandler`
that the functions below read or write. -/
structure AddOrReupload where
  job_id_ : Nat
  job_type_ : JobType
  job_file_id_ : Nat
  job_creator_ : Option Nat
  /-- The text `info_.dump()` returns. -/
  info_dump : String
  problem_id_ : Option Nat
  tmp_file_id_ : Option Nat
  need_main_solution_judge_report_ : Bool
  replace_db_job_log_ : Bool
  simfile_str_ : String
  /-- The file `package_file_remover_` is set to remove. -/
  package_file_remover_ : Option Nat
  zip_ : List ZipEntry
  main_dir_ : String
  simfile_ : Option SimfileData
  current_date_ : String
  /-- The value `failed()` returns. -/
  job_failed : Bool
  /-- The job log `get_log()` returns, as the sequence of the messages
  appended to it. -/
  log : List String
  deriving DecidableEq, Repr

/-- What the handler reaches outside itself: the open transaction, the tables
`jobs` and `internal_files` (with the id its next insertion gets), and the
package files, each under the id of its internal file. -/
structure World where
  in_transaction : Bool
  jobs : List JobRecord
  internal_files : List Nat
  next_internal_file_id : Nat
  files : List (Nat × List ZipEntry)
  deriving DecidableEq, Repr

/-- The handler, what it reaches, and the caller's variable bound to the
reference parameter of `job_done`. -/
structure BState where
  h : AddOrReupload
  w : World
  job_was_canceled : Bool
  deriving DecidableEq, Repr

/-- A run of a member function: it returns in a state, or an exception leaves
it in a state. -/
inductive BRes where
  | done (s : BState)
  | threw (what : String) (s : BState)
  deriving DecidableEq, Repr

/-- The state a run ends in. -/
def BRes.state : BRes → BState
  | .done s => s
  | .threw _ s => s

/-- The archive stored under an internal file id, if there is one. -/
def lookup_file (file_id : Nat) (files : List (Nat × List ZipEntry)) : Option (List ZipEntry) :=
  match files.find? (fun file => file.1 = file_id) with
  | some file => some file.2
  | none => none

/-- Write an archive under an internal file id, replacing what was there. -/
def store_file (file_id : Nat) (zip : List ZipEntry) (files : List (Nat × List ZipEntry)) :
    List (Nat × List ZipEntry) :=
  (file_id, zip) :: files.filter (fun file => file.1 ≠ file_id)

/-- The value of `stmt.affected_rows()` after an update: the number of rows
the update changed. -/
def affected_rows {α : Type} [DecidableEq α] (before after : List α) : Nat :=
  ((before.zip after).filter (fun pair => pair.1 ≠ pair.2)).length

namespace AddOrReuploadProblemBase

/-- Modelled from the spec: `set_failure` is a member of the base class
`JobHandler`, whose code is not among the sources; it appends the message to
the job log and marks the job failed, which `failed()` then reports. -/
def set_failure (message : String) (h : AddOrReupload) : AddOrReupload :=
  { h with log := h.log ++ [message], job_failed := true }

/-- Modelled from the spec: `job_log` is a member of the base class
`JobHandler`; it appends the message to the job log. -/
def job_log (message : String) (h : AddOrReupload) : AddOrReupload :=
  { h with log := h.log ++ [message] }

/-- The loop of `build_package` (add_or_reupload_problem_base.cc:105-114) over
the entries of the source archive still to copy, with the destination archive
so far. -/
def copy_entries (simfile_path simfile_str : String) :
    List ZipEntry → List ZipEntry → Except String (List ZipEntry)
  | [], dest_zip => .ok dest_zip
  | entry :: rest, dest_zip =>
    let added :=
      if entry.name = simfile_path then file_add simfile_path simfile_str false dest_zip
      else file_add entry.name entry.content false dest_zip
    match added with
    | .error what => .error what
    | .ok next => copy_entries simfile_path simfile_str rest next

/-- The function `build_package` (add_or_reupload_problem_base.cc:31-127).
Database statements are taken to succeed. -/
def build_package (env : PackageEnv) (s : BState) : BRes :=
  if s.h.job_failed then .done s
  else if s.w.in_transaction = false then .threw assert_failed s
  else
    -- INSERT INTO internal_files VALUES()
    let tmp := s.w.next_internal_file_id
    let w1 := { s.w with internal_files := s.w.internal_files ++ [tmp],
                         next_internal_file_id := tmp + 1 }
    let h1 := { s.h with replace_db_job_log_ := true, tmp_file_id_ := some tmp }
    match env.construct_simfile with
    | .error what =>
      let failure := set_failure (env.conver_report ++ "Conver failed: " ++ what) h1
      .done { s with w := w1, h := failure }
    | .ok cr =>
      if cr.simfile.name.utf8ByteSize > env.name_max_len then
        let failure := set_failure ("Problem's name is too long (max allowed length: " ++
          toString env.name_max_len ++ ")") h1
        .done { s with w := w1, h := failure }
      else if cr.simfile.label.utf8ByteSize > env.label_max_len then
        let failure := set_failure ("Problem's label is too long (max allowed length: " ++
          toString env.label_max_len ++ ")") h1
        .done { s with w := w1, h := failure }
      else
        let h2 := job_log env.conver_report h1
        -- UPDATE jobs SET tmp_file_id=? WHERE id=?
        let w2 := { w1 with jobs := w1.jobs.map (fun row =>
          if row.id = s.h.job_id_ then { row with tmp_file_id := some tmp } else row) }
        -- Copy source_package to tmp_package, substituting Simfile in the fly
        match lookup_file s.h.job_file_id_ w2.files with
        | none => .threw "cannot open the source package" { s with h := h2, w := w2 }
        | some src_zip =>
          let h3 := { h2 with simfile_str_ := cr.simfile.dump,
                              package_file_remover_ := some tmp }
          match copy_entries (cr.pkg_main_dir ++ "Simfile") cr.simfile.dump src_zip [] with
          | .error what => .threw what { s with h := h3, w := w2 }
          | .ok dest_zip =>
            -- dest_zip.close()
            let w3 := { w2 with files := store_file tmp dest_zip w2.files }
            match cr.status with
            | .COMPLETE =>
              let h4 := { h3 with need_main_solution_judge_report_ := false }
              .done { s with w := w3, h := h4 }
            | .NEED_MODEL_SOLUTION_JUDGE_REPORT =>
              let h4 := { h3 with need_main_solution_judge_report_ := true }
              .done { s with w := w3, h := h4 }

/-- The status and type `job_done` decides on before its update
(add_or_reupload_problem_base.cc:134-167). -/
def job_done_target (h : AddOrReupload) : Except String (JobStatus × JobType) :=
  if h.need_main_solution_judge_report_ then
    match h.job_type_ with
    | .ADD_PROBLEM => .ok (.PENDING, .ADD_PROBLEM__JUDGE_MODEL_SOLUTION)
    | .REUPLOAD_PROBLEM => .ok (.PENDING, .REUPLOAD_PROBLEM__JUDGE_MODEL_SOLUTION)
    | _ => .error "Unexpected job type"
  else
    match h.job_type_ with
    | .ADD_PROBLEM => .ok (.DONE, h.job_type_)
    | .REUPLOAD_PROBLEM => .ok (.DONE, h.job_type_)
    | .ADD_PROBLEM__JUDGE_MODEL_SOLUTION => .ok (.PENDING, .ADD_PROBLEM)
    | .REUPLOAD_PROBLEM__JUDGE_MODEL_SOLUTION => .ok (.PENDING, .REUPLOAD_PROBLEM)
    | _ => .error "Unexpected job type"

/-- The row the update of `job_done` leaves: `UPDATE jobs SET tmp_file_id=?,
type=?, priority=?, status=?, aux_id=?, info=?, data=? WHERE id=? AND
status!=CANCELED` (add_or_reupload_problem_base.cc:169-175). -/
def job_done_row (env : PackageEnv) (h : AddOrReupload) (status : JobStatus) (type : JobType)
    (row : JobRecord) : JobRecord :=
  if row.id = h.job_id_ ∧ row.status ≠ JobStatus.CANCELED then
    { row with tmp_file_id := h.tmp_file_id_, type := type, priority := env.priority type,
               status := status, aux_id := h.problem_id_, info := h.info_dump,
               data := h.log }
  else row


/-- The function `job_done` (add_or_reupload_problem_base.cc:129-177). -/
def job_done (env : PackageEnv) (s : BState) : BRes :=
  if s.h.job_failed then .done s
  else
    match job_done_target s.h with
    | .error what => .threw what s
    | .ok (status, type) =>
      let updated := s.w.jobs.map (job_done_row env s.h status type)
      let w1 := { s.w with jobs := updated }
      .done { s with w := w1, job_was_canceled := decide (affected_rows s.w.jobs updated = 0) }

/-- The function `open_package` (add_or_reupload_problem_base.cc:195-213). -/
def open_package (env : PackageEnv) (s : BState) : BRes :=
  if s.h.job_failed then .done s
  else if s.w.in_transaction = false then .threw assert_failed s
  else
    match s.h.tmp_file_id_ with
    | none => .threw "bad optional access" s
    | some tmp =>
      match lookup_file tmp s.w.files with
      | none => .threw "cannot open the package" s
      | some zip =>
        let main_dir := env.zip_package_main_dir zip
        let h1 := { s.h with zip_ := zip, main_dir_ := main_dir }
        match extract_to_str zip (get_index (main_dir ++ "Simfile") zip) with
        | .error what => .threw what { s with h := h1 }
        | .ok simfile_str =>
          let h2 := { h1 with simfile_str_ := simfile_str }
          match env.parse_simfile simfile_str with
          | .error what => .threw what { s with h := h2 }
          | .ok simfile =>
            let h3 := { h2 with simfile_ := some simfile, current_date_ := env.mysql_date }
            .done { s with h := h3 }

end AddOrReuploadProblemBase

/-! ## The model solution handlers of `judge.cc` -/

/-- A row of table `jobs` with the columns the model solution handlers
write. -/
structure ModelJobRow where
  id : Nat
  type : JobType
  status : JobStatus
  data : List String
  deriving DecidableEq, Repr

/-- A row of table `problems` with the column the handler
`reset_problem_time_limits_using_model_solution` writes. -/
structure ProblemSimfileRow where
  id : Nat
  simfile : String
  deriving DecidableEq, Repr

/-- What the model solution handlers reach: the tables `jobs` and `problems`,
the staged packages `jobs_files/<job id>.zip.prep` and the packages
`problems/<problem id>.zip`, each under its id. -/
structure ModelWorld where
  jobs : List ModelJobRow
  problems : List ProblemSimfileRow
  job_packages : List (Nat × List ZipEntry)
  problem_packages : List (Nat × List ZipEntry)
  deriving DecidableEq, Repr

/-- The collaborators of the model solution handlers whose code is outside
the sources, as data. -/
structure ModelEnv where
  /-- The exception `jworker.load_package` throws, if it throws. -/
  load_package : Option String
  /-- The name `simfile.solutions[0]`. -/
  model_solution : String
  compile_checker : CompileOutcome
  compile_solution : CompileOutcome
  /-- The call `jworker.judge(false, logger)`. -/
  initial_judge : Except String JudgeReport
  /-- The call `jworker.judge(true, logger)`. -/
  final_judge : Except String JudgeReport
  /-- The call `reset_time_limits_using_jugde_reports`: the exception it
  throws, or the text `simfile.dump()` returns after it. -/
  reset_time_limits : Except String String
  /-- The function `sim::zip_package_master_dir`. -/
  zip_package_master_dir : List ZipEntry → String

/-- How a run of a model solution handler ends: what it leaves, and the
exception that leaves the handler, if one does. -/
structure ModelOutcome where
  w : ModelWorld
  escaped : Option String := none
  deriving DecidableEq, Repr

/-- Where the part the two handlers share ends: an exception leaves the
handler, or a compilation or Conver failed and `set_failure` is due, or the
time limits are reset and the manifest is to be stored. -/
inductive ModelRun where
  | escaped (what : String)
  | failed (job_log : List String)
  | calibrated (simfile_str : String) (job_log : List String)
  deriving DecidableEq, Repr

/-- The part the two handlers share, from the log of the model solution's
name to the `try` block around Conver (judge.cc:441-496 and 558-620), started
with the job log so far. -/
def judge_model_solution (env : ModelEnv) (job_log : List String) : ModelRun :=
  let log1 := job_log ++ ["Model solution: " ++ env.model_solution]
  -- Compile checker
  let log2 := log1 ++ ["Compiling checker..."]
  match env.compile_checker with
  | .threw what => .escaped what
  | .failed compilation_errors => .failed (log2 ++ [" failed:\n", compilation_errors])
  | .succeeded =>
    -- Compile the model solution
    let log3 := log2 ++ [" done.", "Compiling the model solution..."]
    match env.compile_solution with
    | .threw what => .escaped what
    | .failed compilation_errors => .failed (log3 ++ [" failed:\n", compilation_errors])
    | .succeeded =>
      -- Judge
      let log4 := log3 ++ [" done.", "Judging..."]
      match env.initial_judge with
      | .error what => .escaped what
      | .ok initial_jrep =>
        match env.final_judge with
        | .error what => .escaped what
        | .ok final_jrep =>
          let log5 := log4 ++ ["Initial judge report: " ++ initial_jrep.judge_log,
            "Final judge report: " ++ final_jrep.judge_log]
          match env.reset_time_limits with
          | .error what => .failed (log5 ++ ["Conver failed: " ++ what])
          | .ok simfile_str => .calibrated simfile_str log5

/-- The block "Put the Simfile in the package" (judge.cc:498-505 and
622-629): the package with the manifest added under the master directory,
overwriting the entry of that name. -/
def put_simfile (env : ModelEnv) (simfile_str : String) (zip : List ZipEntry) :
    Except String (List ZipEntry) :=
  file_add (env.zip_package_master_dir zip ++ "Simfile") simfile_str true zip

/-- The effect of the `FileRemover` on `jobs_files/<job id>.zip.prep` when it
is destroyed without `cancel()`. -/
def remove_job_package (job_id : Nat) (w : ModelWorld) : ModelWorld :=
  { w with job_packages := w.job_packages.filter (fun file => file.1 ≠ job_id) }

/-- The lambda `set_failure` of `problem_add_or_reupload_jugde_model_solution`
(judge.cc:425-430): `UPDATE jobs SET status=FAILED, data=CONCAT(data,?) WHERE
id=? AND status!=CANCELED`. -/
def set_failure_concat (job_id : Nat) (job_log : List String) (jobs : List ModelJobRow) :
    List ModelJobRow :=
  jobs.map (fun row =>
    if row.id = job_id ∧ row.status ≠ JobStatus.CANCELED then
      { row with status := JobStatus.FAILED, data := row.data ++ job_log }
    else row)

/-- The last update of `problem_add_or_reupload_jugde_model_solution`
(judge.cc:507-510): `UPDATE jobs SET type=?, status=PENDING,
data=CONCAT(data,?) WHERE id=? AND status!=CANCELED`. -/
def requeue_job (job_id : Nat) (original_job_type : JobType) (job_log : List String)
    (jobs : List ModelJobRow) : List ModelJobRow :=
  jobs.map (fun row =>
    if row.id = job_id ∧ row.status ≠ JobStatus.CANCELED then
      { row with type := original_job_type, status := JobStatus.PENDING,
                 data := row.data ++ job_log }
    else row)

/-- The function `problem_add_or_reupload_jugde_model_solution`
(judge.cc:407-514). The staged package is removed on every way out of the
function except after an update that changed a row. -/
def problem_add_or_reupload_jugde_model_solution (env : ModelEnv) (job_id : Nat)
    (original_job_type : JobType) (w : ModelWorld) : ModelOutcome :=
  let job_log := ["Stage: Judging the model solution"]
  match env.load_package with
  | some what => { w := remove_job_package job_id w, escaped := some what }
  | none =>
    match judge_model_solution env job_log with
    | .escaped what => { w := remove_job_package job_id w, escaped := some what }
    | .failed log =>
      { w := remove_job_package job_id { w with jobs := set_failure_concat job_id log w.jobs } }
    | .calibrated simfile_str log =>
      -- Put the Simfile in the package
      match lookup_file job_id w.job_packages with
      | none => { w := remove_job_package job_id w, escaped := some "cannot open the package" }
      | some zip =>
        match put_simfile env simfile_str zip with
        | .error what => { w := remove_job_package job_id w, escaped := some what }
        | .ok written =>
          let w1 : ModelWorld :=
            { w with job_packages := store_file job_id written w.job_packages }
          let updated := requeue_job job_id original_job_type log w1.jobs
          let w2 : ModelWorld := { w1 with jobs := updated }
          if affected_rows w1.jobs updated > 0 then
            -- The job was not canceled
            { w := w2 }
          else { w := remove_job_package job_id w2 }

/-- The lambda `set_failure` of
`reset_problem_time_limits_using_model_solution` (judge.cc:531-537): `UPDATE
jobs SET status=FAILED, data=? WHERE id=? AND status!=CANCELED`. -/
def set_failure_replace (job_id : Nat) (job_log : List String) (jobs : List ModelJobRow) :
    List ModelJobRow :=
  jobs.map (fun row =>
    if row.id = job_id ∧ row.status ≠ JobStatus.CANCELED then
      { row with status := JobStatus.FAILED, data := job_log }
    else row)

/-- The function `reset_problem_time_limits_using_model_solution`
(judge.cc:516-638). -/
def reset_problem_time_limits_using_model_solution (env : ModelEnv) (job_id problem_id : Nat)
    (w : ModelWorld) : ModelOutcome :=
  let job_log := ["Judging the model solution"]
  -- Check if the problem still exists
  if (w.problems.filter (fun row => row.id = problem_id)).isEmpty then
    let log := job_log ++ ["Problem with ID " ++ toString problem_id ++ " does not exist"]
    { w := { w with jobs := set_failure_replace job_id log w.jobs } }
  else
    match env.load_package with
    | some what => { w := w, escaped := some what }
    | none =>
      match judge_model_solution env job_log with
      | .escaped what => { w := w, escaped := some what }
      | .failed log => { w := { w with jobs := set_failure_replace job_id log w.jobs } }
      | .calibrated simfile_str log =>
        -- Put the Simfile in the package
        match lookup_file problem_id w.problem_packages with
        | none => { w := w, escaped := some "cannot open the package" }
        | some zip =>
          match put_simfile env simfile_str zip with
          | .error what => { w := w, escaped := some what }
          | .ok written =>
            let stored := store_file problem_id written w.problem_packages
            let w1 : ModelWorld := { w with problem_packages := stored }
            -- UPDATE problems SET simfile=? WHERE id=?
            let w2 : ModelWorld := { w1 with problems := w1.problems.map (fun row =>
              if row.id = problem_id then { row with simfile := simfile_str } else row) }
            -- UPDATE jobs SET status=DONE, data=? WHERE id=?
            let w3 : ModelWorld := { w2 with jobs := w2.jobs.map (fun row =>
              if row.id = job_id then { row with status := JobStatus.DONE, data := log }
              else row) }
            { w := w3 }

/-- What the loop of `build_package` adds to the destination for an entry of
the source: the new manifest under the entry's name when that name is the
manifest's path, the entry itself otherwise. -/
def copied_entry (simfile_path simfile_str : String) (entry : ZipEntry) : ZipEntry :=
  if entry.name = simfile_path then { name := simfile_path, content := simfile_str }
  else entry

/-! ## The `try` block and the handlers of `processJobQueue` -/

/-- What a `throw` inside the `try` block of `processJobQueue` throws: an
object of a class derived from `std::exception`, or anything else. -/
inductive Thrown where
  | std_exception (what : String)
  | other
  deriving DecidableEq, Repr

/-- What the environment decides in one iteration of the loop: which
statements of the database connection throw, and what the handlers do. -/
structure IterationEnv where
  /-- The call `db_conn.executeQuery` (main.cc:19-22) throws. -/
  query : Option Thrown
  /-- Reading the columns of the fetched row or the update to IN_PROGRESS
  (main.cc:27-34) throws. -/
  claim : Option Thrown
  /-- The update to CANCELED (main.cc:53-54) throws. -/
  cancel : Option Thrown
  /-- The calls `judgeSubmission`, `addProblem` and `judgeModelSolution`: the
  table a call leaves and what it throws, if it throws. -/
  handlers : Action → List JobQueueRow → List JobQueueRow × Option Thrown

/-- How the `try` block of one iteration ends. -/
inductive TryResult where
  /-- The statement `break` (main.cc:24-25). -/
  | break_loop
  /-- The end of the block is reached. -/
  | completed (job_queue : List JobQueueRow)
  /-- An exception leaves the block. -/
  | threw (thrown : Thrown) (job_queue : List JobQueueRow)
  deriving DecidableEq, Repr

/-- The `try` block of `processJobQueue` (main.cc:18-57). -/
def try_block (env : IterationEnv) (job_queue : List JobQueueRow) : TryResult :=
  match env.query with
  | some thrown => .threw thrown job_queue
  | none =>
    match select_pending job_queue with
    | none => .break_loop
    | some job =>
      -- Change job status to IN_PROGRESS
      match env.claim with
      | some thrown => .threw thrown job_queue
      | none =>
        let claimed := set_status_where_id JobStatus.IN_PROGRESS job.id job_queue
        -- Take action depending on the job type
        match dispatch job with
        | .cancel job_id =>
          match env.cancel with
          | some thrown => .threw thrown claimed
          | none => .completed (set_status_where_id JobStatus.CANCELED job_id claimed)
        | .nothing => .completed claimed
        | action =>
          match env.handlers action claimed with
          | (next, some thrown) => .threw thrown next
          | (next, none) => .completed next

/-- The handler of the `try` block that takes an exception. -/
inductive CatchClause where
  /-- The clause `catch (const std::exception& e)` (main.cc:58-61). -/
  | std_exception_clause (what : String)
  /-- The clause `catch (...)` (main.cc:63-66). -/
  | ellipsis_clause
  deriving DecidableEq, Repr

/-- The handlers of the `try` block in their order (main.cc:58-67): the
first that matches takes the exception; `none` would be an exception no
handler matches. -/
def catch_clauses (thrown : Thrown) : Option CatchClause :=
  match thrown with
  | .std_exception what => some (.std_exception_clause what)
  | _ => some .ellipsis_clause

/-- How a run of `processJobQueue` stands: it has returned, it is still in
the loop after the iterations it was given, or an exception has left the
function. Each carries the table and the number of calls `usleep(3e6)`. -/
inductive QueueRun where
  | returned (job_queue : List JobQueueRow) (sleeps : Nat)
  | running (job_queue : List JobQueueRow) (sleeps : Nat)
  | propagated (thrown : Thrown)
  deriving DecidableEq, Repr

/-- The function `processJobQueue` (main.cc:15-68) for at most `fuel`
iterations, `iteration` counting those before; `env` gives the environment
of each iteration. -/
def processJobQueue_run (env : Nat → IterationEnv) :
    Nat → Nat → List JobQueueRow → Nat → QueueRun
  | 0, _, job_queue, sleeps => .running job_queue sleeps
  | fuel + 1, iteration, job_queue, sleeps =>
    match try_block (env iteration) job_queue with
    | .break_loop => .returned job_queue sleeps
    | .completed next => processJobQueue_run env fuel (iteration + 1) next sleeps
    | .threw thrown next =>
      match catch_clauses thrown with
      | none => .propagated thrown
      | some _ =>
        -- Give up for a couple of seconds to not litter the error log
        processJobQueue_run env fuel (iteration + 1) next (sleeps + 1)

/-! ## The handler of `delete_internal_file_job_handler.cc` -/

/-- What `DeleteInternalFileJobHandler::run` reaches: the ids whose file
`internal_file_path(id)` exists, the ids of table `internal_files`, table
`jobs`, and the number of transactions committed. -/
structure FileWorld where
  blobs : List Nat
  internal_files : List Nat
  jobs : List JobRow
  committed : Nat
  deriving DecidableEq, Repr

/-- The members of `DeleteInternalFileJobHandler` the function `run` reads,
with the log of the job. -/
structure DeleteInternalFileJobHandler where
  job_id : Nat
  internal_file_id : Nat
  log : List String
  deriving DecidableEq, Repr

namespace DeleteInternalFileJobHandler

/-- The call `unlink(internal_file_path(internal_file_id))`, whose result the
handler discards: the file is gone afterwards unless it was there and the
call failed (`unlink_fails`); a call on a file that is not there changes
nothing. -/
def unlink (unlink_fails : Bool) (internal_file_id : Nat) (blobs : List Nat) : List Nat :=
  if unlink_fails then blobs else blobs.filter (fun id => id ≠ internal_file_id)

/-- Modelled from the spec: `job_done` is a member of the base class
`JobHandler`, whose code is not among the sources; it marks the job DONE and
stores the job log: `UPDATE jobs SET status=DONE, data=? WHERE id=?`. -/
def job_done (h : DeleteInternalFileJobHandler) (jobs : List JobRow) : List JobRow :=
  set_job_status_data h.job_id JobStatus.DONE h.log jobs

/-- The function `DeleteInternalFileJobHandler::run`
(delete_internal_file_job_handler.cc:7-21), its statements to the database
succeeding. -/
def run (unlink_fails : Bool) (h : DeleteInternalFileJobHandler) (w : FileWorld) :
    DeleteInternalFileJobHandler × FileWorld :=
  let h1 := { h with log := h.log ++ ["Internal file ID: " ++ toString h.internal_file_id] }
  let blobs := unlink unlink_fails h1.internal_file_id w.blobs
  -- auto transaction = mysql.start_transaction();
  -- The internal_file may already be deleted
  let internal_files := w.internal_files.filter (fun id => id ≠ h1.internal_file_id)
  let jobs := job_done h1 w.jobs
  (h1, { blobs := blobs, internal_files := internal_files, jobs := jobs,
         committed := w.committed + 1 })

end DeleteInternalFileJobHandler

/-! ## Submitting the solutions of a package -/

/-- The enumeration `sim::SolutionLanguage` as the switch of
`filename_to_lang` (add_or_reupload_problem_base.cc:183-190) enumerates
it. -/
inductive PackageSolutionLanguage where
  | C11 | CPP11 | CPP14 | CPP17 | PASCAL | UNKNOWN
  deriving DecidableEq, Repr

/-- The enumeration `SubmissionLanguage` as `filename_to_lang`
(add_or_reupload_problem_base.cc:179-193) names its members. -/
inductive PackageSubmissionLanguage where
  | C11 | CPP11 | CPP14 | CPP17 | PASCAL
  deriving DecidableEq, Repr

/-- A row of table `submissions` with the columns `submit_solutions`
inserts. -/
structure SolutionSubmission where
  id : Nat
  file_id : Nat
  owner : Option Nat
  problem_id : Option Nat
  contest_problem_id : Option Nat
  contest_round_id : Option Nat
  contest_id : Option Nat
  type : SubmissionType
  language : PackageSubmissionLanguage
  initial_status : SubmissionStatus
  full_status : SubmissionStatus
  submit_time : String
  last_judgment : String
  initial_report : String
  final_report : String
  deriving DecidableEq, Repr

/-- The collaborators of `submit_solutions` whose code is outside the
sources. -/
structure SubmitEnv where
  /-- The function `sim::filename_to_lang`. -/
  sim_filename_to_lang : String → PackageSolutionLanguage
  /-- The value of `mysql_date(0)`. -/
  zero_date : String
  /-- The function `priority(JobType)`. -/
  priority : JobType → Int
  /-- The function `jobs::dump_string`. -/
  dump_string : String → String

/-- What `submit_solutions` reaches: the open transaction, the tables `jobs`,
`submissions` and `internal_files`, each with the id its next insertion gets,
and the files `internal_file_path(id)` with their content. -/
structure SubmitWorld where
  in_transaction : Bool
  jobs : List JobRecord
  next_job_id : Nat
  submissions : List SolutionSubmission
  next_submission_id : Nat
  internal_files : List Nat
  next_internal_file_id : Nat
  sources : List (Nat × String)
  deriving DecidableEq, Repr

/-- Insert a row into a list sorted by id, after the rows that come no
later. -/
def insert_by_id (a : SolutionSubmission) : List SolutionSubmission → List SolutionSubmission
  | [] => [a]
  | b :: rest => if b.id ≤ a.id then b :: insert_by_id a rest else a :: b :: rest

/-- The clause `ORDER BY id` on rows of table `submissions`. -/
def order_by_id : List SolutionSubmission → List SolutionSubmission
  | [] => []
  | a :: rest => insert_by_id a (order_by_id rest)

namespace AddOrReuploadProblemBase

/-- The static function `filename_to_lang`
(add_or_reupload_problem_base.cc:179-193). -/
def filename_to_lang (env : SubmitEnv) (extension : String) :
    Except String PackageSubmissionLanguage :=
  match env.sim_filename_to_lang extension with
  | .C11 => .ok .C11
  | .CPP11 => .ok .CPP11
  | .CPP14 => .ok .CPP14
  | .CPP17 => .ok .CPP17
  | .PASCAL => .ok .PASCAL
  | .UNKNOWN => .error "Not supported language"

/-- The statement "Delete old solution submissions" of `replace_problem_in_db`
(add_or_reupload_problem_base.cc:276-280): `DELETE FROM submissions WHERE
problem_id=? AND type=?` with the problem and PROBLEM_SOLUTION. -/
def delete_old_solutions (problem_id_ : Option Nat)
    (submissions : List SolutionSubmission) : List SolutionSubmission :=
  submissions.filter (fun row =>
    ¬ (problem_id_.isSome ∧ row.problem_id = problem_id_ ∧
      row.type = SubmissionType.PROBLEM_SOLUTION))

/-- The loop of `submit_solutions` (add_or_reupload_problem_base.cc:301-315)
over the solutions still to submit. -/
def submit_loop (env : SubmitEnv) :
    List String → AddOrReupload × SubmitWorld → Except String (AddOrReupload × SubmitWorld)
  | [], state => .ok state
  | solution :: rest, (h, w) =>
    let h1 := job_log ("Submit: " ++ solution) h
    -- INSERT INTO internal_files VALUES()
    let file_id := w.next_internal_file_id
    let w1 : SubmitWorld :=
      { w with internal_files := w.internal_files ++ [file_id],
               next_internal_file_id := file_id + 1 }
    match filename_to_lang env solution with
    | .error what => .error what
    | .ok lang =>
      let submission : SolutionSubmission :=
        { id := w1.next_submission_id, file_id := file_id, owner := none,
          problem_id := h1.problem_id_, contest_problem_id := none,
          contest_round_id := none, contest_id := none,
          type := SubmissionType.PROBLEM_SOLUTION, language := lang,
          initial_status := SubmissionStatus.PENDING,
          full_status := SubmissionStatus.PENDING, submit_time := h1.current_date_,
          last_judgment := env.zero_date, initial_report := "", final_report := "" }
      let w2 : SubmitWorld :=
        { w1 with submissions := w1.submissions ++ [submission],
                  next_submission_id := w1.next_submission_id + 1 }
      -- Save the submission source code
      match extract_to_str h1.zip_ (get_index (h1.main_dir_ ++ solution) h1.zip_) with
      | .error what => .error what
      | .ok content =>
        submit_loop env rest (h1, { w2 with sources := w2.sources ++ [(file_id, content)] })

/-- The rows the statement `INSERT INTO jobs(...) SELECT ... FROM submissions
... ORDER BY id` (add_or_reupload_problem_base.cc:317-331) inserts for the
rows it selects, the first with the id `next_job_id`. -/
def judge_jobs (env : SubmitEnv) (h : AddOrReupload) (problem_id : Nat) :
    Nat → List SolutionSubmission → List JobRecord
  | _, [] => []
  | next_job_id, submission :: rest =>
    { id := next_job_id, file_id := none, tmp_file_id := none, creator := none,
      type := JobType.JUDGE_SUBMISSION,
      -- Problem's solutions are more important than the ordinary submissions
      priority := env.priority JobType.JUDGE_SUBMISSION + 1,
      status := JobStatus.PENDING, added := h.current_date_, aux_id := some submission.id,
      info := env.dump_string (toString problem_id), data := [] } ::
    judge_jobs env h problem_id (next_job_id + 1) rest

/-- The function `submit_solutions`
(add_or_reupload_problem_base.cc:283-334). -/
def submit_solutions (env : SubmitEnv) (h : AddOrReupload) (w : SubmitWorld) :
    Except String (AddOrReupload × SubmitWorld) :=
  if h.job_failed then .ok (h, w)
  else if w.in_transaction = false then .error assert_failed
  else
    let h1 := job_log "Submitting solutions..." h
    let solutions := match h1.simfile_ with
      | some simfile => simfile.solutions
      | none => []
    match submit_loop env solutions (h1, w) with
    | .error what => .error what
    | .ok (h2, w2) =>
      -- Add jobs to judge the solutions
      match h2.problem_id_ with
      | none => .error "bad optional access"
      | some problem_id =>
        let selected := order_by_id (w2.submissions.filter (fun row =>
          row.problem_id = some problem_id ∧ row.type = SubmissionType.PROBLEM_SOLUTION))
        let inserted := judge_jobs env h2 problem_id w2.next_job_id selected
        let w3 : SubmitWorld :=
          { w2 with jobs := w2.jobs ++ inserted,
                    next_job_id := w2.next_job_id + inserted.length }
        .ok (job_log "Done." h2, w3)

end AddOrReuploadProblemBase

/-! ## User permissions (`users.cc`) -/

/-- Modelled from the spec: the enumeration `UserType` is declared in
`sim/constants.h`, which is not among the sources. The comments of the tables
of `users_get_permissions` name the rows SIM root, Admin, Teacher, Normal for
the indices 0 to 3 of `(uint8_t)type + (id != SIM_ROOT_UID)`, which gives
ADMIN the value 0, TEACHER 1 and NORMAL 2. -/
inductive UserType where
  | ADMIN | TEACHER | NORMAL
  deriving DecidableEq, Repr

/-- The conversion `(uint8_t)` of a `UserType`. -/
def UserType.to_uint8 : UserType → Nat
  | .ADMIN => 0
  | .TEACHER => 1
  | .NORMAL => 2

/-- The flags of `Sim::UserPermissions` that `users_get_permissions` names
(NONE is the value without a flag). -/
inductive Permission where
  | VIEW | EDIT | CHANGE_PASS | ADMIN_CHANGE_PASS | DELETE
  | MAKE_ADMIN | MAKE_TEACHER | MAKE_NORMAL | VIEW_ALL | ADD_USER
  deriving DecidableEq, Repr

/-- A value of `Sim::UserPermissions`: the flags set in it; the operator `|`
is `++`. -/
abbrev UserPermissions := List Permission

namespace PERM

def NONE : UserPermissions := []
def VIEW : UserPermissions := [Permission.VIEW]
def EDIT : UserPermissions := [Permission.EDIT]
def CHANGE_PASS : UserPermissions := [Permission.CHANGE_PASS]
def ADMIN_CHANGE_PASS : UserPermissions := [Permission.ADMIN_CHANGE_PASS]
def DELETE : UserPermissions := [Permission.DELETE]
def MAKE_ADMIN : UserPermissions := [Permission.MAKE_ADMIN]
def MAKE_TEACHER : UserPermissions := [Permission.MAKE_TEACHER]
def MAKE_NORMAL : UserPermissions := [Permission.MAKE_NORMAL]
def VIEW_ALL : UserPermissions := [Permission.VIEW_ALL]
def ADD_USER : UserPermissions := [Permission.ADD_USER]

end PERM

/-- The constant `PERM_ADMIN` of `users_get_permissions` (users.cc:13-14). -/
def PERM_ADMIN : UserPermissions :=
  PERM.VIEW ++ PERM.EDIT ++ PERM.CHANGE_PASS ++ PERM.ADMIN_CHANGE_PASS ++ PERM.DELETE

/-- The expression `(uint8_t)type + (id != SIM_ROOT_UID)` that gives `viewer`
(users.cc:16-17) and `user` (users.cc:37). -/
def rank_index (SIM_ROOT_UID id : String) (type : UserType) : Nat :=
  type.to_uint8 + (if id ≠ SIM_ROOT_UID then 1 else 0)

/-- The function `Sim::users_get_permissions` (users.cc:10-75) for the session
user `session_user_id` of type `session_user_type`. An index outside a table
does not occur, the indices being at most 3. -/
def users_get_permissions (SIM_ROOT_UID session_user_id : String)
    (session_user_type : UserType) (uid : String) (utype : UserType) : UserPermissions :=
  let viewer := rank_index SIM_ROOT_UID session_user_id session_user_type
  if session_user_id = uid then
    let perm : List UserPermissions := [
      -- SIM root
      PERM.VIEW ++ PERM.EDIT ++ PERM.CHANGE_PASS ++ PERM.VIEW_ALL ++
        PERM.MAKE_ADMIN ++ PERM.ADD_USER,
      -- Admin
      PERM.VIEW ++ PERM.EDIT ++ PERM.CHANGE_PASS ++ PERM.MAKE_ADMIN ++
        PERM.MAKE_TEACHER ++ PERM.MAKE_NORMAL ++ PERM.DELETE ++
        PERM.VIEW_ALL ++ PERM.ADD_USER,
      -- Teacher
      PERM.VIEW ++ PERM.EDIT ++ PERM.CHANGE_PASS ++ PERM.MAKE_TEACHER ++
        PERM.MAKE_NORMAL ++ PERM.DELETE ++ PERM.VIEW_ALL,
      -- Normal
      PERM.VIEW ++ PERM.EDIT ++ PERM.CHANGE_PASS ++ PERM.MAKE_NORMAL ++
        PERM.DELETE]
    perm.getD viewer PERM.NONE
  else
    let user := rank_index SIM_ROOT_UID uid utype
    -- Permission table [ viewer ][ user ]
    let perm : List (List UserPermissions) := [
      [ -- SIM root
        -- SIM root
        PERM.VIEW ++ PERM.EDIT ++ PERM.CHANGE_PASS ++ PERM.VIEW_ALL ++
          PERM.ADD_USER,
        -- Admin
        PERM_ADMIN ++ PERM.MAKE_ADMIN ++ PERM.MAKE_TEACHER ++
          PERM.MAKE_NORMAL ++ PERM.VIEW_ALL ++ PERM.ADD_USER,
        -- Teacher
        PERM_ADMIN ++ PERM.MAKE_ADMIN ++ PERM.MAKE_TEACHER ++
          PERM.MAKE_NORMAL ++ PERM.VIEW_ALL ++ PERM.ADD_USER,
        -- Normal
        PERM_ADMIN ++ PERM.MAKE_ADMIN ++ PERM.MAKE_TEACHER ++
          PERM.MAKE_NORMAL ++ PERM.VIEW_ALL ++ PERM.ADD_USER
      ], [ -- Admin
        PERM.VIEW ++ PERM.VIEW_ALL ++ PERM.ADD_USER, -- SIM root
        PERM.VIEW ++ PERM.VIEW_ALL ++ PERM.ADD_USER, -- Admin
        -- Teacher
        PERM_ADMIN ++ PERM.MAKE_TEACHER ++ PERM.MAKE_NORMAL ++
          PERM.VIEW_ALL ++ PERM.ADD_USER,
        -- Normal
        PERM_ADMIN ++ PERM.MAKE_TEACHER ++ PERM.MAKE_NORMAL ++
          PERM.VIEW_ALL ++ PERM.ADD_USER
      ], [ -- Teacher
        PERM.NONE ++ PERM.VIEW_ALL, -- SIM root
        PERM.VIEW ++ PERM.VIEW_ALL, -- Admin
        PERM.VIEW ++ PERM.VIEW_ALL, -- Teacher
        PERM.VIEW ++ PERM.VIEW_ALL -- Normal
      ], [ -- Normal
        PERM.NONE, -- SIM root
        PERM.NONE, -- Admin
        PERM.NONE, -- Teacher
        PERM.NONE -- Normal
      ]]
    (perm.getD viewer []).getD user PERM.NONE

/-! ## The ranking of a contest (`contest.cc`) -/

/-- The structure `RankingRow` of `Contest::ranking` with the members the loop
that prints the places reads; the score is an `int64_t`, of which only the
comparisons matter here. -/
structure RankingRow where
  user_id : String
  name : String
  score : Int
  deriving DecidableEq, Repr

/-- The loop "Rows" of `Contest::ranking` (contest.cc:1463-1470) from index
`i` on, with the current values of `place` and `last_user_score`: the place
printed for each of the rows left. -/
def ranking_places_from : Nat → Nat → Int → List RankingRow → List Nat
  | _, _, _, [] => []
  | i, place, last_user_score, row :: rest =>
    -- Place
    let place1 := if last_user_score ≠ row.score then i + 1 else place
    place1 :: ranking_places_from (i + 1) place1 row.score rest

/-- The places `Contest::ranking` prints for the sorted rows
(contest.cc:1459-1470); with no rows the function has returned before
(contest.cc:1418-1421) and prints no place. -/
def ranking_places (sorted_rows : List RankingRow) : List Nat :=
  match sorted_rows with
  | [] => []
  | front :: _ => ranking_places_from 0 1 front.score sorted_rows

/-! ## Short entry tokens (`contest_entry_token_api.cc`) -/

/-- Lexicographic comparison `<=` of two texts, character by character, a
prefix coming first. -/
def chars_le : List Char → List Char → Bool
  | [], _ => true
  | _ :: _, [] => false
  | a :: as, b :: bs =>
    if a.toNat < b.toNat then true
    else if b.toNat < a.toNat then false
    else chars_le as bs

/-- The comparison `a <= b` of two text buffers. -/
def text_le (a b : String) : Bool :=
  chars_le a.data b.data

/-- A row of table `contest_entry_tokens` with the columns the functions for
short tokens name. -/
structure ContestEntryTokenRow where
  contest_id : String
  short_token : Option String
  short_token_expiration : Option String
  deriving DecidableEq, Repr

/-- How far a call of an API function for short tokens gets: it returns
`api_error400` with a message, or it passes its checks and reaches the
update of the token. -/
inductive TokenCall where
  | api_error400 (message : String)
  | update_reached
  deriving DecidableEq, Repr

/-- The statement `SELECT short_token_expiration FROM contest_entry_tokens
WHERE contest_id=?` with `stmt.next()`: the column of the first row, `none`
when `stmt.next()` is false. -/
def select_short_token_expiration (contest_entry_tokens : List ContestEntryTokenRow)
    (contest_id : String) : Option (Option String) :=
  (contest_entry_tokens.find? (fun row => row.contest_id = contest_id)).map
    (fun row => row.short_token_expiration)

/-- The function `Sim::api_contest_entry_token_short_add`
(contest_entry_token_api.cc:168-198) up to the update of the token, with the
value of `mysql_date()`. -/
def api_contest_entry_token_short_add (mysql_date : String)
    (contest_entry_tokens : List ContestEntryTokenRow) (contest_id : String) : TokenCall :=
  match select_short_token_expiration contest_entry_tokens contest_id with
  | none => .api_error400 "Contest does not have an entry token"
  | some short_token_expiration =>
    if short_token_expiration.isSome &&
        (match short_token_expiration with
          | some value => text_lt mysql_date value
          | none => false) then
      .api_error400 "Contest already has a short entry token"
    else .update_reached

/-- The function `Sim::api_contest_entry_token_short_regen`
(contest_entry_token_api.cc:200-230) up to the update of the token, with the
value of `mysql_date()`. -/
def api_contest_entry_token_short_regen (mysql_date : String)
    (contest_entry_tokens : List ContestEntryTokenRow) (contest_id : String) : TokenCall :=
  match select_short_token_expiration contest_entry_tokens contest_id with
  | none => .api_error400 "Contest does not have an entry token"
  | some short_token_expiration =>
    if !short_token_expiration.isSome ||
        (match short_token_expiration with
          | some value => text_le value mysql_date
          | none => false) then
      .api_error400 "Contest does not have a short entry token"
    else .update_reached

/-! ## Restarting a job (`jobs.cc`) -/

/-- The stages of `jobs::AddProblemInfo`. -/
inductive AddProblemStage where
  | FIRST | SECOND
  deriving DecidableEq, Repr

/-- What `restart_job` reads of a `jobs::AddProblemInfo`: the member `stage`,
and the other members as one text. -/
structure AddProblemInfo where
  stage : AddProblemStage
  options : String
  deriving DecidableEq, Repr

/-- The collaborators of `restart_job` whose code is outside the sources. -/
structure RestartEnv where
  /-- The constructor `jobs::AddProblemInfo {job_info}`. -/
  parse_info : String → AddProblemInfo
  /-- The member function `info.dump()`. -/
  dump : AddProblemInfo → String
  /-- The function `priority(JobType)`. -/
  priority : JobType → Int
  /-- The value of `mysql_date()`. -/
  mysql_date : String

/-- Table `jobs` with the id its next insertion gets, and the number of calls
of `jobs::notify_job_server()`. -/
structure JobsWorld where
  jobs : List JobRecord
  next_job_id : Nat
  notified : Nat
  deriving DecidableEq, Repr

/-- The rows the statement `INSERT INTO jobs(...) SELECT tmp_file_id, NULL,
?, ?, ?, ?, NULL, '', '' FROM jobs WHERE ...` (jobs.cc:24-32) inserts for the
rows it selects, the first with the id `next_job_id`. -/
def delete_file_jobs (env : RestartEnv) : Nat → List JobRecord → List JobRecord
  | _, [] => []
  | next_job_id, row :: rest =>
    { id := next_job_id, file_id := row.tmp_file_id, tmp_file_id := none, creator := none,
      type := JobType.DELETE_FILE, priority := env.priority JobType.DELETE_FILE,
      status := JobStatus.PENDING, added := env.mysql_date, aux_id := none, info := "",
      data := [] } :: delete_file_jobs env (next_job_id + 1) rest

/-- The function `jobs::restart_job(mysql, job_id, job_type, job_info,
notify_job_server)` (jobs.cc:7-54). -/
def restart_job (env : RestartEnv) (job_id : Nat) (job_type : JobType) (job_info : String)
    (notify_job_server : Bool) (w : JobsWorld) : JobsWorld :=
  -- Restart adding / reuploading problem
  let adding := decide (job_type = JobType.ADD_PROBLEM) ||
    decide (job_type = JobType.ADD_PROBLEM__JUDGE_MODEL_SOLUTION)
  let reupload := decide (job_type = JobType.REUPLOAD_PROBLEM) ||
    decide (job_type = JobType.REUPLOAD_PROBLEM__JUDGE_MODEL_SOLUTION)
  let w1 : JobsWorld :=
    if adding || reupload then
      let info : AddProblemInfo := { env.parse_info job_info with stage := .FIRST }
      -- Delete temporary files created during problem adding
      let inserted := delete_file_jobs env w.next_job_id
        (w.jobs.filter (fun row => decide (row.id = job_id) && row.tmp_file_id.isSome))
      let jobs1 := w.jobs ++ inserted
      -- Restart job
      let jobs2 := jobs1.map (fun row =>
        if row.id = job_id then
          { row with type := if adding then JobType.ADD_PROBLEM else JobType.REUPLOAD_PROBLEM,
                     status := JobStatus.PENDING, tmp_file_id := none, info := env.dump info }
        else row)
      { w with jobs := jobs2, next_job_id := w.next_job_id + inserted.length }
    else
      -- Restart job of other type
      { w with jobs := w.jobs.map (fun row =>
          if row.id = job_id then { row with status := JobStatus.PENDING } else row) }
  if notify_job_server then { w1 with notified := w1.notified + 1 } else w1

/-- The function `jobs::restart_job(mysql, job_id, notify_job_server)`
(jobs.cc:56-65), which reads the type and the info of the job. -/
def restart_job_by_id (env : RestartEnv) (job_id : Nat) (notify_job_server : Bool)
    (w : JobsWorld) : JobsWorld :=
  match w.jobs.find? (fun row => row.id = job_id) with
  | some row => restart_job env job_id row.type row.info notify_job_server w
  | none => w

/-! ## Searching the rounds by id (`findWithId` of `contest.cc`) -/

/-- The structure `RankingRound` of `Contest::ranking` with the members
`findWithId` and its caller's sort read. -/
structure RankingRound where
  id : String
  name : String
  deriving DecidableEq, Repr

/-- The loop of `findWithId` (contest.cc:1238-1244) for at most `fuel`
iterations, the iterators `beg` and `end` as positions in `x`: the value of
`beg` when the loop ends, `none` when it has not ended by then or `mid` is
not the position of an element. -/
def findWithId_loop (x : List RankingRound) (id : String) : Nat → Nat → Nat → Option Nat
  | 0, _, _ => none
  | fuel + 1, beg, end_ =>
    if beg ≠ end_ then
      let mid := beg + ((end_ - beg) >>> 1)
      match x[mid]? with
      | none => none
      | some element =>
        if text_lt element.id id then findWithId_loop x id fuel (mid + 1) end_
        else findWithId_loop x id fuel beg mid
    else some beg

/-- The function `findWithId` (contest.cc:1233-1246): the position of the
element it returns an iterator to, `x.length` for `x.end()`; the loop is
given one iteration more than `x` has elements. -/
def findWithId (x : List RankingRound) (id : String) : Option Nat :=
  match findWithId_loop x id (x.length + 1) 0 x.length with
  | none => none
  | some beg =>
    if beg ≠ x.length ∧ (x[beg]?).map (fun element => element.id) = some id then some beg
    else some x.length

/-! ## Example data -/

/-- A job queue with three PENDING jobs, two of them of the greatest
priority, and a finished job of greater priority still. -/
def example_queue : List JobQueueRow :=
  [⟨1, .JUDGE_SUBMISSION, some "7", "", "1", .PENDING, 5⟩,
   ⟨3, .JUDGE_SUBMISSION, some "8", "", "1", .PENDING, 10⟩,
   ⟨2, .ADD_PROBLEM, none, "", "1", .PENDING, 10⟩,
   ⟨4, .JUDGE_SUBMISSION, some "9", "", "1", .DONE, 20⟩]

/-- Handlers that leave the job queue as it is. -/
def example_handlers : Handlers := fun _ job_queue => (job_queue, none)

/-- A job queue with one PENDING job. -/
def example_single : List JobQueueRow :=
  [⟨1, .JUDGE_SUBMISSION, some "7", "", "1", .PENDING, 5⟩]

/-- A report in which the only test passes, with score 3. -/
def report_ok : JudgeReport :=
  { groups := [⟨[⟨"1", .OK, 0, 0, 0, 0, ""⟩], 3, 3⟩] }

/-- A report with a wrong answer, with score 0. -/
def report_wa : JudgeReport :=
  { groups := [⟨[⟨"1", .WA, 0, 0, 0, 0, ""⟩], 0, 3⟩] }

/-- A report with a passed group of score 5 and a checker error. -/
def report_checker_error : JudgeReport :=
  { groups := [⟨[⟨"1", .OK, 0, 0, 0, 0, ""⟩], 5, 5⟩,
               ⟨[⟨"2", .CHECKER_ERROR, 0, 0, 0, 0, ""⟩], 0, 5⟩] }

/-- A report with two passed groups, with score 5. -/
def report_full : JudgeReport :=
  { groups := [⟨[⟨"1", .OK, 0, 0, 0, 0, ""⟩], 3, 3⟩,
               ⟨[⟨"2", .OK, 0, 0, 0, 0, ""⟩], 2, 2⟩] }

/-- Collaborators for which everything succeeds and the two passes return the
given reports, the initial pass after one intermediate report. -/
def example_env (initial_jrep final_jrep : JudgeReport) : JudgeEnv :=
  { mysql_date := "2020-01-03 00:00:00"
    load_package := none
    compile_checker := .succeeded
    compile_solution := .succeeded
    initial_pass := { partials := [initial_jrep], result := .ok initial_jrep }
    final_pass := { partials := [], result := .ok final_jrep }
    report_html := fun _ final => if final then "final" else "initial"
    htmlEscape := fun text => text
    update_final := fun _ _ _ submissions => submissions }

/-- Submission 7 of problem 2, judged on the second of January. -/
def example_submission : SubmissionRow :=
  ⟨7, .NORMAL, .CPP14, "1", "", 2, false, .OK, .OK, some 3,
    "2020-01-02 00:00:00", "old initial", "old final"⟩

/-- Problem 2, edited on the first of January. -/
def example_problem : ProblemRow := ⟨2, "2020-01-01 00:00:00"⟩

/-- A database with job 4, submission 7 and problem 2. -/
def example_db : DB :=
  { jobs := [⟨4, .IN_PROGRESS, []⟩]
    submissions := [example_submission]
    problems := [example_problem] }

/-- The context of judging submission 7 for job 4. -/
def example_ctx : JudgeCtx :=
  { job_id := 4, submission_id := 7, sowner := "1", contest_problem_id := "",
    problem_id := 2, judging_began := "2020-01-03 00:00:00" }

/-- The state of the handler when the `try` block is entered. -/
def example_state : HState := { db := example_db, job_log := [] }

/-- Collaborators for which the package loads and the checker fails to
compile. -/
def example_env_checker_failed : JudgeEnv :=
  { example_env report_ok report_full with compile_checker := .failed "no main" }

/-- Collaborators for which the package loads and spawning the checker's
compilation throws. -/
def example_env_checker_threw : JudgeEnv :=
  { example_env report_ok report_full with compile_checker := .threw "cannot spawn" }

/-- Collaborators for which both compilations succeed and the final pass
throws. -/
def example_env_final_threw : JudgeEnv :=
  { example_env report_ok report_full with
    final_pass := { partials := [], result := .error "sandbox died" } }

/-- A source package with a manifest, a statement and a solution. -/
def example_source : List ZipEntry :=
  [⟨"p/Simfile", "old manifest"⟩, ⟨"p/doc/statement.pdf", "PDF"⟩,
   ⟨"p/prog/sol.cpp", "int main() {}"⟩]

/-- A source package with a statement and a solution and no manifest. -/
def example_source_without_simfile : List ZipEntry :=
  [⟨"p/doc/statement.pdf", "PDF"⟩, ⟨"p/prog/sol.cpp", "int main() {}"⟩]

/-- The manifest Conver constructs in the examples, complete as it is. -/
def example_cr : ConstructionResult :=
  { simfile := { name := "Sum", label := "sum", solutions := ["prog/sol.cpp"],
                 dump := "new manifest" }
    pkg_main_dir := "p/"
    status := .COMPLETE }

/-- Collaborators for which Conver constructs `example_cr`. -/
def example_package_env : PackageEnv :=
  { construct_simfile := .ok example_cr
    conver_report := "report"
    name_max_len := 128
    label_max_len := 64
    priority := fun _ => 5
    zip_package_main_dir := fun _ => "p/"
    parse_simfile := fun text =>
      .ok { name := "Sum", label := "sum", solutions := ["prog/sol.cpp"], dump := text }
    mysql_date := "2020-01-03 00:00:00" }

/-- The handler of job 9, which adds a problem from internal file 1. -/
def example_handler : AddOrReupload :=
  { job_id_ := 9, job_type_ := .ADD_PROBLEM, job_file_id_ := 1, job_creator_ := some 1,
    info_dump := "info", problem_id_ := none, tmp_file_id_ := none,
    need_main_solution_judge_report_ := false, replace_db_job_log_ := false,
    simfile_str_ := "", package_file_remover_ := none, zip_ := [], main_dir_ := "",
    simfile_ := none, current_date_ := "", job_failed := false, log := [] }

/-- Job 9 in progress and the given source package under internal file 1,
inside a transaction. -/
def example_bstate (source : List ZipEntry) : BState :=
  { h := example_handler
    w := { in_transaction := true
           jobs := [⟨9, some 1, none, some 1, .ADD_PROBLEM, 5, .IN_PROGRESS,
                     "2020-01-03 00:00:00", none, "info", []⟩]
           internal_files := [1]
           next_internal_file_id := 2
           files := [(1, source)] }
    job_was_canceled := false }

/-- Collaborators for which the name of the constructed manifest, three bytes
long, exceeds the maximum of two. -/
def example_package_env_short_names : PackageEnv :=
  { example_package_env with name_max_len := 2 }

/-- Collaborators for which Conver asks for the model solution's report. -/
def example_package_env_need_report : PackageEnv :=
  { example_package_env with
    construct_simfile := .ok { example_cr with status := .NEED_MODEL_SOLUTION_JUDGE_REPORT } }

/-- The example database with job 4 canceled. -/
def example_db_canceled : DB :=
  { example_db with jobs := [⟨4, .CANCELED, []⟩] }

/-- Job 9 canceled while its handler runs, inside a transaction. -/
def example_bstate_canceled : BState :=
  { h := example_handler
    w := { in_transaction := true
           jobs := [⟨9, some 1, none, some 1, .ADD_PROBLEM, 5, .CANCELED,
                     "2020-01-03 00:00:00", none, "info", []⟩]
           internal_files := [1]
           next_internal_file_id := 2
           files := [(1, example_source)] }
    job_was_canceled := false }

/-- Collaborators of the model solution handlers for which everything
succeeds. -/
def example_model_env : ModelEnv :=
  { load_package := none
    model_solution := "prog/sol.cpp"
    compile_checker := .succeeded
    compile_solution := .succeeded
    initial_judge := .ok report_ok
    final_judge := .ok report_full
    reset_time_limits := .ok "new manifest"
    zip_package_master_dir := fun _ => "p/" }

/-- Job 9 canceled, with its staged package and problem 2 with its package. -/
def example_model_world_canceled : ModelWorld :=
  { jobs := [⟨9, .ADD_PROBLEM__JUDGE_MODEL_SOLUTION, .CANCELED, ["added"]⟩]
    problems := [⟨2, "old manifest"⟩]
    job_packages := [(9, example_source)]
    problem_packages := [(2, example_source)] }

/-- Collaborators of the model solution handlers for which Conver fails to
reset the time limits. -/
def example_model_env_conver_failed : ModelEnv :=
  { example_model_env with reset_time_limits := .error "model solution failed" }

/-- Job 9 in progress, with its staged package and problem 2 with its
package. -/
def example_model_world : ModelWorld :=
  { jobs := [⟨9, .ADD_PROBLEM__JUDGE_MODEL_SOLUTION, .IN_PROGRESS, ["added"]⟩]
    problems := [⟨2, "old manifest"⟩]
    job_packages := [(9, example_source)]
    problem_packages := [(2, example_source)] }

/-- An environment in which the query of the first iteration throws an
object that is not a `std::exception`, the first call of a handler throws a
`std::exception`, and nothing throws afterwards. -/
def example_iterations : Nat → IterationEnv := fun iteration =>
  { query := if iteration = 0 then some Thrown.other else none
    claim := none
    cancel := none
    handlers := fun _ job_queue =>
      (job_queue, if iteration = 1 then some (Thrown.std_exception "handler") else none) }

/-- A file store with the files 5 and 6, both registered, and the job 11 in
progress. -/
def example_file_world : FileWorld :=
  { blobs := [5, 6], internal_files := [5, 6], jobs := [⟨11, .IN_PROGRESS, []⟩],
    committed := 0 }

/-- The handler of job 11, which deletes the internal file 5. -/
def example_delete_handler : DeleteInternalFileJobHandler :=
  { job_id := 11, internal_file_id := 5, log := [] }

/-- Collaborators of `submit_solutions`: the language by the extension, and
priority 5 for judging a submission. -/
def example_submit_env : SubmitEnv :=
  { sim_filename_to_lang := fun solution =>
      if solution = "prog/sol.cpp" then .CPP14
      else if solution = "doc/statement.pdf" then .UNKNOWN else .C11
    zero_date := "0000-00-00 00:00:00"
    priority := fun _ => 5
    dump_string := fun text => text }

/-- The handler of job 9 with the package open and problem 2 inserted, whose
manifest lists the solution `prog/sol.cpp` twice. -/
def example_submit_handler : AddOrReupload :=
  { job_id_ := 9, job_type_ := .ADD_PROBLEM, job_file_id_ := 30, job_creator_ := some 1,
    info_dump := "", problem_id_ := some 2, tmp_file_id_ := none,
    need_main_solution_judge_report_ := false, replace_db_job_log_ := false,
    simfile_str_ := "", package_file_remover_ := none, zip_ := example_source,
    main_dir_ := "p/",
    simfile_ := some ⟨"name", "label", ["prog/sol.cpp", "prog/sol.cpp"], ""⟩,
    current_date_ := "2020-01-03 00:00:00", job_failed := false, log := [] }

/-- An open transaction on empty tables whose next ids are 40 for jobs, 70
for submissions and 31 for internal files. -/
def example_submit_world : SubmitWorld :=
  { in_transaction := true, jobs := [], next_job_id := 40, submissions := [],
    next_submission_id := 70, internal_files := [30], next_internal_file_id := 31,
    sources := [] }

/-- Four rows sorted by score, two of them with the same score. -/
def example_ranking : List RankingRow :=
  [⟨"4", "a", 300⟩, ⟨"2", "b", 200⟩, ⟨"7", "c", 200⟩, ⟨"1", "d", 0⟩]

/-- Contest 1 with a short token that expires on the fifth of January,
contest 2 with an entry token and no short token. -/
def example_tokens : List ContestEntryTokenRow :=
  [⟨"1", some "abc", some "2020-01-05 00:00:00"⟩, ⟨"2", none, none⟩]

/-- Collaborators of `restart_job`: the info is the stage digit followed by
the options. -/
def example_restart_env : RestartEnv :=
  { parse_info := fun text =>
      { stage := if text.data.head? = some '2' then .SECOND else .FIRST,
        options := String.mk text.data.tail }
    dump := fun info =>
      (match info.stage with
        | .FIRST => "1"
        | .SECOND => "2") ++ info.options
    priority := fun type => if type = JobType.DELETE_FILE then 3 else 5
    mysql_date := "2020-01-03 00:00:00" }

/-- Job 9 waits for the report of the model solution with the staged file 31;
job 10 judges a submission. -/
def example_jobs_world : JobsWorld :=
  { jobs :=
      [⟨9, some 30, some 31, some 1, .ADD_PROBLEM__JUDGE_MODEL_SOLUTION, 5, .FAILED,
        "2020-01-01 00:00:00", none, "2opts", ["log"]⟩,
       ⟨10, none, none, some 1, .JUDGE_SUBMISSION, 5, .DONE,
        "2020-01-02 00:00:00", some 7, "", ["judged"]⟩]
    next_job_id := 11
    notified := 0 }

/-- Three rounds sorted by id as text. -/
def example_rounds : List RankingRound :=
  [⟨"10", "a"⟩, ⟨"2", "b"⟩, ⟨"31", "c"⟩]

/-- A job queue whose PENDING job of greatest priority is of type
REUPLOAD_PROBLEM, followed by a PENDING job of a type outside the switch. -/
def example_reupload_queue : List JobQueueRow :=
  [⟨5, .REUPLOAD_PROBLEM, none, "", "1", .PENDING, 10⟩,
   ⟨6, .other 9, none, "", "1", .PENDING, 5⟩]

/-- Handlers that set every job FAILED and throw. -/
def example_failing_handlers : Handlers := fun _ job_queue =>
  (job_queue.map (fun row => { row with status := JobStatus.FAILED }), some "failed")

/-! ## Status resolution (`calc_status`) -/

theorem checker_error_in_tests_iff (tests : List Test) :
    checker_error_in_tests tests = true ↔
      ∃ test ∈ tests, test.status = TestStatus.CHECKER_ERROR := by
  induction tests with
  | nil => simp [checker_error_in_tests]
  | cons test rest ih =>
    by_cases h : test.status = TestStatus.CHECKER_ERROR
    · simp [checker_error_in_tests, h]
    · simp [checker_error_in_tests, h, ih]

theorem checker_error_in_groups_iff (groups : List Group) :
    checker_error_in_groups groups = true ↔
      ∃ group ∈ groups, ∃ test ∈ group.tests, test.status = TestStatus.CHECKER_ERROR := by
  induction groups with
  | nil => simp [checker_error_in_groups]
  | cons group rest ih =>
    by_cases h : checker_error_in_tests group.tests = true
    · have h2 := (checker_error_in_tests_iff group.tests).1 h
      simp only [checker_error_in_groups, h, if_true, true_iff]
      exact ⟨group, List.mem_cons_self _ _, h2⟩
    · have h2 : ¬ ∃ test ∈ group.tests, test.status = TestStatus.CHECKER_ERROR :=
        fun hx => h ((checker_error_in_tests_iff group.tests).2 hx)
      simp only [checker_error_in_groups, h, List.mem_cons, exists_eq_or_imp]
      simpa [h2] using ih

theorem judge_error_of_checker_error (jr : JudgeReport)
    (h : ∃ group ∈ jr.groups, ∃ test ∈ group.tests,
      test.status = TestStatus.CHECKER_ERROR) :
    calc_status jr = .ok SubmissionStatus.JUDGE_ERROR := by
  have hc := (checker_error_in_groups_iff jr.groups).2 h
  simp [calc_status, hc]

/-- C1: a report in which some test has status CHECKER_ERROR resolves to
JUDGE_ERROR, whatever the other tests are and wherever they stand. -/
theorem calc_status_checker_error (jr : JudgeReport)
    (h : ∃ group ∈ jr.groups, ∃ test ∈ group.tests,
      test.status = TestStatus.CHECKER_ERROR) :
    calc_status jr = .ok SubmissionStatus.JUDGE_ERROR :=
  judge_error_of_checker_error jr h

theorem calc_status_checker_error_witness :
    (∃ group ∈ (JudgeReport.mk
        [⟨[⟨"1", .WA, 0, 0, 0, 0, ""⟩], 0, 10⟩,
         ⟨[⟨"2a", .OK, 0, 0, 0, 0, ""⟩, ⟨"2b", .CHECKER_ERROR, 0, 0, 0, 0, ""⟩], 0, 10⟩] "").groups,
      ∃ test ∈ group.tests, test.status = TestStatus.CHECKER_ERROR) ∧
    calc_status (JudgeReport.mk
        [⟨[⟨"1", .WA, 0, 0, 0, 0, ""⟩], 0, 10⟩,
         ⟨[⟨"2a", .OK, 0, 0, 0, 0, ""⟩, ⟨"2b", .CHECKER_ERROR, 0, 0, 0, 0, ""⟩], 0, 10⟩] "")
      = .ok SubmissionStatus.JUDGE_ERROR :=
  ⟨by decide, calc_status_checker_error _ (by decide)⟩

/-- The test of `first_failure_status`: neither OK nor SKIPPED. -/
theorem first_error_in_tests_eq (tests : List Test)
    (h : ∀ test ∈ tests, test.status ≠ TestStatus.CHECKER_ERROR) :
    first_error_in_tests tests =
      (tests.find? (fun test =>
        decide (test.status ≠ TestStatus.OK ∧ test.status ≠ TestStatus.SKIPPED))).map
        (fun test => Except.ok (status_of_test test.status)) := by
  induction tests with
  | nil => simp [first_error_in_tests]
  | cons test rest ih =>
    have hrest : ∀ t ∈ rest, t.status ≠ TestStatus.CHECKER_ERROR :=
      fun t ht => h t (List.mem_cons_of_mem _ ht)
    have htest := h test (List.mem_cons_self _ _)
    cases hs : test.status <;>
      simp_all [first_error_in_tests, List.find?_cons, status_of_test]

theorem first_error_in_groups_eq (groups : List Group)
    (h : ∀ group ∈ groups, ∀ test ∈ group.tests, test.status ≠ TestStatus.CHECKER_ERROR) :
    first_error_in_groups groups = .ok (first_failure_status ⟨groups, ""⟩) := by
  induction groups with
  | nil => simp [first_error_in_groups, first_failure_status, all_tests]
  | cons group rest ih =>
    have hrest : ∀ g ∈ rest, ∀ t ∈ g.tests, t.status ≠ TestStatus.CHECKER_ERROR :=
      fun g hg => h g (List.mem_cons_of_mem _ hg)
    have hgroup := first_error_in_tests_eq group.tests (h group (List.mem_cons_self _ _))
    have ih2 := ih hrest
    simp only [first_failure_status, all_tests] at ih2 ⊢
    simp only [first_error_in_groups, hgroup, List.flatMap_cons, List.find?_append]
    cases hf : group.tests.find? (fun test =>
        decide (test.status ≠ TestStatus.OK ∧ test.status ≠ TestStatus.SKIPPED)) with
    | some t => simp
    | none => simpa using ih2

/-- C2: a report without a CHECKER_ERROR test resolves to the status of its
first test, in group order and then test order, that is neither OK nor SKIPPED
(WA to WA, TLE to TLE, MLE to MLE, RTE to RTE), and to OK when every test is OK
or SKIPPED, in particular when it has no groups. -/
theorem calc_status_first_failure (jr : JudgeReport)
    (h : ∀ group ∈ jr.groups, ∀ test ∈ group.tests,
      test.status ≠ TestStatus.CHECKER_ERROR) :
    calc_status jr = .ok (first_failure_status jr) ∧
    (∀ before test after, all_tests jr = before ++ test :: after →
      (∀ t ∈ before, t.status = TestStatus.OK ∨ t.status = TestStatus.SKIPPED) →
      test.status ≠ TestStatus.OK → test.status ≠ TestStatus.SKIPPED →
      calc_status jr = .ok (status_of_test test.status)) ∧
    ((∀ test ∈ all_tests jr, test.status = TestStatus.OK ∨ test.status = TestStatus.SKIPPED) →
      calc_status jr = .ok SubmissionStatus.OK) ∧
    (jr.groups = [] → calc_status jr = .ok SubmissionStatus.OK) := by
  have hno : checker_error_in_groups jr.groups = false := by
    cases hc : checker_error_in_groups jr.groups with
    | false => rfl
    | true =>
      obtain ⟨g, hg, t, ht, hs⟩ := (checker_error_in_groups_iff jr.groups).1 hc
      exact absurd hs (h g hg t ht)
  have hmain : calc_status jr = .ok (first_failure_status jr) := by
    have := first_error_in_groups_eq jr.groups h
    simpa [calc_status, hno, first_failure_status, all_tests] using this
  refine ⟨hmain, ?_, ?_, ?_⟩
  · intro before test after hsplit hbefore hok hskip
    have hnone : before.find? (fun test =>
        decide (test.status ≠ TestStatus.OK ∧ test.status ≠ TestStatus.SKIPPED)) = none := by
      rw [List.find?_eq_none]
      intro t ht
      rcases hbefore t ht with h1 | h1 <;> simp [h1]
    rw [hmain, first_failure_status, hsplit, List.find?_append, hnone]
    simp [List.find?_cons, hok, hskip]
  · intro hall
    have hnone : (all_tests jr).find? (fun test =>
        decide (test.status ≠ TestStatus.OK ∧ test.status ≠ TestStatus.SKIPPED)) = none := by
      rw [List.find?_eq_none]
      intro t ht
      rcases hall t ht with h1 | h1 <;> simp [h1]
    rw [hmain, first_failure_status, hnone]
  · intro hnil
    simp [calc_status, hnil, checker_error_in_groups, first_error_in_groups]

theorem calc_status_first_failure_witness :
    (∀ group ∈ (JudgeReport.mk
        [⟨[⟨"1a", .OK, 0, 0, 0, 0, ""⟩, ⟨"1b", .SKIPPED, 0, 0, 0, 0, ""⟩], 5, 5⟩,
         ⟨[⟨"2a", .TLE, 0, 0, 0, 0, ""⟩, ⟨"2b", .WA, 0, 0, 0, 0, ""⟩], 0, 5⟩] "").groups,
      ∀ test ∈ group.tests, test.status ≠ TestStatus.CHECKER_ERROR) ∧
    calc_status (JudgeReport.mk
        [⟨[⟨"1a", .OK, 0, 0, 0, 0, ""⟩, ⟨"1b", .SKIPPED, 0, 0, 0, 0, ""⟩], 5, 5⟩,
         ⟨[⟨"2a", .TLE, 0, 0, 0, 0, ""⟩, ⟨"2b", .WA, 0, 0, 0, 0, ""⟩], 0, 5⟩] "")
      = .ok SubmissionStatus.TLE :=
  ⟨by decide, (calc_status_first_failure _ (by decide)).1⟩

/-! ## The claim step of `processJobQueue` -/

theorem job_order_total (a b : JobQueueRow) : job_order a b = true ∨ job_order b a = true := by
  simp only [job_order, Bool.or_eq_true, Bool.and_eq_true, decide_eq_true_eq]
  omega

theorem job_order_trans (a b c : JobQueueRow) (hab : job_order a b = true)
    (hbc : job_order b c = true) : job_order a c = true := by
  simp only [job_order, Bool.or_eq_true, Bool.and_eq_true, decide_eq_true_eq] at *
  omega

theorem mem_order_insert (a x : JobQueueRow) (rows : List JobQueueRow) :
    x ∈ order_insert a rows ↔ x = a ∨ x ∈ rows := by
  induction rows with
  | nil => simp [order_insert]
  | cons b rest ih =>
    by_cases h : job_order b a = true
    · simp only [order_insert, h, if_true, List.mem_cons, ih]
      tauto
    · simp [order_insert, h]

theorem mem_order_by (x : JobQueueRow) (rows : List JobQueueRow) :
    x ∈ order_by_priority_desc_id rows ↔ x ∈ rows := by
  induction rows with
  | nil => simp [order_by_priority_desc_id]
  | cons a rest ih => simp [order_by_priority_desc_id, mem_order_insert, ih]

theorem head_order_insert (a : JobQueueRow) (rows : List JobQueueRow) :
    (order_insert a rows).head? =
      match rows with
      | [] => some a
      | b :: _ => if job_order b a then some b else some a := by
  cases rows with
  | nil => simp [order_insert]
  | cons b rest =>
    by_cases h : job_order b a = true <;> simp [order_insert, h]

/-- The first row of the ordered list comes no later than every row. -/
theorem head_order_by_first (rows : List JobQueueRow) (job : JobQueueRow)
    (h : (order_by_priority_desc_id rows).head? = some job) :
    ∀ x ∈ rows, job_order job x = true := by
  induction rows generalizing job with
  | nil => simp
  | cons a rest ih =>
    simp only [order_by_priority_desc_id, head_order_insert] at h
    have hrefl : ∀ r : JobQueueRow, job_order r r = true := fun r => by
      rcases job_order_total r r with h1 | h1 <;> exact h1
    cases hsorted : order_by_priority_desc_id rest with
    | nil =>
      have hrest : rest = [] := by
        cases rest with
        | nil => rfl
        | cons c cs =>
          have : c ∈ order_by_priority_desc_id (c :: cs) :=
            (mem_order_by c (c :: cs)).2 (List.mem_cons_self _ _)
          rw [hsorted] at this
          simp at this
      rw [hsorted] at h
      simp only [Option.some.injEq] at h
      subst h hrest
      intro x hx
      simp only [List.mem_singleton] at hx
      subst hx
      exact hrefl _
    | cons b tail =>
      rw [hsorted] at h
      have hb : ∀ x ∈ rest, job_order b x = true := ih b (by rw [hsorted]; rfl)
      by_cases hba : job_order b a = true
      · simp only [hba, if_true, Option.some.injEq] at h
        subst h
        intro x hx
        rcases List.mem_cons.1 hx with hx | hx
        · subst hx; exact hba
        · exact hb x hx
      · simp only [hba, Bool.false_eq_true, if_false, Option.some.injEq] at h
        subst h
        have hab : job_order a b = true := by
          rcases job_order_total a b with h1 | h1
          · exact h1
          · exact absurd h1 hba
        intro x hx
        rcases List.mem_cons.1 hx with hx | hx
        · subst hx; exact hrefl _
        · exact job_order_trans _ _ _ hab (hb x hx)

theorem select_pending_eq_none (job_queue : List JobQueueRow) :
    select_pending job_queue = none ↔ ∀ row ∈ job_queue, row.status ≠ JobStatus.PENDING := by
  unfold select_pending
  constructor
  · intro h row hrow hst
    have hmem : row ∈ order_by_priority_desc_id
        (job_queue.filter (fun row => row.status = JobStatus.PENDING)) :=
      (mem_order_by _ _).2 (List.mem_filter.2 ⟨hrow, by simp [hst]⟩)
    cases hl : order_by_priority_desc_id
        (job_queue.filter (fun row => row.status = JobStatus.PENDING)) with
    | nil => rw [hl] at hmem; simp at hmem
    | cons b tail => rw [hl] at h; simp at h
  · intro h
    have hnil : job_queue.filter (fun row => decide (row.status = JobStatus.PENDING)) = [] := by
      rw [List.filter_eq_nil_iff]
      intro row hrow
      simpa using h row hrow
    rw [hnil]
    rfl

theorem select_pending_some (job_queue : List JobQueueRow) (job : JobQueueRow)
    (h : select_pending job_queue = some job) :
    job ∈ job_queue ∧ job.status = JobStatus.PENDING ∧
    ∀ row ∈ job_queue, row.status = JobStatus.PENDING →
      row.priority ≤ job.priority ∧ (row.priority = job.priority → job.id ≤ row.id) := by
  unfold select_pending at h
  have hmem : job ∈ order_by_priority_desc_id
      (job_queue.filter (fun row => row.status = JobStatus.PENDING)) :=
    List.mem_of_mem_head? h
  have hmem2 := List.mem_filter.1 ((mem_order_by _ _).1 hmem)
  refine ⟨hmem2.1, by simpa using hmem2.2, ?_⟩
  intro row hrow hst
  have hfirst := head_order_by_first _ job h row (List.mem_filter.2 ⟨hrow, by simp [hst]⟩)
  simp only [job_order, Bool.or_eq_true, Bool.and_eq_true, decide_eq_true_eq] at hfirst
  omega

theorem eq_of_id_eq (job_queue : List JobQueueRow)
    (hid : (job_queue.map (fun row => row.id)).Nodup) (a b : JobQueueRow)
    (ha : a ∈ job_queue) (hb : b ∈ job_queue) (h : a.id = b.id) : a = b :=
  List.inj_on_of_nodup_map hid ha hb h

theorem set_status_where_id_eq (status : JobStatus) (job_queue : List JobQueueRow)
    (hid : (job_queue.map (fun row => row.id)).Nodup) (job : JobQueueRow)
    (hjob : job ∈ job_queue) :
    set_status_where_id status job.id job_queue =
      job_queue.map (fun row => if row = job then { row with status := status } else row) := by
  unfold set_status_where_id
  apply List.map_congr_left
  intro row hrow
  by_cases h : row.id = job.id
  · have := eq_of_id_eq job_queue hid row job hrow hjob h
    simp [this]
  · have hne : row ≠ job := fun he => h (by rw [he])
    simp [h, hne]

theorem cancel_after_claim (job_queue : List JobQueueRow)
    (hid : (job_queue.map (fun row => row.id)).Nodup) (job : JobQueueRow)
    (hjob : job ∈ job_queue) :
    set_status_where_id JobStatus.CANCELED job.id
        (job_queue.map (fun row =>
          if row = job then { row with status := JobStatus.IN_PROGRESS } else row)) =
      job_queue.map (fun row =>
        if row = job then { row with status := JobStatus.CANCELED } else row) := by
  unfold set_status_where_id
  rw [List.map_map]
  apply List.map_congr_left
  intro row hrow
  by_cases h : row = job
  · simp [h]
  · have hne : row.id ≠ job.id := fun he => h (eq_of_id_eq job_queue hid row job hrow hjob he)
    simp [h, hne]

/-- C3, the claim as stated fails: the PENDING job of greatest priority of
this queue is of type REUPLOAD_PROBLEM; the claim step sets it IN_PROGRESS,
and then, whatever the handlers are, the iteration calls none of them and
leaves the job CANCELED; the next job, of a type outside the switch, is left
IN_PROGRESS with no handler called either. -/
theorem reupload_job_gets_no_handler :
    claim_step example_reupload_queue =
      some (⟨5, .REUPLOAD_PROBLEM, none, "", "1", .PENDING, 10⟩,
        [⟨5, .REUPLOAD_PROBLEM, none, "", "1", .IN_PROGRESS, 10⟩,
         ⟨6, .other 9, none, "", "1", .PENDING, 5⟩]) ∧
    (∀ handlers : Handlers, processJobQueue_iteration handlers example_reupload_queue =
      some [⟨5, .REUPLOAD_PROBLEM, none, "", "1", .CANCELED, 10⟩,
            ⟨6, .other 9, none, "", "1", .PENDING, 5⟩]) ∧
    processJobQueue_iteration example_failing_handlers example_reupload_queue =
      some [⟨5, .REUPLOAD_PROBLEM, none, "", "1", .CANCELED, 10⟩,
            ⟨6, .other 9, none, "", "1", .PENDING, 5⟩] ∧
    (∀ handlers : Handlers, processJobQueue handlers 3 example_reupload_queue =
      some [⟨5, .REUPLOAD_PROBLEM, none, "", "1", .CANCELED, 10⟩,
            ⟨6, .other 9, none, "", "1", .IN_PROGRESS, 5⟩]) ∧
    processJobQueue_iteration example_failing_handlers example_single =
      some [⟨1, .JUDGE_SUBMISSION, some "7", "", "1", .FAILED, 5⟩] :=
  ⟨by decide, fun _ => rfl, by decide, fun _ => rfl, by decide⟩

/-- C3, amended: on a table with unique ids, the claim step of
`processJobQueue` fetches the PENDING job of greatest priority and, among
those, of smallest id, and sets the status of that row and of no other to
IN_PROGRESS; the switch then calls `judgeSubmission`, `addProblem` or
`judgeModelSolution` on a job of type JUDGE_SUBMISSION, ADD_PROBLEM or
JUDGE_MODEL_SOLUTION with the job's columns and the table after the claim,
sets a job of type REUPLOAD_PROBLEM, EDIT_PROBLEM or DELETE_PROBLEM to
CANCELED without calling a handler, and leaves a job of any other type
IN_PROGRESS without calling a handler; the step fetches nothing, and the
loop ends, exactly when no job is PENDING. -/
theorem claim_step_selects (handlers : Handlers) (job_queue : List JobQueueRow)
    (hid : (job_queue.map (fun row => row.id)).Nodup) :
    (claim_step job_queue = none ↔ ∀ row ∈ job_queue, row.status ≠ JobStatus.PENDING) ∧
    (processJobQueue_iteration handlers job_queue = none ↔
      ∀ row ∈ job_queue, row.status ≠ JobStatus.PENDING) ∧
    ((∀ row ∈ job_queue, row.status ≠ JobStatus.PENDING) →
      ∀ fuel, processJobQueue handlers (fuel + 1) job_queue = some job_queue) ∧
    ∀ job claimed, claim_step job_queue = some (job, claimed) →
      job ∈ job_queue ∧ job.status = JobStatus.PENDING ∧
      (∀ row ∈ job_queue, row.status = JobStatus.PENDING →
        row.priority ≤ job.priority ∧ (row.priority = job.priority → job.id ≤ row.id)) ∧
      job_queue.count job = 1 ∧
      claimed = job_queue.map (fun row =>
        if row = job then { row with status := JobStatus.IN_PROGRESS } else row) ∧
      processJobQueue_iteration handlers job_queue =
        some (run_action handlers (dispatch job) claimed).1 ∧
      (job.type = JobQueueType.JUDGE_SUBMISSION →
        processJobQueue_iteration handlers job_queue =
          some (handlers (Action.judgeSubmission job.id
            (match job.aux_id with
              | none => ""
              | some a => a) job.info) claimed).1) ∧
      (job.type = JobQueueType.ADD_PROBLEM →
        processJobQueue_iteration handlers job_queue =
          some (handlers (Action.addProblem job.id job.creator job.info) claimed).1) ∧
      (job.type = JobQueueType.JUDGE_MODEL_SOLUTION →
        processJobQueue_iteration handlers job_queue =
          some (handlers (Action.judgeModelSolution job.id) claimed).1) ∧
      ((job.type = JobQueueType.REUPLOAD_PROBLEM ∨ job.type = JobQueueType.EDIT_PROBLEM ∨
          job.type = JobQueueType.DELETE_PROBLEM) →
        processJobQueue_iteration handlers job_queue =
          some (job_queue.map (fun row =>
            if row = job then { row with status := JobStatus.CANCELED } else row))) ∧
      (∀ ordinal, job.type = JobQueueType.other ordinal →
        processJobQueue_iteration handlers job_queue = some claimed) := by
  have hnone : claim_step job_queue = none ↔
      ∀ row ∈ job_queue, row.status ≠ JobStatus.PENDING := by
    rw [← select_pending_eq_none]
    unfold claim_step
    cases select_pending job_queue <;> simp
  have hiter : processJobQueue_iteration handlers job_queue = none ↔
      claim_step job_queue = none := by
    unfold processJobQueue_iteration
    cases claim_step job_queue <;> simp
  refine ⟨hnone, hiter.trans hnone, ?_, ?_⟩
  · intro hno fuel
    have := (hiter.trans hnone).2 hno
    simp [processJobQueue, this]
  · intro job claimed hclaim
    unfold claim_step at hclaim
    cases hsel : select_pending job_queue with
    | none => rw [hsel] at hclaim; simp at hclaim
    | some j =>
      rw [hsel] at hclaim
      simp only [Option.some.injEq, Prod.mk.injEq] at hclaim
      obtain ⟨hj, hcl⟩ := hclaim
      subst hj
      obtain ⟨hmem, hst, hbest⟩ := select_pending_some job_queue j hsel
      have hmap := set_status_where_id_eq JobStatus.IN_PROGRESS job_queue hid j hmem
      have hiteration : processJobQueue_iteration handlers job_queue =
          some (run_action handlers (dispatch j) claimed).1 := by
        simp [processJobQueue_iteration, claim_step, hsel, hcl]
      have hclaimed : claimed = job_queue.map (fun row =>
          if row = j then { row with status := JobStatus.IN_PROGRESS } else row) := by
        rw [← hcl, hmap]
      refine ⟨hmem, hst, hbest, ?_, hclaimed, hiteration, ?_, ?_, ?_, ?_, ?_⟩
      · exact List.count_eq_one_of_mem (List.Nodup.of_map _ hid) hmem
      · intro htype
        rw [hiteration]
        simp only [dispatch, htype, run_action]
      · intro htype
        rw [hiteration]
        simp only [dispatch, htype, run_action]
      · intro htype
        rw [hiteration]
        simp only [dispatch, htype, run_action]
      · intro htype
        rw [hiteration, ← cancel_after_claim job_queue hid j hmem, ← hclaimed]
        rcases htype with htype | htype | htype <;>
          simp only [dispatch, htype, run_action]
      · intro ordinal htype
        rw [hiteration]
        simp only [dispatch, htype, run_action]

theorem claim_step_selects_witness :
    (example_queue.map (fun row => row.id)).Nodup ∧
    claim_step example_queue =
      some (⟨2, .ADD_PROBLEM, none, "", "1", .PENDING, 10⟩,
        [⟨1, .JUDGE_SUBMISSION, some "7", "", "1", .PENDING, 5⟩,
         ⟨3, .JUDGE_SUBMISSION, some "8", "", "1", .PENDING, 10⟩,
         ⟨2, .ADD_PROBLEM, none, "", "1", .IN_PROGRESS, 10⟩,
         ⟨4, .JUDGE_SUBMISSION, some "9", "", "1", .DONE, 20⟩]) ∧
    processJobQueue_iteration example_handlers example_queue =
      some (run_action example_handlers
        (dispatch ⟨2, .ADD_PROBLEM, none, "", "1", .PENDING, 10⟩)
        [⟨1, .JUDGE_SUBMISSION, some "7", "", "1", .PENDING, 5⟩,
         ⟨3, .JUDGE_SUBMISSION, some "8", "", "1", .PENDING, 10⟩,
         ⟨2, .ADD_PROBLEM, none, "", "1", .IN_PROGRESS, 10⟩,
         ⟨4, .JUDGE_SUBMISSION, some "9", "", "1", .DONE, 20⟩]).1 :=
  ⟨by decide, by decide,
    ((claim_step_selects example_handlers example_queue (by decide)).2.2.2
      ⟨2, .ADD_PROBLEM, none, "", "1", .PENDING, 10⟩
      [⟨1, .JUDGE_SUBMISSION, some "7", "", "1", .PENDING, 5⟩,
       ⟨3, .JUDGE_SUBMISSION, some "8", "", "1", .PENDING, 10⟩,
       ⟨2, .ADD_PROBLEM, none, "", "1", .IN_PROGRESS, 10⟩,
       ⟨4, .JUDGE_SUBMISSION, some "9", "", "1", .DONE, 20⟩] (by decide)).2.2.2.2.2.1⟩

/-! ## Recovery at startup -/

theorem main_steps_connected (env : MainEnv) (hc : env.connected = true) :
    ∃ rest, main_steps env = MainStep.recovery :: rest ∧
      ∀ x ∈ rest, x = MainStep.run_queue := by
  refine ⟨List.replicate env.inotify_init_failures MainStep.run_queue
      ++ List.replicate env.add_watch_failures MainStep.run_queue
      ++ [MainStep.run_queue]
      ++ env.notifications.flatMap (fun failures =>
          List.replicate failures MainStep.run_queue ++ [MainStep.run_queue]), ?_, ?_⟩
  · simp [main_steps, hc]
  · intro x hx
    simp only [List.mem_append, List.mem_replicate, List.mem_singleton, List.mem_flatMap] at hx
    rcases hx with ((h | h) | h) | h
    · exact h.2
    · exact h.2
    · exact h
    · obtain ⟨_, _, h | h⟩ := h
      · exact h.2
      · exact h

/-- C4: after the recovery update no job is IN_PROGRESS; a job that was
IN_PROGRESS is PENDING with its other columns kept, every other job is kept as
it was; and in `main` the recovery update is what runs before the first call
of `processJobQueue`. -/
theorem recovery_leaves_no_in_progress (job_queue : List JobQueueRow) (env : MainEnv) :
    (∀ row ∈ recover_in_progress job_queue, row.status ≠ JobStatus.IN_PROGRESS) ∧
    (recover_in_progress job_queue).length = job_queue.length ∧
    (∀ (i : Nat) (row : JobQueueRow), job_queue[i]? = some row →
      (row.status = JobStatus.IN_PROGRESS →
        (recover_in_progress job_queue)[i]? = some { row with status := JobStatus.PENDING }) ∧
      (row.status ≠ JobStatus.IN_PROGRESS →
        (recover_in_progress job_queue)[i]? = some row)) ∧
    (∀ before after, main_steps env = before ++ MainStep.run_queue :: after →
      MainStep.recovery ∈ before) ∧
    (∀ before after, main_steps env = before ++ MainStep.run_queue :: after →
      (∀ step ∈ before, step ≠ MainStep.run_queue) →
      before = [MainStep.recovery] ∧
      ∀ handlers fuel, run_main_steps handlers fuel before job_queue =
        some (recover_in_progress job_queue)) := by
  have hfirst : ∀ before after, main_steps env = before ++ MainStep.run_queue :: after →
      ∃ tail, before = MainStep.recovery :: tail ∧
        ∀ x ∈ tail ++ MainStep.run_queue :: after, x = MainStep.run_queue := by
    intro before after hsplit
    by_cases hc : env.connected = true
    · obtain ⟨rest, hrest, hall⟩ := main_steps_connected env hc
      rw [hrest] at hsplit
      cases before with
      | nil => simp at hsplit
      | cons b tail =>
        simp only [List.cons_append, List.cons.injEq] at hsplit
        refine ⟨tail, by rw [← hsplit.1], ?_⟩
        intro x hx
        rw [← hsplit.2] at hx
        exact hall x hx
    · unfold main_steps at hsplit
      simp only [hc, Bool.false_eq_true, if_false] at hsplit
      cases before with
      | nil => simp at hsplit
      | cons b tail =>
        simp only [List.cons_append, List.cons.injEq] at hsplit
        have := hsplit.2
        simp at this
  refine ⟨?_, ?_, ?_, ?_, ?_⟩
  · intro row hrow
    simp only [recover_in_progress, List.mem_map] at hrow
    obtain ⟨r, _, hr⟩ := hrow
    by_cases h : r.status = JobStatus.IN_PROGRESS
    · simp only [h, if_true] at hr
      rw [← hr]
      simp
    · simp only [h, if_false] at hr
      rw [← hr]
      exact h
  · simp [recover_in_progress]
  · intro i row hrow
    constructor
    · intro h
      simp [recover_in_progress, List.getElem?_map, hrow, h]
    · intro h
      simp [recover_in_progress, List.getElem?_map, hrow, h]
  · intro before after hsplit
    obtain ⟨tail, hb, _⟩ := hfirst before after hsplit
    rw [hb]
    exact List.mem_cons_self _ _
  · intro before after hsplit hno
    obtain ⟨tail, hb, hall⟩ := hfirst before after hsplit
    have htail : tail = [] := by
      cases tail with
      | nil => rfl
      | cons t ts =>
        have h1 : t = MainStep.run_queue := hall t (by simp)
        have h2 : t ≠ MainStep.run_queue := hno t (by rw [hb]; simp)
        exact absurd h1 h2
    subst htail
    refine ⟨hb, ?_⟩
    intro handlers fuel
    rw [hb]
    rfl

/-! ## Two workers claiming from one queue -/

theorem status_of_mem_set_status (status : JobStatus) (job_id : Nat)
    (job_queue : List JobQueueRow) (row : JobQueueRow)
    (hrow : row ∈ set_status_where_id status job_id job_queue) (hid : row.id = job_id) :
    row.status = status := by
  simp only [set_status_where_id, List.mem_map] at hrow
  obtain ⟨r, _, hr⟩ := hrow
  by_cases h : r.id = job_id
  · simp only [h, if_true] at hr
    rw [← hr]
  · simp only [h, if_false] at hr
    rw [hr] at h
    exact absurd hid h

/-- A worker whose query runs after the other worker's update does not fetch
the job the other worker fetched. -/
theorem select_after_update_ne (job_queue : List JobQueueRow) (j1 j2 : JobQueueRow)
    (h2 : select_pending (set_status_where_id JobStatus.IN_PROGRESS j1.id job_queue) = some j2) :
    j1.id ≠ j2.id := by
  obtain ⟨hmem, hst, _⟩ := select_pending_some _ j2 h2
  intro hid
  have := status_of_mem_set_status JobStatus.IN_PROGRESS j1.id job_queue j2 hmem hid.symm
  rw [hst] at this
  exact absurd this (by decide)

theorem interleaving_cases (schedule : List Bool) (h : is_interleaving schedule = true) :
    schedule = [false, false, true, true] ∨ schedule = [true, true, false, false] ∨
    schedule = [false, true, false, true] ∨ schedule = [false, true, true, false] ∨
    schedule = [true, false, false, true] ∨ schedule = [true, false, true, false] := by
  simp only [is_interleaving, Bool.and_eq_true, decide_eq_true_eq] at h
  have hlen : schedule.length = 4 := by
    have := List.count_true_add_count_false schedule
    omega
  match schedule, hlen, h with
  | [a, b, c, d], _, h =>
    revert h
    cases a <;> cases b <;> cases c <;> cases d <;> simp

/-- C5, the claim as stated fails: the update that sets IN_PROGRESS is keyed
by the id alone, so it also overwrites a status that is no longer PENDING, and
when both workers run their queries before either update both go on to run
job 1. -/
theorem two_workers_run_same_job :
    is_interleaving [false, true, false, true] = true ∧
    (run_schedule example_single [false, true, false, true]).first.runs =
      some ⟨1, .JUDGE_SUBMISSION, some "7", "", "1", .PENDING, 5⟩ ∧
    (run_schedule example_single [false, true, false, true]).second.runs =
      some ⟨1, .JUDGE_SUBMISSION, some "7", "", "1", .PENDING, 5⟩ ∧
    set_status_where_id JobStatus.IN_PROGRESS 1
        [⟨1, .JUDGE_SUBMISSION, some "7", "", "1", .CANCELED, 5⟩] =
      [⟨1, .JUDGE_SUBMISSION, some "7", "", "1", .IN_PROGRESS, 5⟩] := by
  decide

/-- C5, amended: the update that sets IN_PROGRESS is keyed by the id alone.
In an interleaving of two claim steps where one worker's update runs before
the other worker's query, the two workers do not run the same job; where both
queries run before the first update, both workers go on to run the job the
query fetches from the table as it was. -/
theorem two_workers_claim (job_queue : List JobQueueRow) (schedule : List Bool)
    (h : is_interleaving schedule = true) :
    (queries_first schedule = false →
      ∀ j1 j2, (run_schedule job_queue schedule).first.runs = some j1 →
        (run_schedule job_queue schedule).second.runs = some j2 → j1.id ≠ j2.id) ∧
    (queries_first schedule = true →
      (run_schedule job_queue schedule).first.runs = select_pending job_queue ∧
      (run_schedule job_queue schedule).second.runs = select_pending job_queue) ∧
    (∀ status job_id row, row ∈ set_status_where_id status job_id job_queue →
      row.id = job_id → row.status = status) := by
  refine ⟨?_, ?_, fun status job_id row hrow hid =>
    status_of_mem_set_status status job_id job_queue row hrow hid⟩
  · intro hq j1 j2 h1 h2
    rcases interleaving_cases schedule h with hs | hs | hs | hs | hs | hs <;> subst hs <;>
      simp only [queries_first, bne_self_eq_false, Bool.true_bne, Bool.false_bne,
        Bool.not_false, Bool.not_true, Bool.true_eq_false, Bool.false_eq_true] at hq
    · simp only [run_schedule, List.foldl, shared_step, worker_step, Bool.false_eq_true,
        if_false, if_true] at h1 h2
      cases hsel : select_pending job_queue with
      | none => simp [hsel, worker_step, Worker.runs] at h1
      | some a =>
        simp only [hsel, worker_step, Worker.runs, Option.some.injEq] at h1 h2
        subst h1
        cases hsel2 : select_pending (set_status_where_id JobStatus.IN_PROGRESS a.id job_queue) with
        | none => simp [hsel2, worker_step, Worker.runs] at h2
        | some b =>
          simp only [hsel2, worker_step, Worker.runs, Option.some.injEq] at h2
          subst h2
          exact select_after_update_ne job_queue a b hsel2
    · simp only [run_schedule, List.foldl, shared_step, worker_step, Bool.false_eq_true,
        if_false, if_true] at h1 h2
      cases hsel : select_pending job_queue with
      | none => simp [hsel, worker_step, Worker.runs] at h2
      | some a =>
        simp only [hsel, worker_step, Worker.runs, Option.some.injEq] at h1 h2
        subst h2
        cases hsel2 : select_pending (set_status_where_id JobStatus.IN_PROGRESS a.id job_queue) with
        | none => simp [hsel2, worker_step, Worker.runs] at h1
        | some b =>
          simp only [hsel2, worker_step, Worker.runs, Option.some.injEq] at h1
          subst h1
          exact (select_after_update_ne job_queue a b hsel2).symm
  · intro hq
    rcases interleaving_cases schedule h with hs | hs | hs | hs | hs | hs <;> subst hs <;>
      simp only [queries_first, bne_self_eq_false, Bool.true_bne, Bool.false_bne,
        Bool.not_false, Bool.not_true, Bool.true_eq_false, Bool.false_eq_true] at hq <;>
      (cases hsel : select_pending job_queue <;>
        simp [run_schedule, List.foldl, shared_step, worker_step, Worker.runs, hsel])

theorem two_workers_claim_witness :
    is_interleaving [false, false, true, true] = true ∧
    (∀ j1 j2, (run_schedule example_queue [false, false, true, true]).first.runs = some j1 →
      (run_schedule example_queue [false, false, true, true]).second.runs = some j2 →
      j1.id ≠ j2.id) ∧
    (run_schedule example_queue [false, false, true, true]).first.runs =
      some ⟨2, .ADD_PROBLEM, none, "", "1", .PENDING, 10⟩ ∧
    (run_schedule example_queue [false, false, true, true]).second.runs =
      some ⟨3, .JUDGE_SUBMISSION, some "8", "", "1", .PENDING, 10⟩ :=
  ⟨by decide,
    (two_workers_claim example_queue [false, false, true, true] (by decide)).1 (by decide),
    by decide, by decide⟩

/-! ## The two judging passes -/

theorem wrap64_of_in_int64 (x : Int) (h : in_int64 x) : wrap64 x = x := by
  unfold in_int64 at h
  unfold wrap64
  omega

theorem wrap64_add_left (a b : Int) : wrap64 (wrap64 a + b) = wrap64 (a + b) := by
  unfold wrap64
  omega

theorem wrap64_add_right (a b : Int) : wrap64 (a + wrap64 b) = wrap64 (a + b) := by
  unfold wrap64
  omega

theorem wrap64_count_score (acc : Int) (groups : List Group) :
    wrap64 (count_score acc groups) =
      wrap64 (acc + (groups.map (fun group => group.score)).sum) := by
  induction groups generalizing acc with
  | nil => simp [count_score]
  | cons group rest ih =>
    simp only [count_score, List.map_cons, List.sum_cons]
    rw [ih, wrap64_add_left, add_assoc]

/-- The score of the final write: the wrapped sum of the wrapped sums is the
sum when the sum is an `int64_t`. -/
theorem final_score_eq (initial_jrep final_jrep : JudgeReport)
    (h : in_int64 (total_score initial_jrep + total_score final_jrep)) :
    wrap64 (count_score 0 final_jrep.groups + count_score 0 initial_jrep.groups) =
      total_score initial_jrep + total_score final_jrep := by
  rw [← wrap64_add_left, ← wrap64_add_right, wrap64_count_score, wrap64_count_score,
    wrap64_add_left, wrap64_add_right]
  simp only [zero_add]
  rw [add_comm]
  exact wrap64_of_in_int64 _ h

theorem calc_status_total (jr : JudgeReport) : ∃ status, calc_status jr = .ok status := by
  by_cases h : ∃ group ∈ jr.groups, ∃ test ∈ group.tests,
      test.status = TestStatus.CHECKER_ERROR
  · exact ⟨_, judge_error_of_checker_error jr h⟩
  · refine ⟨first_failure_status jr, ?_⟩
    have hno : checker_error_in_groups jr.groups = false := by
      cases hc : checker_error_in_groups jr.groups with
      | false => rfl
      | true => exact absurd ((checker_error_in_groups_iff jr.groups).1 hc) h
    have hall : ∀ group ∈ jr.groups, ∀ test ∈ group.tests,
        test.status ≠ TestStatus.CHECKER_ERROR :=
      fun g hg t ht hs => h ⟨g, hg, t, ht, hs⟩
    have := first_error_in_groups_eq jr.groups hall
    simpa [calc_status, hno, first_failure_status, all_tests] using this

theorem construct_report_of_groups_have_tests (env : JudgeEnv) (jr : JudgeReport)
    (final : Bool) (h : groups_have_tests jr) :
    ∃ rep, construct_report env jr final = .ok rep := by
  unfold construct_report
  by_cases he : jr.groups.isEmpty = true
  · exact ⟨"", by simp [he]⟩
  · have hany : jr.groups.any (fun group => group.tests.isEmpty) = false := by
      rw [List.any_eq_false]
      intro g hg
      have := h g hg
      simpa [List.isEmpty_iff] using this
    exact ⟨env.report_html jr final, by simp [he, hany]⟩

theorem send_judge_report_initial_eq (env : JudgeEnv) (ctx : JudgeCtx) (jr : JudgeReport)
    (partl : Bool) (s : HState) (rep : String) (status : SubmissionStatus)
    (hrep : construct_report env jr false = .ok rep) (hst : calc_status jr = .ok status) :
    send_judge_report env ctx jr false partl s =
      .done (update_submission env ctx status SubmissionStatus.PENDING none rep ""
        { db := (exec_update_job_data ctx.job_id (judge_log (report_message ctx jr partl) s)).db
          job_log := if partl then s.job_log else s.job_log ++ [report_message ctx jr partl]
          initial_status := status
          initial_report := rep
          initial_score := count_score 0 jr.groups }) := by
  cases partl <;>
    simp [send_judge_report, hrep, hst, exec_update_job_data, judge_log]

theorem send_judge_report_final_eq (env : JudgeEnv) (ctx : JudgeCtx) (jr : JudgeReport)
    (partl : Bool) (s : HState) (rep : String) (status : SubmissionStatus)
    (hrep : construct_report env jr true = .ok rep) (hst : calc_status jr = .ok status) :
    send_judge_report env ctx jr true partl s =
      .done (update_submission env ctx s.initial_status
        (if s.initial_status ≠ SubmissionStatus.OK ∧ status ≠ SubmissionStatus.JUDGE_ERROR
         then s.initial_status else status)
        (some (wrap64 (count_score 0 jr.groups + s.initial_score)))
        s.initial_report rep
        { db := (exec_update_job_data ctx.job_id (judge_log (report_message ctx jr partl) s)).db
          job_log := if partl then s.job_log else s.job_log ++ [report_message ctx jr partl]
          initial_status := s.initial_status
          initial_report := s.initial_report
          initial_score := s.initial_score }) := by
  cases partl <;>
    simp [send_judge_report, hrep, hst, exec_update_job_data, judge_log]

theorem update_submission_trace (env : JudgeEnv) (ctx : JudgeCtx)
    (initial_status full_status : SubmissionStatus) (score : Option Int)
    (initial_report final_report : String) (s : HState) :
    (update_submission env ctx initial_status full_status score initial_report
        final_report s).db.trace =
      s.db.trace ++
        [Stmt.lock_tables,
         Stmt.update_submission ctx.submission_id
           (submission_write (select_type ctx.submission_id s.db.submissions)
             ctx.judging_began initial_status full_status score initial_report final_report),
         Stmt.update_final ctx.sowner ctx.problem_id ctx.contest_problem_id,
         Stmt.unlock_tables] := rfl

theorem last_submission_write_append (trace : List Stmt) (submission_id : Nat)
    (w : SubmissionWrite) (a : Stmt) (rest : List Stmt)
    (hrest : ∀ stmt ∈ rest, stmt.submission_write? = none) :
    last_submission_write
      (trace ++ a :: Stmt.update_submission submission_id w :: rest) =
      some (submission_id, w) := by
  unfold last_submission_write
  have hsplit : trace ++ a :: Stmt.update_submission submission_id w :: rest =
      (trace ++ [a, Stmt.update_submission submission_id w]) ++ rest := by simp
  rw [hsplit, List.reverse_append, List.findSome?_append]
  have h1 : rest.reverse.findSome? Stmt.submission_write? = none := by
    rw [List.findSome?_eq_none_iff]
    intro x hx
    exact hrest x (List.mem_reverse.1 hx)
  rw [h1]
  simp [List.findSome?_cons, Stmt.submission_write?]

/-- The callbacks of a pass whose intermediate reports all have tests in
every group end normally; those of the final pass keep the three captures. -/
theorem send_partials_done (env : JudgeEnv) (ctx : JudgeCtx) (final : Bool)
    (partials : List JudgeReport) (s : HState)
    (h : ∀ jr ∈ partials, groups_have_tests jr) :
    ∃ s1, send_partials env ctx final partials s = .done s1 ∧
      (final = true → s1.initial_status = s.initial_status ∧
        s1.initial_report = s.initial_report ∧ s1.initial_score = s.initial_score) := by
  induction partials generalizing s with
  | nil => exact ⟨s, rfl, fun _ => ⟨rfl, rfl, rfl⟩⟩
  | cons jr rest ih =>
    have hjr := h jr (List.mem_cons_self _ _)
    have hrest : ∀ r ∈ rest, groups_have_tests r := fun r hr => h r (List.mem_cons_of_mem _ hr)
    obtain ⟨rep, hrep⟩ := construct_report_of_groups_have_tests env jr final hjr
    obtain ⟨status, hst⟩ := calc_status_total jr
    cases final with
    | false =>
      rw [send_partials, send_judge_report_initial_eq env ctx jr true s rep status hrep hst]
      obtain ⟨s2, hs2, _⟩ := ih _ hrest
      exact ⟨s2, hs2, fun hf => absurd hf (by decide)⟩
    | true =>
      rw [send_partials, send_judge_report_final_eq env ctx jr true s rep status hrep hst]
      obtain ⟨s2, hs2, hkeep⟩ := ih _ hrest
      refine ⟨s2, hs2, fun _ => ?_⟩
      obtain ⟨h1, h2, h3⟩ := hkeep rfl
      exact ⟨h1, h2, h3⟩

/-- The `try` block when neither pass throws and every report has tests in
every group: it ends normally, and its most recent `UPDATE submissions` is the
one of the call `send_judge_report(final_jrep, true, false)`, built from the
captures the call `send_judge_report(initial_jrep, false, false)` set. -/
theorem judge_try_done (env : JudgeEnv) (ctx : JudgeCtx) (s : HState)
    (initial_jrep final_jrep : JudgeReport) (rep_i rep_f : String)
    (st_i st_f : SubmissionStatus)
    (hi : env.initial_pass.result = .ok initial_jrep)
    (hf : env.final_pass.result = .ok final_jrep)
    (hpi : ∀ jr ∈ env.initial_pass.partials, groups_have_tests jr)
    (hpf : ∀ jr ∈ env.final_pass.partials, groups_have_tests jr)
    (hrep_i : construct_report env initial_jrep false = .ok rep_i)
    (hrep_f : construct_report env final_jrep true = .ok rep_f)
    (hst_i : calc_status initial_jrep = .ok st_i)
    (hst_f : calc_status final_jrep = .ok st_f) :
    ∃ s1 stype, judge_try env ctx s = .done s1 ∧
      last_submission_write s1.db.trace = some (ctx.submission_id,
        submission_write stype ctx.judging_began st_i
          (if st_i ≠ SubmissionStatus.OK ∧ st_f ≠ SubmissionStatus.JUDGE_ERROR
           then st_i else st_f)
          (some (wrap64 (count_score 0 final_jrep.groups + count_score 0 initial_jrep.groups)))
          rep_i rep_f) := by
  obtain ⟨a1, ha1, _⟩ := send_partials_done env ctx false env.initial_pass.partials s hpi
  have hpass1 := send_judge_report_initial_eq env ctx initial_jrep false a1 rep_i st_i
    hrep_i hst_i
  obtain ⟨a3, ha3, hkeep⟩ := send_partials_done env ctx true env.final_pass.partials
    (update_submission env ctx st_i SubmissionStatus.PENDING none rep_i ""
      { db := (exec_update_job_data ctx.job_id
          (judge_log (report_message ctx initial_jrep false) a1)).db
        job_log := if false = true then a1.job_log
          else a1.job_log ++ [report_message ctx initial_jrep false]
        initial_status := st_i
        initial_report := rep_i
        initial_score := count_score 0 initial_jrep.groups }) hpf
  obtain ⟨hk1, hk2, hk3⟩ := hkeep rfl
  have hk1 : a3.initial_status = st_i := hk1
  have hk2 : a3.initial_report = rep_i := hk2
  have hk3 : a3.initial_score = count_score 0 initial_jrep.groups := hk3
  have hpass2 := send_judge_report_final_eq env ctx final_jrep false a3 rep_f st_f
    hrep_f hst_f
  have htry : judge_try env ctx s = .done (job_done ctx
      (update_submission env ctx a3.initial_status
        (if a3.initial_status ≠ SubmissionStatus.OK ∧ st_f ≠ SubmissionStatus.JUDGE_ERROR
         then a3.initial_status else st_f)
        (some (wrap64 (count_score 0 final_jrep.groups + a3.initial_score)))
        a3.initial_report rep_f
        { db := (exec_update_job_data ctx.job_id
            (judge_log (report_message ctx final_jrep false) a3)).db
          job_log := if false = true then a3.job_log
            else a3.job_log ++ [report_message ctx final_jrep false]
          initial_status := a3.initial_status
          initial_report := a3.initial_report
          initial_score := a3.initial_score })) := by
    simp only [judge_try, judge_pass, ha1, hi, hpass1, ha3, hf, hpass2]
  refine ⟨_, select_type ctx.submission_id
    (exec_update_job_data ctx.job_id
      (judge_log (report_message ctx final_jrep false) a3)).db.submissions, htry, ?_⟩
  simp only [job_done, exec_update_job_status, update_submission_trace, hk1, hk2, hk3]
  simp only [List.append_assoc, List.cons_append, List.nil_append]
  exact last_submission_write_append _ _ _ Stmt.lock_tables
    [Stmt.update_final ctx.sowner ctx.problem_id ctx.contest_problem_id,
     Stmt.unlock_tables,
     Stmt.update_job_status ctx.job_id JobStatus.DONE _]
    (by intro stmt hstmt; simp at hstmt; rcases hstmt with h | h | h <;> subst h <;> rfl)

theorem submission_write_statuses (stype : SubmissionType) (judging_began : String)
    (initial_status full_status : SubmissionStatus) (score : Option Int)
    (initial_report final_report : String) :
    (submission_write stype judging_began initial_status full_status score initial_report
      final_report).initial_status = initial_status ∧
    (submission_write stype judging_began initial_status full_status score initial_report
      final_report).full_status = full_status := by
  unfold submission_write
  split <;> exact ⟨rfl, rfl⟩

theorem submission_write_score (stype : SubmissionType) (judging_began : String)
    (initial_status full_status : SubmissionStatus) (score : Option Int)
    (initial_report final_report : String) :
    (submission_write stype judging_began initial_status full_status score initial_report
      final_report).score = if is_fatal full_status then none else score := by
  unfold submission_write
  split <;> rfl

/-- Of the statuses `calc_status` returns, JUDGE_ERROR is the fatal one. -/
theorem is_fatal_calc_status (jr : JudgeReport) (status : SubmissionStatus)
    (h : calc_status jr = .ok status) :
    is_fatal status = true ↔ status = SubmissionStatus.JUDGE_ERROR := by
  by_cases hce : ∃ group ∈ jr.groups, ∃ test ∈ group.tests,
      test.status = TestStatus.CHECKER_ERROR
  · rw [judge_error_of_checker_error jr hce] at h
    simp only [Except.ok.injEq] at h
    subst h
    simp [is_fatal]
  · have hno : checker_error_in_groups jr.groups = false := by
      cases hc : checker_error_in_groups jr.groups with
      | false => rfl
      | true => exact absurd ((checker_error_in_groups_iff jr.groups).1 hc) hce
    have hall : ∀ group ∈ jr.groups, ∀ test ∈ group.tests,
        test.status ≠ TestStatus.CHECKER_ERROR :=
      fun g hg t ht hs => hce ⟨g, hg, t, ht, hs⟩
    have heq := first_error_in_groups_eq jr.groups hall
    simp only [calc_status, hno, Bool.false_eq_true, if_false] at h
    rw [heq] at h
    simp only [Except.ok.injEq] at h
    subst h
    unfold first_failure_status
    split
    · rename_i test _
      cases test.status <;> simp [status_of_test, is_fatal]
    · simp [is_fatal]

/-- C6, the claim as stated fails: the initial report resolves to OK with
score 3, the final report has score 5 and a checker error, so it resolves to
JUDGE_ERROR; the `try` block ends normally and the last `UPDATE submissions`
binds a null score, not 8. -/
theorem final_score_null_on_judge_error :
    calc_status report_ok = .ok SubmissionStatus.OK ∧
    total_score report_ok + total_score report_checker_error = 8 ∧
    ∃ s1, judge_try (example_env report_ok report_checker_error) example_ctx example_state =
        .done s1 ∧
      last_submission_write s1.db.trace = some (7,
        { final_candidate := false
          initial_status := SubmissionStatus.OK
          full_status := SubmissionStatus.JUDGE_ERROR
          score := none
          last_judgment := "2020-01-03 00:00:00"
          initial_report := "initial"
          final_report := "final" }) :=
  ⟨rfl, by decide, _, rfl, by decide⟩

/-- C6, amended: when the initial report resolves to OK and neither pass
throws, the final pass completes and the score its `UPDATE submissions` binds
is the sum of the group scores of the initial report plus that of the final
report, provided the final report does not resolve to JUDGE_ERROR (the sum
being an `int64_t`); when the final report resolves to JUDGE_ERROR the score
bound is null. -/
theorem final_score_is_sum (env : JudgeEnv) (ctx : JudgeCtx) (s : HState)
    (initial_jrep final_jrep : JudgeReport)
    (hi : env.initial_pass.result = .ok initial_jrep)
    (hf : env.final_pass.result = .ok final_jrep)
    (hpi : ∀ jr ∈ env.initial_pass.partials, groups_have_tests jr)
    (hpf : ∀ jr ∈ env.final_pass.partials, groups_have_tests jr)
    (hwi : groups_have_tests initial_jrep) (hwf : groups_have_tests final_jrep)
    (hok : calc_status initial_jrep = .ok SubmissionStatus.OK) :
    ∃ s1 w, judge_try env ctx s = .done s1 ∧
      last_submission_write s1.db.trace = some (ctx.submission_id, w) ∧
      (calc_status final_jrep ≠ .ok SubmissionStatus.JUDGE_ERROR →
        in_int64 (total_score initial_jrep + total_score final_jrep) →
        w.score = some (total_score initial_jrep + total_score final_jrep)) ∧
      (calc_status final_jrep = .ok SubmissionStatus.JUDGE_ERROR → w.score = none) := by
  obtain ⟨rep_i, hrep_i⟩ := construct_report_of_groups_have_tests env initial_jrep false hwi
  obtain ⟨rep_f, hrep_f⟩ := construct_report_of_groups_have_tests env final_jrep true hwf
  obtain ⟨st_f, hst_f⟩ := calc_status_total final_jrep
  obtain ⟨s1, stype, hdone, hlast⟩ := judge_try_done env ctx s initial_jrep final_jrep
    rep_i rep_f SubmissionStatus.OK st_f hi hf hpi hpf hrep_i hrep_f hok hst_f
  refine ⟨s1, _, hdone, hlast, ?_, ?_⟩
  · intro hne hrange
    have hnf : is_fatal st_f = false := by
      cases hfat : is_fatal st_f with
      | false => rfl
      | true =>
        have := (is_fatal_calc_status final_jrep st_f hst_f).1 hfat
        rw [hst_f, this] at hne
        exact absurd rfl hne
    rw [submission_write_score]
    simp only [ne_eq, not_true_eq_false, false_and, if_false, hnf, Bool.false_eq_true]
    rw [final_score_eq initial_jrep final_jrep hrange]
  · intro hje
    rw [hst_f] at hje
    simp only [Except.ok.injEq] at hje
    subst hje
    rw [submission_write_score]
    simp [is_fatal]

theorem final_score_is_sum_witness :
    ∃ s1 w, judge_try (example_env report_ok report_full) example_ctx example_state =
        .done s1 ∧
      last_submission_write s1.db.trace = some (7, w) ∧ w.score = some 8 := by
  obtain ⟨s1, w, h1, h2, h3, _⟩ :=
    final_score_is_sum (example_env report_ok report_full) example_ctx example_state
      report_ok report_full rfl rfl (by decide) (by decide) (by decide) (by decide) rfl
  exact ⟨s1, w, h1, h2,
    h3 (fun h => absurd (Except.ok.inj (show Except.ok SubmissionStatus.OK =
      Except.ok SubmissionStatus.JUDGE_ERROR from h)) (by decide)) (by decide)⟩

/-- C7: when the initial report resolves to a status other than OK and
neither pass throws, the final pass completes and its `UPDATE submissions`
binds the initial report's status as initial status, and as full status
JUDGE_ERROR when the final report resolves to JUDGE_ERROR and the initial
report's status otherwise. -/
theorem final_status_after_failed_initial (env : JudgeEnv) (ctx : JudgeCtx) (s : HState)
    (initial_jrep final_jrep : JudgeReport) (st_i : SubmissionStatus)
    (hi : env.initial_pass.result = .ok initial_jrep)
    (hf : env.final_pass.result = .ok final_jrep)
    (hpi : ∀ jr ∈ env.initial_pass.partials, groups_have_tests jr)
    (hpf : ∀ jr ∈ env.final_pass.partials, groups_have_tests jr)
    (hwi : groups_have_tests initial_jrep) (hwf : groups_have_tests final_jrep)
    (hst : calc_status initial_jrep = .ok st_i) (hne : st_i ≠ SubmissionStatus.OK) :
    ∃ s1 w, judge_try env ctx s = .done s1 ∧
      last_submission_write s1.db.trace = some (ctx.submission_id, w) ∧
      w.initial_status = st_i ∧
      (calc_status final_jrep = .ok SubmissionStatus.JUDGE_ERROR →
        w.full_status = SubmissionStatus.JUDGE_ERROR) ∧
      (calc_status final_jrep ≠ .ok SubmissionStatus.JUDGE_ERROR → w.full_status = st_i) := by
  obtain ⟨rep_i, hrep_i⟩ := construct_report_of_groups_have_tests env initial_jrep false hwi
  obtain ⟨rep_f, hrep_f⟩ := construct_report_of_groups_have_tests env final_jrep true hwf
  obtain ⟨st_f, hst_f⟩ := calc_status_total final_jrep
  obtain ⟨s1, stype, hdone, hlast⟩ := judge_try_done env ctx s initial_jrep final_jrep
    rep_i rep_f st_i st_f hi hf hpi hpf hrep_i hrep_f hst hst_f
  refine ⟨s1, _, hdone, hlast, (submission_write_statuses _ _ _ _ _ _ _).1, ?_, ?_⟩
  · intro hje
    rw [hst_f] at hje
    simp only [Except.ok.injEq] at hje
    rw [(submission_write_statuses _ _ _ _ _ _ _).2]
    simp [hje]
  · intro hnje
    have : st_f ≠ SubmissionStatus.JUDGE_ERROR := fun h => hnje (by rw [hst_f, h])
    rw [(submission_write_statuses _ _ _ _ _ _ _).2]
    simp [hne, this]

theorem final_status_after_failed_initial_witness :
    ∃ s1 w, judge_try (example_env report_wa report_full) example_ctx example_state =
        .done s1 ∧
      last_submission_write s1.db.trace = some (example_ctx.submission_id, w) ∧
      w.initial_status = SubmissionStatus.WA ∧
      (calc_status report_full = .ok SubmissionStatus.JUDGE_ERROR →
        w.full_status = SubmissionStatus.JUDGE_ERROR) ∧
      (calc_status report_full ≠ .ok SubmissionStatus.JUDGE_ERROR →
        w.full_status = SubmissionStatus.WA) :=
  final_status_after_failed_initial (example_env report_wa report_full) example_ctx
    example_state report_wa report_full SubmissionStatus.WA rfl rfl (by decide) (by decide)
    (by decide) (by decide) rfl (by decide)

/-- C8: a call of `update_submission` with a fatal full status binds a null
score and a false `final_candidate`, whatever score it is given and whatever
type the submission has; the rows the statement changes then have the fatal
full status, a null score and a false `final_candidate`. -/
theorem fatal_status_null_score (env : JudgeEnv) (ctx : JudgeCtx)
    (initial_status full_status : SubmissionStatus) (score : Option Int)
    (initial_report final_report : String) (s : HState)
    (h : is_fatal full_status = true) :
    (∀ stype judging_began,
      (submission_write stype judging_began initial_status full_status score
        initial_report final_report).score = none ∧
      (submission_write stype judging_began initial_status full_status score
        initial_report final_report).final_candidate = false) ∧
    (∃ w, (update_submission env ctx initial_status full_status score initial_report
        final_report s).db.trace =
        s.db.trace ++ [Stmt.lock_tables, Stmt.update_submission ctx.submission_id w,
          Stmt.update_final ctx.sowner ctx.problem_id ctx.contest_problem_id,
          Stmt.unlock_tables] ∧
      w.full_status = full_status ∧ w.score = none ∧ w.final_candidate = false) ∧
    (∀ stype, ∀ row ∈ write_submission ctx.submission_id
        (submission_write stype ctx.judging_began initial_status full_status score
          initial_report final_report) s.db.submissions,
      row.id = ctx.submission_id →
        row.full_status = full_status ∧ row.score = none ∧ row.final_candidate = false) := by
  have hw : ∀ stype judging_began,
      submission_write stype judging_began initial_status full_status score
        initial_report final_report =
      { final_candidate := false, initial_status := initial_status,
        full_status := full_status, score := none, last_judgment := judging_began,
        initial_report := initial_report, final_report := final_report } := by
    intro stype judging_began
    simp [submission_write, h]
  refine ⟨fun stype judging_began => by rw [hw]; exact ⟨rfl, rfl⟩, ?_, ?_⟩
  · refine ⟨_, update_submission_trace env ctx initial_status full_status score
      initial_report final_report s, ?_⟩
    rw [hw]
    exact ⟨rfl, rfl, rfl⟩
  · intro stype row hrow hid
    rw [hw] at hrow
    simp only [write_submission, List.mem_map] at hrow
    obtain ⟨r, _, hr⟩ := hrow
    by_cases hrid : r.id = ctx.submission_id
    · simp only [hrid, if_true] at hr
      rw [← hr]
      exact ⟨rfl, rfl, rfl⟩
    · simp only [hrid, if_false] at hr
      rw [hr] at hrid
      exact absurd hid hrid

theorem fatal_status_null_score_witness :
    is_fatal SubmissionStatus.JUDGE_ERROR = true ∧
    ∃ w, (update_submission (example_env report_ok report_full) example_ctx
        SubmissionStatus.OK SubmissionStatus.JUDGE_ERROR (some 8) "initial" "final"
        example_state).db.trace =
        example_state.db.trace ++ [Stmt.lock_tables,
          Stmt.update_submission example_ctx.submission_id w,
          Stmt.update_final example_ctx.sowner example_ctx.problem_id
            example_ctx.contest_problem_id,
          Stmt.unlock_tables] ∧
      w.full_status = SubmissionStatus.JUDGE_ERROR ∧ w.score = none ∧
      w.final_candidate = false :=
  ⟨by decide,
    (fatal_status_null_score (example_env report_ok report_full) example_ctx
      SubmissionStatus.OK SubmissionStatus.JUDGE_ERROR (some 8) "initial" "final"
      example_state (by decide)).2.1⟩

/-! ## The early returns of `judge_or_rejudge_submission` -/

theorem filter_key_eq_singleton {α : Type} (key : α → Nat) (rows : List α)
    (hnd : (rows.map key).Nodup) (x : α) (hx : x ∈ rows) :
    rows.filter (fun y => decide (key y = key x)) = [x] := by
  induction rows with
  | nil => simp at hx
  | cons a rest ih =>
    simp only [List.map_cons, List.nodup_cons, List.mem_map, not_exists, not_and] at hnd
    rcases List.mem_cons.1 hx with hxa | hxr
    · subst hxa
      have hnone : rest.filter (fun y => decide (key y = key x)) = [] := by
        rw [List.filter_eq_nil_iff]
        intro y hy
        simpa using hnd.1 y hy
      simp [List.filter_cons, hnone]
    · have hne : key a ≠ key x := fun h => hnd.1 x hxr h.symm
      simp [List.filter_cons, hne, ih hnd.2 hxr]

/-- With unique ids, the first query fetches the submission with the given id
together with its problem. -/
theorem select_submission_of_mem (db : DB) (sub : SubmissionRow) (problem : ProblemRow)
    (hsid : (db.submissions.map (fun row => row.id)).Nodup)
    (hpid : (db.problems.map (fun row => row.id)).Nodup)
    (hsub : sub ∈ db.submissions) (hproblem : problem ∈ db.problems)
    (hjoin : problem.id = sub.problem_id) :
    select_submission sub.id db = some (sub, problem) := by
  unfold select_submission
  rw [filter_key_eq_singleton (fun row : SubmissionRow => row.id) db.submissions hsid sub hsub]
  simp only [List.flatMap_cons, List.flatMap_nil, List.append_nil]
  rw [← hjoin,
    filter_key_eq_singleton (fun row : ProblemRow => row.id) db.problems hpid problem hproblem]
  rfl

theorem select_submission_of_not_mem (db : DB) (submission_id : Nat)
    (h : ∀ row ∈ db.submissions, row.id ≠ submission_id) :
    select_submission submission_id db = none := by
  unfold select_submission
  have hnil : db.submissions.filter (fun s => decide (s.id = submission_id)) = [] := by
    rw [List.filter_eq_nil_iff]
    intro row hrow
    simpa using h row hrow
  rw [hnil]
  rfl

theorem mem_set_job_status_data (job_id : Nat) (status : JobStatus) (data : List String)
    (jobs : List JobRow) (row : JobRow)
    (hrow : row ∈ set_job_status_data job_id status data jobs) (hid : row.id = job_id) :
    row.status = status ∧ row.data = data := by
  simp only [set_job_status_data, List.mem_map] at hrow
  obtain ⟨r, _, hr⟩ := hrow
  by_cases h : r.id = job_id
  · simp only [h, if_true] at hr
    rw [← hr]
    exact ⟨rfl, rfl⟩
  · simp only [h, if_false] at hr
    rw [hr] at h
    exact absurd hid h

/-- C9: for a submission in the table, with its problem, whose last judgment
is later than the problem's last edit and than the job's creation time, the
handler returns after one statement, the update that sets the job DONE with
the "skipped" log; the tables of submissions and problems are as before, and
no collaborator is called (the outcome is the same whatever they would do). -/
theorem stale_submission_skipped (env : JudgeEnv) (job_id : Nat) (job_creation_time : String)
    (db : DB) (sub : SubmissionRow) (problem : ProblemRow)
    (hsid : (db.submissions.map (fun row => row.id)).Nodup)
    (hpid : (db.problems.map (fun row => row.id)).Nodup)
    (hsub : sub ∈ db.submissions) (hproblem : problem ∈ db.problems)
    (hjoin : problem.id = sub.problem_id)
    (hedit : text_lt problem.last_edit sub.last_judgment = true)
    (hjob : text_lt job_creation_time sub.last_judgment = true) :
    (judge_or_rejudge_submission env job_id sub.id job_creation_time db).escaped = none ∧
    (judge_or_rejudge_submission env job_id sub.id job_creation_time db).db.submissions =
      db.submissions ∧
    (judge_or_rejudge_submission env job_id sub.id job_creation_time db).db.problems =
      db.problems ∧
    (judge_or_rejudge_submission env job_id sub.id job_creation_time db).db.trace =
      db.trace ++ [Stmt.update_job_status job_id JobStatus.DONE [skipped_message sub.id]] ∧
    (∀ row ∈ (judge_or_rejudge_submission env job_id sub.id job_creation_time db).db.jobs,
      row.id = job_id → row.status = JobStatus.DONE ∧ row.data = [skipped_message sub.id]) ∧
    (∀ other : JudgeEnv,
      judge_or_rejudge_submission other job_id sub.id job_creation_time db =
        judge_or_rejudge_submission env job_id sub.id job_creation_time db) := by
  have hsel := select_submission_of_mem db sub problem hsid hpid hsub hproblem hjoin
  have hrun : ∀ e : JudgeEnv, judge_or_rejudge_submission e job_id sub.id job_creation_time db =
      { db := { db with
          jobs := set_job_status_data job_id JobStatus.DONE [skipped_message sub.id] db.jobs
          trace := db.trace ++
            [Stmt.update_job_status job_id JobStatus.DONE [skipped_message sub.id]] } } := by
    intro e
    simp [judge_or_rejudge_submission, hsel, hedit, hjob, exec_update_job_status, judge_log]
  rw [hrun env]
  refine ⟨rfl, rfl, rfl, rfl, ?_, fun other => hrun other⟩
  intro row hrow hid
  exact mem_set_job_status_data job_id JobStatus.DONE _ db.jobs row hrow hid

theorem stale_submission_skipped_witness :
    (text_lt example_problem.last_edit example_submission.last_judgment = true ∧
      text_lt "2020-01-01 12:00:00" example_submission.last_judgment = true) ∧
    (judge_or_rejudge_submission (example_env report_ok report_full) 4 7
      "2020-01-01 12:00:00" example_db).db.submissions = example_db.submissions ∧
    (judge_or_rejudge_submission (example_env report_ok report_full) 4 7
      "2020-01-01 12:00:00" example_db).db.trace =
      [Stmt.update_job_status 4 JobStatus.DONE [skipped_message 7]] :=
  ⟨by decide,
    (stale_submission_skipped (example_env report_ok report_full) 4 "2020-01-01 12:00:00"
      example_db example_submission example_problem (by decide) (by decide) (by decide)
      (by decide) rfl (by decide) (by decide)).2.1,
    (stale_submission_skipped (example_env report_ok report_full) 4 "2020-01-01 12:00:00"
      example_db example_submission example_problem (by decide) (by decide) (by decide)
      (by decide) rfl (by decide) (by decide)).2.2.2.1⟩

/-- C10: for a submission id that no row of `submissions` has, the handler
returns after one statement, the update that sets the job FAILED with the log
that there is no such submission; the table of submissions is as before. -/
theorem missing_submission_fails_job (env : JudgeEnv) (job_id submission_id : Nat)
    (job_creation_time : String) (db : DB)
    (h : ∀ row ∈ db.submissions, row.id ≠ submission_id) :
    (judge_or_rejudge_submission env job_id submission_id job_creation_time db).escaped = none ∧
    (judge_or_rejudge_submission env job_id submission_id job_creation_time db).db.submissions =
      db.submissions ∧
    (judge_or_rejudge_submission env job_id submission_id job_creation_time db).db.trace =
      db.trace ++
        [Stmt.update_job_status job_id JobStatus.FAILED
          [no_such_submission_message submission_id]] ∧
    (∀ row ∈ (judge_or_rejudge_submission env job_id submission_id job_creation_time db).db.jobs,
      row.id = job_id →
        row.status = JobStatus.FAILED ∧ row.data = [no_such_submission_message submission_id]) ∧
    no_such_submission_message submission_id =
      "Failed the job of judging the submission " ++ toString submission_id ++
        ", since there is no such submission." := by
  have hsel := select_submission_of_not_mem db submission_id h
  have hrun : judge_or_rejudge_submission env job_id submission_id job_creation_time db =
      { db := { db with
          jobs := set_job_status_data job_id JobStatus.FAILED
            [no_such_submission_message submission_id] db.jobs
          trace := db.trace ++ [Stmt.update_job_status job_id JobStatus.FAILED
            [no_such_submission_message submission_id]] } } := by
    simp [judge_or_rejudge_submission, hsel, exec_update_job_status, judge_log]
  rw [hrun]
  refine ⟨rfl, rfl, rfl, ?_, rfl⟩
  intro row hrow hid
  exact mem_set_job_status_data job_id JobStatus.FAILED _ db.jobs row hrow hid

theorem missing_submission_fails_job_witness :
    (∀ row ∈ example_db.submissions, row.id ≠ 8) ∧
    (judge_or_rejudge_submission (example_env report_ok report_full) 4 8
      "2020-01-01 12:00:00" example_db).db.submissions = example_db.submissions ∧
    (judge_or_rejudge_submission (example_env report_ok report_full) 4 8
      "2020-01-01 12:00:00" example_db).db.jobs =
      [⟨4, JobStatus.FAILED, [no_such_submission_message 8]⟩] :=
  ⟨by decide,
    (missing_submission_fails_job (example_env report_ok report_full) 4 8
      "2020-01-01 12:00:00" example_db (by decide)).2.1,
    rfl⟩

/-! ## Compilation failures and exceptions in `judge_or_rejudge_submission` -/

/-- The query of the handler fetches a submission that is in the table with
its problem, and the skip test fails for it. -/
theorem handler_reaches_load (env : JudgeEnv) (job_id : Nat) (job_creation_time : String)
    (db : DB) (sub : SubmissionRow) (problem : ProblemRow)
    (hsid : (db.submissions.map (fun row => row.id)).Nodup)
    (hpid : (db.problems.map (fun row => row.id)).Nodup)
    (hsub : sub ∈ db.submissions) (hproblem : problem ∈ db.problems)
    (hjoin : problem.id = sub.problem_id)
    (hfresh : (text_lt problem.last_edit sub.last_judgment &&
      text_lt job_creation_time sub.last_judgment) = false) :
    judge_or_rejudge_submission env job_id sub.id job_creation_time db =
      match env.load_package with
      | some what =>
        { db := (judge_log "Loading problem package..." { db := db, job_log := [] }).db,
          escaped := some what }
      | none =>
        compile_checker_and_judge env
          { job_id := job_id, submission_id := sub.id, sowner := sub.owner,
            contest_problem_id := sub.contest_problem_id, problem_id := sub.problem_id,
            judging_began := env.mysql_date }
          sub.language
          (judge_log " done." (judge_log "Loading problem package..."
            { db := db, job_log := [] })) := by
  have hsel := select_submission_of_mem db sub problem hsid hpid hsub hproblem hjoin
  simp only [judge_or_rejudge_submission, hsel, hfresh, Bool.false_eq_true, if_false]

/-- C11: for a submission in the table that is not skipped, when the package
loads and `compile_checker` reports a failure, the handler writes the
submission once, with initial and full status CHECKER_COMPILATION_ERROR and a
null score, then sets the job DONE and returns; the outcome does not depend on
the solution's compilation or on the judging passes. -/
theorem checker_compilation_error (env : JudgeEnv) (job_id : Nat)
    (job_creation_time : String) (db : DB) (sub : SubmissionRow) (problem : ProblemRow)
    (compilation_errors : String)
    (hsid : (db.submissions.map (fun row => row.id)).Nodup)
    (hpid : (db.problems.map (fun row => row.id)).Nodup)
    (hsub : sub ∈ db.submissions) (hproblem : problem ∈ db.problems)
    (hjoin : problem.id = sub.problem_id)
    (hfresh : (text_lt problem.last_edit sub.last_judgment &&
      text_lt job_creation_time sub.last_judgment) = false)
    (hload : env.load_package = none)
    (hcc : env.compile_checker = .failed compilation_errors) :
    (judge_or_rejudge_submission env job_id sub.id job_creation_time db).escaped = none ∧
    (judge_or_rejudge_submission env job_id sub.id job_creation_time db).db.trace =
      db.trace ++
        [Stmt.lock_tables,
         Stmt.update_submission sub.id
           { final_candidate := false
             initial_status := SubmissionStatus.CHECKER_COMPILATION_ERROR
             full_status := SubmissionStatus.CHECKER_COMPILATION_ERROR
             score := none
             last_judgment := env.mysql_date
             initial_report := compilation_errors_report env compilation_errors
             final_report := "" },
         Stmt.update_final sub.owner sub.problem_id sub.contest_problem_id,
         Stmt.unlock_tables,
         Stmt.update_job_status job_id JobStatus.DONE
           ["Loading problem package...", " done.", "Compiling checker...", " failed."]] ∧
    (∀ row ∈ (judge_or_rejudge_submission env job_id sub.id job_creation_time db).db.jobs,
      row.id = job_id → row.status = JobStatus.DONE) ∧
    (∀ other : JudgeEnv, other.mysql_date = env.mysql_date →
      other.htmlEscape = env.htmlEscape → other.update_final = env.update_final →
      other.load_package = none → other.compile_checker = .failed compilation_errors →
      judge_or_rejudge_submission other job_id sub.id job_creation_time db =
        judge_or_rejudge_submission env job_id sub.id job_creation_time db) := by
  have hrun : ∀ e : JudgeEnv, e.load_package = none →
      e.compile_checker = .failed compilation_errors →
      judge_or_rejudge_submission e job_id sub.id job_creation_time db =
        { db := { db with
            jobs := set_job_status_data job_id JobStatus.DONE
              ["Loading problem package...", " done.", "Compiling checker...", " failed."]
              db.jobs
            submissions := e.update_final sub.owner sub.problem_id sub.contest_problem_id
              (write_submission sub.id
                { final_candidate := false
                  initial_status := SubmissionStatus.CHECKER_COMPILATION_ERROR
                  full_status := SubmissionStatus.CHECKER_COMPILATION_ERROR
                  score := none
                  last_judgment := e.mysql_date
                  initial_report := compilation_errors_report e compilation_errors
                  final_report := "" } db.submissions)
            trace := db.trace ++
              [Stmt.lock_tables,
               Stmt.update_submission sub.id
                 { final_candidate := false
                   initial_status := SubmissionStatus.CHECKER_COMPILATION_ERROR
                   full_status := SubmissionStatus.CHECKER_COMPILATION_ERROR
                   score := none
                   last_judgment := e.mysql_date
                   initial_report := compilation_errors_report e compilation_errors
                   final_report := "" },
               Stmt.update_final sub.owner sub.problem_id sub.contest_problem_id,
               Stmt.unlock_tables,
               Stmt.update_job_status job_id JobStatus.DONE
                 ["Loading problem package...", " done.", "Compiling checker...",
                  " failed."]] } } := by
    intro e hl hc
    rw [handler_reaches_load e job_id job_creation_time db sub problem hsid hpid hsub
      hproblem hjoin hfresh]
    simp [hl, compile_checker_and_judge, hc, update_submission, job_done,
      exec_update_job_status, judge_log, submission_write, is_fatal]
  rw [hrun env hload hcc]
  refine ⟨rfl, rfl, ?_, ?_⟩
  · intro row hrow hid
    exact (mem_set_job_status_data job_id JobStatus.DONE _ db.jobs row hrow hid).1
  · intro other h1 h2 h3 h4 h5
    rw [hrun other h4 h5, h1, h3]
    simp [compilation_errors_report, h2]

theorem checker_compilation_error_witness :
    (judge_or_rejudge_submission example_env_checker_failed 4 7 "2020-01-05 00:00:00"
      example_db).escaped = none ∧
    (judge_or_rejudge_submission example_env_checker_failed 4 7 "2020-01-05 00:00:00"
      example_db).db.jobs =
      [⟨4, JobStatus.DONE,
        ["Loading problem package...", " done.", "Compiling checker...", " failed."]⟩] ∧
    ∀ row ∈ (judge_or_rejudge_submission example_env_checker_failed 4 7
      "2020-01-05 00:00:00" example_db).db.jobs, row.id = 4 → row.status = JobStatus.DONE :=
  ⟨rfl, by decide,
    (checker_compilation_error example_env_checker_failed 4 "2020-01-05 00:00:00"
      example_db example_submission example_problem "no main" (by decide) (by decide)
      (by decide) (by decide) rfl (by decide) rfl rfl).2.2.1⟩

theorem judge_pass_threw_of_error (env : JudgeEnv) (ctx : JudgeCtx) (final : Bool)
    (pass : PassOutcome) (s : HState) (what : String) (h : pass.result = .error what) :
    ∃ thrown s1, judge_pass env ctx final pass s = .threw thrown s1 := by
  unfold judge_pass
  cases hp : send_partials env ctx final pass.partials s with
  | done s1 => exact ⟨what, s1, by simp [h]⟩
  | threw thrown s1 => exact ⟨thrown, s1, rfl⟩

/-- The `try` block is left by an exception when a call of `jworker.judge`
throws. -/
theorem judge_try_threw (env : JudgeEnv) (ctx : JudgeCtx) (s : HState)
    (h : (∃ what, env.initial_pass.result = .error what) ∨
      (∃ what, env.final_pass.result = .error what)) :
    ∃ thrown s1, judge_try env ctx s = .threw thrown s1 := by
  unfold judge_try
  rcases h with ⟨what, h⟩ | ⟨what, h⟩
  · obtain ⟨thrown, s1, hp⟩ := judge_pass_threw_of_error env ctx false env.initial_pass s what h
    exact ⟨thrown, s1, by simp [hp]⟩
  · cases hp : judge_pass env ctx false env.initial_pass s with
    | threw thrown s1 => exact ⟨thrown, s1, rfl⟩
    | done s1 =>
      obtain ⟨thrown, s2, hq⟩ :=
        judge_pass_threw_of_error env ctx true env.final_pass s1 what h
      exact ⟨thrown, s2, by simp [hq]⟩

/-- When the `try` block ends normally its last step is `job_done()`. -/
theorem judge_try_done_is_job_done (env : JudgeEnv) (ctx : JudgeCtx) (s s1 : HState)
    (h : judge_try env ctx s = .done s1) : ∃ s2, s1 = job_done ctx s2 := by
  unfold judge_try at h
  cases hp : judge_pass env ctx false env.initial_pass s with
  | threw thrown a => simp [hp] at h
  | done a =>
    cases hq : judge_pass env ctx true env.final_pass a with
    | threw thrown b => simp [hp, hq] at h
    | done b =>
      simp only [hp, hq, Res.done.injEq] at h
      exact ⟨b, h.symm⟩

theorem last_job_status_write_append (trace : List Stmt) (job_id : Nat)
    (status : JobStatus) (data : List String) :
    last_job_status_write (trace ++ [Stmt.update_job_status job_id status data]) =
      some (job_id, status, data) := by
  simp [last_job_status_write, List.reverse_append, List.findSome?_cons]

/-- The statements of the `catch` block: one `UPDATE submissions` with both
statuses JUDGE_ERROR and a null score, then the update that sets the job
DONE. -/
theorem judge_catch_trace (env : JudgeEnv) (ctx : JudgeCtx) (what : String) (s : HState) :
    (judge_catch env ctx what s).db.trace =
      s.db.trace ++
        [Stmt.lock_tables,
         Stmt.update_submission ctx.submission_id
           { final_candidate := false
             initial_status := SubmissionStatus.JUDGE_ERROR
             full_status := SubmissionStatus.JUDGE_ERROR
             score := none
             last_judgment := ctx.judging_began
             initial_report := "<pre>" ++ env.htmlEscape what ++ "</pre>"
             final_report := "" },
         Stmt.update_final ctx.sowner ctx.problem_id ctx.contest_problem_id,
         Stmt.unlock_tables,
         Stmt.update_job_status ctx.job_id JobStatus.DONE
           (s.job_log ++ ["Judge error.", "Caught exception -> " ++ what])] := by
  simp [judge_catch, update_submission, job_done, exec_update_job_status, judge_log,
    submission_write, is_fatal]

theorem job_done_jobs (ctx : JudgeCtx) (s : HState) :
    (job_done ctx s).db.jobs =
      set_job_status_data ctx.job_id JobStatus.DONE s.job_log s.db.jobs := rfl

theorem judge_catch_jobs (env : JudgeEnv) (ctx : JudgeCtx) (what : String) (s : HState) :
    (judge_catch env ctx what s).db.jobs =
      set_job_status_data ctx.job_id JobStatus.DONE
        (s.job_log ++ ["Judge error.", "Caught exception -> " ++ what]) s.db.jobs := by
  simp [judge_catch, update_submission, job_done, exec_update_job_status, judge_log]

/-- C12, the claim as stated fails: when spawning the checker's compilation
throws, the exception leaves the handler; the submission keeps its old
statuses and score and the job stays IN_PROGRESS. -/
theorem checker_spawn_exception_escapes :
    (judge_or_rejudge_submission example_env_checker_threw 4 7 "2020-01-05 00:00:00"
      example_db).escaped = some "cannot spawn" ∧
    (judge_or_rejudge_submission example_env_checker_threw 4 7 "2020-01-05 00:00:00"
      example_db).db.submissions = [example_submission] ∧
    example_submission.full_status = SubmissionStatus.OK ∧
    example_submission.score = some 3 ∧
    (judge_or_rejudge_submission example_env_checker_threw 4 7 "2020-01-05 00:00:00"
      example_db).db.jobs = [⟨4, JobStatus.IN_PROGRESS, []⟩] ∧
    (judge_or_rejudge_submission example_env_checker_threw 4 7 "2020-01-05 00:00:00"
      example_db).db.trace = [] := by
  decide

/-- C12, amended: for a submission in the table that is not skipped and whose
package loads, an exception of either judging pass (both compilations having
succeeded) is caught: the handler writes both statuses JUDGE_ERROR with a null
score, sets the job DONE and returns. An exception thrown by `compile_checker`
or `compile_solution` is not caught: it leaves the handler, which has sent no
statement. -/
theorem exceptions_in_handler (env : JudgeEnv) (job_id : Nat)
    (job_creation_time : String) (db : DB) (sub : SubmissionRow) (problem : ProblemRow)
    (hsid : (db.submissions.map (fun row => row.id)).Nodup)
    (hpid : (db.problems.map (fun row => row.id)).Nodup)
    (hsub : sub ∈ db.submissions) (hproblem : problem ∈ db.problems)
    (hjoin : problem.id = sub.problem_id)
    (hfresh : (text_lt problem.last_edit sub.last_judgment &&
      text_lt job_creation_time sub.last_judgment) = false)
    (hload : env.load_package = none) :
    (∀ what, env.compile_checker = .threw what →
      (judge_or_rejudge_submission env job_id sub.id job_creation_time db).escaped =
        some what ∧
      (judge_or_rejudge_submission env job_id sub.id job_creation_time db).db = db) ∧
    (∀ what lang, env.compile_checker = .succeeded → to_sol_lang sub.language = .ok lang →
      env.compile_solution = .threw what →
      (judge_or_rejudge_submission env job_id sub.id job_creation_time db).escaped =
        some what ∧
      (judge_or_rejudge_submission env job_id sub.id job_creation_time db).db = db) ∧
    (∀ lang, env.compile_checker = .succeeded → to_sol_lang sub.language = .ok lang →
      env.compile_solution = .succeeded →
      ((∃ what, env.initial_pass.result = .error what) ∨
        (∃ what, env.final_pass.result = .error what)) →
      (judge_or_rejudge_submission env job_id sub.id job_creation_time db).escaped = none ∧
      (∃ thrown, last_submission_write
          (judge_or_rejudge_submission env job_id sub.id job_creation_time db).db.trace =
        some (sub.id,
          { final_candidate := false
            initial_status := SubmissionStatus.JUDGE_ERROR
            full_status := SubmissionStatus.JUDGE_ERROR
            score := none
            last_judgment := env.mysql_date
            initial_report := "<pre>" ++ env.htmlEscape thrown ++ "</pre>"
            final_report := "" })) ∧
      (∃ log, last_job_status_write
          (judge_or_rejudge_submission env job_id sub.id job_creation_time db).db.trace =
        some (job_id, JobStatus.DONE, log)) ∧
      (∀ row ∈ (judge_or_rejudge_submission env job_id sub.id job_creation_time db).db.jobs,
        row.id = job_id → row.status = JobStatus.DONE)) := by
  rw [handler_reaches_load env job_id job_creation_time db sub problem hsid hpid hsub
    hproblem hjoin hfresh]
  simp only [hload]
  refine ⟨?_, ?_, ?_⟩
  · intro what hcc
    simp [compile_checker_and_judge, hcc, judge_log]
  · intro what lang hcc hlang hcs
    simp [compile_checker_and_judge, hcc, compile_solution_and_judge, hlang, hcs, judge_log]
  · intro lang hcc hlang hcs hthrow
    obtain ⟨thrown, s1, htry⟩ := judge_try_threw env
      { job_id := job_id, submission_id := sub.id, sowner := sub.owner,
        contest_problem_id := sub.contest_problem_id, problem_id := sub.problem_id,
        judging_began := env.mysql_date }
      (judge_log " done." (judge_log "Compiling solution..." (judge_log " done."
        (judge_log "Compiling checker..." (judge_log " done."
          (judge_log "Loading problem package..." { db := db, job_log := [] })))))) hthrow
    simp only [compile_checker_and_judge, hcc, compile_solution_and_judge, hlang, hcs, htry]
    refine ⟨trivial, ⟨thrown, ?_⟩,
      ⟨s1.job_log ++ ["Judge error.", "Caught exception -> " ++ thrown], ?_⟩, ?_⟩
    · rw [judge_catch_trace]
      exact last_submission_write_append _ _ _ Stmt.lock_tables
        [Stmt.update_final sub.owner sub.problem_id sub.contest_problem_id,
         Stmt.unlock_tables,
         Stmt.update_job_status job_id JobStatus.DONE _]
        (by intro stmt hstmt; simp at hstmt; rcases hstmt with h | h | h <;> subst h <;> rfl)
    · rw [judge_catch_trace]
      have hsplit : ∀ (t : List Stmt) (a b c d e : Stmt),
          t ++ [a, b, c, d, e] = (t ++ [a, b, c, d]) ++ [e] := by
        intro t a b c d e
        simp
      rw [hsplit]
      exact last_job_status_write_append _ _ _ _
    · intro row hrow hid
      rw [judge_catch_jobs] at hrow
      exact (mem_set_job_status_data job_id JobStatus.DONE _ _ row hrow hid).1

theorem exceptions_in_handler_witness :
    (judge_or_rejudge_submission example_env_final_threw 4 7 "2020-01-05 00:00:00"
      example_db).escaped = none ∧
    (∃ thrown, last_submission_write
        (judge_or_rejudge_submission example_env_final_threw 4 7 "2020-01-05 00:00:00"
          example_db).db.trace =
      some (7,
        { final_candidate := false
          initial_status := SubmissionStatus.JUDGE_ERROR
          full_status := SubmissionStatus.JUDGE_ERROR
          score := none
          last_judgment := "2020-01-03 00:00:00"
          initial_report := "<pre>" ++ thrown ++ "</pre>"
          final_report := "" })) :=
  ⟨((exceptions_in_handler example_env_final_threw 4 "2020-01-05 00:00:00" example_db
      example_submission example_problem (by decide) (by decide) (by decide) (by decide)
      rfl (by decide) rfl).2.2 SolutionLanguage.CPP14 rfl rfl rfl
      (Or.inr ⟨"sandbox died", rfl⟩)).1,
   ((exceptions_in_handler example_env_final_threw 4 "2020-01-05 00:00:00" example_db
      example_submission example_problem (by decide) (by decide) (by decide) (by decide)
      rfl (by decide) rfl).2.2 SolutionLanguage.CPP14 rfl rfl rfl
      (Or.inr ⟨"sandbox died", rfl⟩)).2.1⟩

/-! ## What a call of `send_judge_report` writes -/

theorem submission_write_no_score (stype : SubmissionType) (judging_began : String)
    (initial_status full_status : SubmissionStatus) (initial_report final_report : String) :
    submission_write stype judging_began initial_status full_status none initial_report
      final_report =
      { final_candidate := false
        initial_status := initial_status
        full_status := full_status
        score := none
        last_judgment := judging_began
        initial_report := initial_report
        final_report := final_report } := by
  unfold submission_write
  split <;> simp

/-- C13: the call `send_judge_report(jrep, false, false)` on a report whose
groups have tests ends normally and writes the submission with the report's
resolved status as initial status, full status PENDING, a null score, the
rendered report as initial report and an empty final report. -/
theorem initial_pass_write (env : JudgeEnv) (ctx : JudgeCtx) (jr : JudgeReport) (s : HState)
    (hwf : groups_have_tests jr) :
    ∃ s1 rep status, send_judge_report env ctx jr false false s = .done s1 ∧
      construct_report env jr false = .ok rep ∧ calc_status jr = .ok status ∧
      last_submission_write s1.db.trace = some (ctx.submission_id,
        { final_candidate := false
          initial_status := status
          full_status := SubmissionStatus.PENDING
          score := none
          last_judgment := ctx.judging_began
          initial_report := rep
          final_report := "" }) ∧
      s1.db.submissions = env.update_final ctx.sowner ctx.problem_id ctx.contest_problem_id
        (write_submission ctx.submission_id
          { final_candidate := false
            initial_status := status
            full_status := SubmissionStatus.PENDING
            score := none
            last_judgment := ctx.judging_began
            initial_report := rep
            final_report := "" } s.db.submissions) := by
  obtain ⟨rep, hrep⟩ := construct_report_of_groups_have_tests env jr false hwf
  obtain ⟨status, hst⟩ := calc_status_total jr
  refine ⟨_, rep, status, send_judge_report_initial_eq env ctx jr false s rep status hrep hst,
    hrep, hst, ?_, ?_⟩
  · rw [update_submission_trace, submission_write_no_score]
    exact last_submission_write_append _ _ _ Stmt.lock_tables
      [Stmt.update_final ctx.sowner ctx.problem_id ctx.contest_problem_id,
       Stmt.unlock_tables]
      (by intro stmt hstmt; simp at hstmt; rcases hstmt with h | h <;> subst h <;> rfl)
  · simp [update_submission, submission_write_no_score, exec_update_job_data, judge_log]

theorem initial_pass_write_witness :
    ∃ s1, send_judge_report (example_env report_wa report_full) example_ctx report_wa
        false false example_state = .done s1 ∧
      last_submission_write s1.db.trace = some (7,
        { final_candidate := false
          initial_status := SubmissionStatus.WA
          full_status := SubmissionStatus.PENDING
          score := none
          last_judgment := "2020-01-03 00:00:00"
          initial_report := "initial"
          final_report := "" }) := by
  obtain ⟨s1, rep, status, h1, h2, h3, h4, _⟩ :=
    initial_pass_write (example_env report_wa report_full) example_ctx report_wa
      example_state (by decide)
  have hrep : rep = "initial" := (Except.ok.inj h2).symm
  have hst : status = SubmissionStatus.WA := (Except.ok.inj h3).symm
  subst hrep hst
  exact ⟨s1, h1, h4⟩

/-- C14, the claim as stated fails: the call `send_judge_report(partial,
false, true)` for an intermediate report with a wrong answer rewrites row 7 of
`submissions`, which had statuses OK and OK and score 3. -/
theorem partial_report_writes_submission :
    ∃ s1, send_judge_report (example_env report_wa report_full) example_ctx report_wa
        false true example_state = .done s1 ∧
      s1.db.submissions =
        [⟨7, .NORMAL, .CPP14, "1", "", 2, false, .WA, .PENDING, none,
          "2020-01-03 00:00:00", "initial", ""⟩] ∧
      example_state.db.submissions =
        [⟨7, .NORMAL, .CPP14, "1", "", 2, false, .OK, .OK, some 3,
          "2020-01-02 00:00:00", "old initial", "old final"⟩] ∧
      s1.db.submissions ≠ example_state.db.submissions :=
  ⟨_, rfl, by decide, by decide, by decide⟩

/-- C14, amended: a call of `send_judge_report` for an intermediate report
(`partial` true) whose groups have tests sends the job log with the report's
message to the job's `data`, drops the message from the buffered log, and
writes the submission with the same values as the call with `partial` false
would for that report; so the submission row is written on every intermediate
report as well as when a pass completes. -/
theorem partial_report_write (env : JudgeEnv) (ctx : JudgeCtx) (jr : JudgeReport)
    (final : Bool) (s : HState) (hwf : groups_have_tests jr) :
    ∃ s1 s2 w, send_judge_report env ctx jr final true s = .done s1 ∧
      send_judge_report env ctx jr final false s = .done s2 ∧
      s1.job_log = s.job_log ∧
      s2.job_log = s.job_log ++ [report_message ctx jr false] ∧
      s1.db.trace = s.db.trace ++
        [Stmt.update_job_data ctx.job_id (s.job_log ++ [report_message ctx jr true]),
         Stmt.lock_tables, Stmt.update_submission ctx.submission_id w,
         Stmt.update_final ctx.sowner ctx.problem_id ctx.contest_problem_id,
         Stmt.unlock_tables] ∧
      s2.db.trace = s.db.trace ++
        [Stmt.update_job_data ctx.job_id (s.job_log ++ [report_message ctx jr false]),
         Stmt.lock_tables, Stmt.update_submission ctx.submission_id w,
         Stmt.update_final ctx.sowner ctx.problem_id ctx.contest_problem_id,
         Stmt.unlock_tables] ∧
      s1.db.submissions = env.update_final ctx.sowner ctx.problem_id ctx.contest_problem_id
        (write_submission ctx.submission_id w s.db.submissions) ∧
      s2.db.submissions = s1.db.submissions := by
  obtain ⟨rep, hrep⟩ := construct_report_of_groups_have_tests env jr final hwf
  obtain ⟨status, hst⟩ := calc_status_total jr
  cases final with
  | false =>
    exact ⟨_, _,
      submission_write (select_type ctx.submission_id s.db.submissions) ctx.judging_began
        status SubmissionStatus.PENDING none rep "",
      send_judge_report_initial_eq env ctx jr true s rep status hrep hst,
      send_judge_report_initial_eq env ctx jr false s rep status hrep hst,
      by simp [update_submission], by simp [update_submission],
      by simp [update_submission, exec_update_job_data, judge_log],
      by simp [update_submission, exec_update_job_data, judge_log],
      by simp [update_submission, exec_update_job_data, judge_log],
      by simp [update_submission, exec_update_job_data, judge_log]⟩
  | true =>
    exact ⟨_, _,
      submission_write (select_type ctx.submission_id s.db.submissions) ctx.judging_began
        s.initial_status
        (if s.initial_status ≠ SubmissionStatus.OK ∧ status ≠ SubmissionStatus.JUDGE_ERROR
         then s.initial_status else status)
        (some (wrap64 (count_score 0 jr.groups + s.initial_score))) s.initial_report rep,
      send_judge_report_final_eq env ctx jr true s rep status hrep hst,
      send_judge_report_final_eq env ctx jr false s rep status hrep hst,
      by simp [update_submission], by simp [update_submission],
      by simp [update_submission, exec_update_job_data, judge_log],
      by simp [update_submission, exec_update_job_data, judge_log],
      by simp [update_submission, exec_update_job_data, judge_log],
      by simp [update_submission, exec_update_job_data, judge_log]⟩

theorem partial_report_write_witness :
    groups_have_tests report_wa ∧
    ∃ s1 s2, send_judge_report (example_env report_wa report_full) example_ctx report_wa
        false true example_state = .done s1 ∧
      send_judge_report (example_env report_wa report_full) example_ctx report_wa
        false false example_state = .done s2 ∧
      s1.job_log = [] ∧ s2.db.submissions = s1.db.submissions := by
  obtain ⟨s1, s2, w, h1, h2, h3, _, _, _, _, h8⟩ :=
    partial_report_write (example_env report_wa report_full) example_ctx report_wa false
      example_state (by decide)
  exact ⟨by decide, s1, s2, h1, h2, h3, h8⟩

/-! ## Every return of the handler follows a write of DONE or FAILED -/

theorem compile_solution_and_judge_returns (env : JudgeEnv) (ctx : JudgeCtx)
    (lang : SubmissionLanguage) (s : HState) :
    ((compile_solution_and_judge env ctx lang s).escaped = none →
      ∃ s1, (compile_solution_and_judge env ctx lang s).db = (job_done ctx s1).db) ∧
    (∀ what, (compile_solution_and_judge env ctx lang s).escaped = some what →
      to_sol_lang lang = .error what ∨ env.compile_solution = .threw what) := by
  unfold compile_solution_and_judge
  cases hlang : to_sol_lang lang with
  | error what => simp
  | ok l =>
    cases hcs : env.compile_solution with
    | threw what => simp
    | failed errors => exact ⟨fun _ => ⟨_, rfl⟩, fun what h => by simp at h⟩
    | succeeded =>
      cases htry : judge_try env ctx
          (judge_log " done." (judge_log "Compiling solution..." s)) with
      | done s3 =>
        obtain ⟨s2, hs2⟩ := judge_try_done_is_job_done env ctx _ s3 htry
        refine ⟨fun _ => ⟨s2, ?_⟩, fun what h => ?_⟩
        · simp only [htry, hs2]
        · simp [htry] at h
      | threw thrown s3 =>
        refine ⟨fun _ => ⟨update_submission env ctx SubmissionStatus.JUDGE_ERROR
          SubmissionStatus.JUDGE_ERROR none ("<pre>" ++ env.htmlEscape thrown ++ "</pre>") ""
          (judge_log ("Caught exception -> " ++ thrown) (judge_log "Judge error." s3)), ?_⟩,
          fun what h => ?_⟩
        · simp only [htry]
          rfl
        · simp [htry] at h

theorem compile_checker_and_judge_returns (env : JudgeEnv) (ctx : JudgeCtx)
    (lang : SubmissionLanguage) (s : HState) :
    ((compile_checker_and_judge env ctx lang s).escaped = none →
      ∃ s1, (compile_checker_and_judge env ctx lang s).db = (job_done ctx s1).db) ∧
    (∀ what, (compile_checker_and_judge env ctx lang s).escaped = some what →
      env.compile_checker = .threw what ∨ to_sol_lang lang = .error what ∨
      env.compile_solution = .threw what) := by
  unfold compile_checker_and_judge
  cases hcc : env.compile_checker with
  | threw what => simp
  | failed errors => exact ⟨fun _ => ⟨_, rfl⟩, fun what h => by simp at h⟩
  | succeeded =>
    have h := compile_solution_and_judge_returns env ctx lang
      (judge_log " done." (judge_log "Compiling checker..." s))
    exact ⟨h.1, fun what hw => Or.inr (h.2 what hw)⟩

/-- C19: when `judge_or_rejudge_submission` returns, the last statement it
sent sets the job's status to DONE or FAILED, and the job's row has that
status; it returns unless `load_package`, a compilation or `to_sol_lang`
throws. -/
theorem handler_return_sets_final_status (env : JudgeEnv) (job_id submission_id : Nat)
    (job_creation_time : String) (db : DB) :
    ((judge_or_rejudge_submission env job_id submission_id job_creation_time db).escaped =
        none →
      ∃ status log, (status = JobStatus.DONE ∨ status = JobStatus.FAILED) ∧
        (judge_or_rejudge_submission env job_id submission_id job_creation_time
          db).db.trace.getLast? = some (Stmt.update_job_status job_id status log) ∧
        ∀ row ∈ (judge_or_rejudge_submission env job_id submission_id job_creation_time
            db).db.jobs,
          row.id = job_id → row.status = status ∧ row.status ≠ JobStatus.IN_PROGRESS) ∧
    (∀ what,
      (judge_or_rejudge_submission env job_id submission_id job_creation_time db).escaped =
        some what →
      env.load_package = some what ∨ env.compile_checker = .threw what ∨
      (∃ sub problem, select_submission submission_id db = some (sub, problem) ∧
        to_sol_lang sub.language = .error what) ∨
      env.compile_solution = .threw what) := by
  have hwrite : ∀ (status : JobStatus) (s : HState),
      (status = JobStatus.DONE ∨ status = JobStatus.FAILED) →
      ∃ st log, (st = JobStatus.DONE ∨ st = JobStatus.FAILED) ∧
        (exec_update_job_status job_id status s).db.trace.getLast? =
          some (Stmt.update_job_status job_id st log) ∧
        ∀ row ∈ (exec_update_job_status job_id status s).db.jobs,
          row.id = job_id → row.status = st ∧ row.status ≠ JobStatus.IN_PROGRESS := by
    intro status s hstatus
    refine ⟨status, s.job_log, hstatus, by simp [exec_update_job_status], ?_⟩
    intro row hrow hid
    have h := (mem_set_job_status_data job_id status s.job_log s.db.jobs row hrow hid).1
    refine ⟨h, ?_⟩
    rw [h]
    rcases hstatus with h1 | h1 <;> rw [h1] <;> decide
  unfold judge_or_rejudge_submission
  cases hsel : select_submission submission_id db with
  | none =>
    refine ⟨fun _ => hwrite JobStatus.FAILED _ (Or.inr rfl), fun what h => ?_⟩
    simp at h
  | some pair =>
    obtain ⟨sub, problem⟩ := pair
    by_cases hstale : (text_lt problem.last_edit sub.last_judgment &&
        text_lt job_creation_time sub.last_judgment) = true
    · simp only [hstale, if_true]
      refine ⟨fun _ => hwrite JobStatus.DONE _ (Or.inl rfl), fun what h => ?_⟩
      simp at h
    · simp only [hstale, Bool.false_eq_true, if_false]
      cases hload : env.load_package with
      | some what => simp
      | none =>
        simp only
        have h := compile_checker_and_judge_returns env
          { job_id := job_id, submission_id := submission_id, sowner := sub.owner,
            contest_problem_id := sub.contest_problem_id, problem_id := sub.problem_id,
            judging_began := env.mysql_date }
          sub.language
          (judge_log " done." (judge_log "Loading problem package..."
            { db := db, job_log := [] }))
        refine ⟨fun hret => ?_, fun what hw => ?_⟩
        · obtain ⟨s1, hs1⟩ := h.1 hret
          rw [hs1]
          exact hwrite JobStatus.DONE s1 (Or.inl rfl)
        · rcases h.2 what hw with h1 | h1 | h1
          · exact Or.inr (Or.inl h1)
          · exact Or.inr (Or.inr (Or.inl ⟨sub, problem, rfl, h1⟩))
          · exact Or.inr (Or.inr (Or.inr h1))

theorem handler_return_sets_final_status_witness :
    (judge_or_rejudge_submission (example_env report_ok report_full) 4 7
      "2020-01-05 00:00:00" example_db).escaped = none ∧
    ∃ status log, (status = JobStatus.DONE ∨ status = JobStatus.FAILED) ∧
      (judge_or_rejudge_submission (example_env report_ok report_full) 4 7
        "2020-01-05 00:00:00" example_db).db.trace.getLast? =
        some (Stmt.update_job_status 4 status log) ∧
      ∀ row ∈ (judge_or_rejudge_submission (example_env report_ok report_full) 4 7
          "2020-01-05 00:00:00" example_db).db.jobs,
        row.id = 4 → row.status = status ∧ row.status ≠ JobStatus.IN_PROGRESS :=
  ⟨rfl, (handler_return_sets_final_status (example_env report_ok report_full) 4 7
    "2020-01-05 00:00:00" example_db).1 rfl⟩

/-! ## The package `build_package` writes -/

theorem copy_entries_eq (simfile_path simfile_str : String) (src_zip dest_zip : List ZipEntry)
    (hnd : (src_zip.map (fun entry => entry.name)).Nodup)
    (hdis : ∀ entry ∈ src_zip, ∀ added ∈ dest_zip, added.name ≠ entry.name) :
    AddOrReuploadProblemBase.copy_entries simfile_path simfile_str src_zip dest_zip =
      .ok (dest_zip ++ src_zip.map (copied_entry simfile_path simfile_str)) := by
  induction src_zip generalizing dest_zip with
  | nil => simp [AddOrReuploadProblemBase.copy_entries]
  | cons entry rest ih =>
    simp only [List.map_cons, List.nodup_cons, List.mem_map, not_exists, not_and] at hnd
    have hfresh : dest_zip.any (fun added => decide (added.name = entry.name)) = false := by
      rw [List.any_eq_false]
      intro added hadded
      simpa using hdis entry (List.mem_cons_self _ _) added hadded
    have hadd : ∀ content, file_add entry.name content false dest_zip =
        .ok (dest_zip ++ [{ name := entry.name, content := content }]) := by
      intro content
      simp [file_add, hfresh]
    have hnext : ∀ content, ∀ e ∈ rest,
        ∀ added ∈ dest_zip ++ [{ name := entry.name, content := content }],
          added.name ≠ e.name := by
      intro content e he added hadded
      rcases List.mem_append.1 hadded with h | h
      · exact hdis e (List.mem_cons_of_mem _ he) added h
      · simp only [List.mem_singleton] at h
        subst h
        exact fun heq => hnd.1 e he heq.symm
    by_cases hname : entry.name = simfile_path
    · have hadd2 := hadd simfile_str
      rw [hname] at hadd2
      simp only [AddOrReuploadProblemBase.copy_entries, hname, if_true, hadd2]
      have := ih (dest_zip ++ [{ name := simfile_path, content := simfile_str }]) hnd.2
        (by simpa [hname] using hnext simfile_str)
      rw [this]
      simp [copied_entry, hname]
    · simp only [AddOrReuploadProblemBase.copy_entries, hname, if_false, hadd entry.content]
      have := ih (dest_zip ++ [{ name := entry.name, content := entry.content }]) hnd.2
        (hnext entry.content)
      rw [this]
      simp [copied_entry, hname]

theorem lookup_file_store_file (file_id : Nat) (zip : List ZipEntry)
    (files : List (Nat × List ZipEntry)) :
    lookup_file file_id (store_file file_id zip files) = some zip := by
  simp [lookup_file, store_file, List.find?_cons]

/-- The run of `build_package` when the job has not failed, a transaction is
open, Conver constructs a manifest whose name and label are short enough, and
the source package has distinct entry names. -/
theorem build_package_done (env : PackageEnv) (s : BState) (cr : ConstructionResult)
    (src_zip : List ZipEntry)
    (hnf : s.h.job_failed = false) (htx : s.w.in_transaction = true)
    (hcr : env.construct_simfile = .ok cr)
    (hname : cr.simfile.name.utf8ByteSize ≤ env.name_max_len)
    (hlabel : cr.simfile.label.utf8ByteSize ≤ env.label_max_len)
    (hsrc : lookup_file s.h.job_file_id_ s.w.files = some src_zip)
    (hnd : (src_zip.map (fun entry => entry.name)).Nodup) :
    ∃ s1, AddOrReuploadProblemBase.build_package env s = .done s1 ∧
      s1.h.job_failed = false ∧
      s1.h.tmp_file_id_ = some s.w.next_internal_file_id ∧
      s1.h.simfile_str_ = cr.simfile.dump ∧
      s1.h.need_main_solution_judge_report_ =
        decide (cr.status = ConverStatus.NEED_MODEL_SOLUTION_JUDGE_REPORT) ∧
      s1.w.in_transaction = true ∧
      lookup_file s.w.next_internal_file_id s1.w.files =
        some (src_zip.map (copied_entry (cr.pkg_main_dir ++ "Simfile") cr.simfile.dump)) := by
  have hcopy := copy_entries_eq (cr.pkg_main_dir ++ "Simfile") cr.simfile.dump src_zip [] hnd
    (by simp)
  have hn : ¬ env.name_max_len < cr.simfile.name.utf8ByteSize := by omega
  have hl : ¬ env.label_max_len < cr.simfile.label.utf8ByteSize := by omega
  cases hstatus : cr.status <;>
    exact ⟨_, by simp [AddOrReuploadProblemBase.build_package, hnf, htx, hcr, hn, hl, hsrc,
      hcopy, hstatus]; rfl, by simp [AddOrReuploadProblemBase.job_log, hnf], rfl, rfl,
      by simp, by simp [htx], by simp [lookup_file_store_file]⟩

/-- C15: when `build_package` writes the package (the job has not failed, a
transaction is open, Conver's manifest has a name and a label short enough,
the source archive has distinct entry names), the package written has as many
entries as the source, with the same names in the same order, and every entry
whose name is not the manifest's path has the content of the source entry at
the same index. -/
theorem build_package_preserves_entries (env : PackageEnv) (s : BState)
    (cr : ConstructionResult) (src_zip : List ZipEntry)
    (hnf : s.h.job_failed = false) (htx : s.w.in_transaction = true)
    (hcr : env.construct_simfile = .ok cr)
    (hname : cr.simfile.name.utf8ByteSize ≤ env.name_max_len)
    (hlabel : cr.simfile.label.utf8ByteSize ≤ env.label_max_len)
    (hsrc : lookup_file s.h.job_file_id_ s.w.files = some src_zip)
    (hnd : (src_zip.map (fun entry => entry.name)).Nodup) :
    ∃ s1 dest_zip, AddOrReuploadProblemBase.build_package env s = .done s1 ∧
      s1.h.tmp_file_id_ = some s.w.next_internal_file_id ∧
      lookup_file s.w.next_internal_file_id s1.w.files = some dest_zip ∧
      dest_zip.length = src_zip.length ∧
      dest_zip.map (fun entry => entry.name) = src_zip.map (fun entry => entry.name) ∧
      ∀ (i : Nat) (entry : ZipEntry), src_zip[i]? = some entry →
        entry.name ≠ cr.pkg_main_dir ++ "Simfile" → dest_zip[i]? = some entry := by
  obtain ⟨s1, hrun, _, htmp, _, _, _, hfile⟩ :=
    build_package_done env s cr src_zip hnf htx hcr hname hlabel hsrc hnd
  refine ⟨s1, _, hrun, htmp, hfile, by simp, ?_, ?_⟩
  · simp only [List.map_map]
    apply List.map_congr_left
    intro entry _
    by_cases h : entry.name = cr.pkg_main_dir ++ "Simfile"
    · simp [copied_entry, h]
    · simp [copied_entry, h]
  · intro i entry hentry hne
    simp [List.getElem?_map, hentry, copied_entry, hne]

theorem build_package_preserves_entries_witness :
    (example_source.map (fun entry => entry.name)).Nodup ∧
    ∃ s1 dest_zip, AddOrReuploadProblemBase.build_package example_package_env
        (example_bstate example_source) = .done s1 ∧
      s1.h.tmp_file_id_ = some 2 ∧
      lookup_file 2 s1.w.files = some dest_zip ∧
      dest_zip.length = 3 ∧
      dest_zip.map (fun entry => entry.name) =
        ["p/Simfile", "p/doc/statement.pdf", "p/prog/sol.cpp"] ∧
      ∀ (i : Nat) (entry : ZipEntry), example_source[i]? = some entry →
        entry.name ≠ "p/Simfile" → dest_zip[i]? = some entry :=
  ⟨by decide,
    build_package_preserves_entries example_package_env (example_bstate example_source)
      example_cr example_source rfl rfl rfl (by decide) (by decide) rfl (by decide)⟩

/-- C16, where the code departs from the claim: for a source package without
a manifest entry, `build_package` succeeds and writes a package with the two
source entries and no entry `p/Simfile`, so `open_package` finds no manifest
to extract and throws; the new manifest is only in the member
`simfile_str_`. -/
theorem built_package_lacks_simfile :
    ∃ s1, AddOrReuploadProblemBase.build_package example_package_env
        (example_bstate example_source_without_simfile) = .done s1 ∧
      s1.h.job_failed = false ∧
      s1.h.simfile_str_ = "new manifest" ∧
      lookup_file 2 s1.w.files =
        some [⟨"p/doc/statement.pdf", "PDF"⟩, ⟨"p/prog/sol.cpp", "int main() {}"⟩] ∧
      get_index "p/Simfile"
        [⟨"p/doc/statement.pdf", "PDF"⟩, ⟨"p/prog/sol.cpp", "int main() {}"⟩] = none ∧
      ∃ s2, AddOrReuploadProblemBase.open_package example_package_env s1 =
        .threw "no such entry" s2 :=
  ⟨_, rfl, by decide, by decide, by decide, by decide, _, rfl⟩

/-- With a manifest entry in the source package, `open_package` extracts the
new manifest from the package `build_package` wrote. -/
theorem built_package_has_new_simfile :
    ∃ s1, AddOrReuploadProblemBase.build_package example_package_env
        (example_bstate example_source) = .done s1 ∧
      ∃ s2, AddOrReuploadProblemBase.open_package example_package_env s1 = .done s2 ∧
        s2.h.simfile_str_ = "new manifest" :=
  ⟨_, rfl, _, rfl, by decide⟩

/-! ## The length checks and the final update of the add and reupload jobs -/

/-- C18: when Conver has constructed a manifest, `build_package` fails the
job exactly when the name is longer than its maximum or the label is longer
than its maximum; it then returns with the tables `jobs` and the package files
as they were, and with the flag for the model solution's report untouched. A
name and a label of at most the maximum length do not fail the job. -/
theorem build_package_length_checks (env : PackageEnv) (s : BState)
    (cr : ConstructionResult)
    (hnf : s.h.job_failed = false) (htx : s.w.in_transaction = true)
    (hcr : env.construct_simfile = .ok cr) :
    ((AddOrReuploadProblemBase.build_package env s).state.h.job_failed = true ↔
      (env.name_max_len < cr.simfile.name.utf8ByteSize ∨
        env.label_max_len < cr.simfile.label.utf8ByteSize)) ∧
    ((env.name_max_len < cr.simfile.name.utf8ByteSize ∨
        env.label_max_len < cr.simfile.label.utf8ByteSize) →
      ∃ s1, AddOrReuploadProblemBase.build_package env s = .done s1 ∧
        s1.h.job_failed = true ∧ s1.w.files = s.w.files ∧ s1.w.jobs = s.w.jobs ∧
        s1.h.package_file_remover_ = s.h.package_file_remover_ ∧
        s1.h.need_main_solution_judge_report_ = s.h.need_main_solution_judge_report_) ∧
    (cr.simfile.name.utf8ByteSize = env.name_max_len →
      cr.simfile.label.utf8ByteSize = env.label_max_len →
      (AddOrReuploadProblemBase.build_package env s).state.h.job_failed = false) := by
  have hlong : (env.name_max_len < cr.simfile.name.utf8ByteSize ∨
        env.label_max_len < cr.simfile.label.utf8ByteSize) →
      ∃ s1, AddOrReuploadProblemBase.build_package env s = .done s1 ∧
        s1.h.job_failed = true ∧ s1.w.files = s.w.files ∧ s1.w.jobs = s.w.jobs ∧
        s1.h.package_file_remover_ = s.h.package_file_remover_ ∧
        s1.h.need_main_solution_judge_report_ = s.h.need_main_solution_judge_report_ := by
    intro h
    by_cases hn : env.name_max_len < cr.simfile.name.utf8ByteSize
    · refine ⟨(AddOrReuploadProblemBase.build_package env s).state, ?_, ?_, ?_, ?_, ?_, ?_⟩ <;>
        simp [AddOrReuploadProblemBase.build_package, BRes.state, hnf, htx, hcr, hn,
          AddOrReuploadProblemBase.set_failure]
    · have hl : env.label_max_len < cr.simfile.label.utf8ByteSize := by
        rcases h with h | h
        · exact absurd h hn
        · exact h
      refine ⟨(AddOrReuploadProblemBase.build_package env s).state, ?_, ?_, ?_, ?_, ?_, ?_⟩ <;>
        simp [AddOrReuploadProblemBase.build_package, BRes.state, hnf, htx, hcr, hn, hl,
          AddOrReuploadProblemBase.set_failure]
  have hshort : ¬ (env.name_max_len < cr.simfile.name.utf8ByteSize ∨
        env.label_max_len < cr.simfile.label.utf8ByteSize) →
      (AddOrReuploadProblemBase.build_package env s).state.h.job_failed = false := by
    intro h
    have hn : ¬ env.name_max_len < cr.simfile.name.utf8ByteSize := fun x => h (Or.inl x)
    have hl : ¬ env.label_max_len < cr.simfile.label.utf8ByteSize := fun x => h (Or.inr x)
    simp only [AddOrReuploadProblemBase.build_package, hnf, htx, hcr, hn, hl,
      Bool.false_eq_true, if_false]
    cases lookup_file s.h.job_file_id_ s.w.files with
    | none => simp [BRes.state, AddOrReuploadProblemBase.job_log, hnf]
    | some src_zip =>
      simp only []
      cases AddOrReuploadProblemBase.copy_entries (cr.pkg_main_dir ++ "Simfile")
          cr.simfile.dump src_zip [] with
      | error what => simp [BRes.state, AddOrReuploadProblemBase.job_log, hnf]
      | ok dest_zip =>
        cases cr.status <;> simp [BRes.state, AddOrReuploadProblemBase.job_log, hnf]
  refine ⟨⟨fun hfailed => ?_, fun h => ?_⟩, hlong, fun h1 h2 => hshort (by omega)⟩
  · by_contra hnot
    rw [hshort hnot] at hfailed
    exact absurd hfailed (by decide)
  · obtain ⟨s1, hrun, hf, _⟩ := hlong h
    rw [hrun]
    exact hf

theorem build_package_length_checks_witness :
    (AddOrReuploadProblemBase.build_package example_package_env_short_names
      (example_bstate example_source)).state.h.job_failed = true ∧
    (AddOrReuploadProblemBase.build_package example_package_env
      (example_bstate example_source)).state.h.job_failed = false :=
  ⟨(build_package_length_checks example_package_env_short_names
      (example_bstate example_source) example_cr rfl rfl rfl).1.2 (Or.inl (by decide)),
   by decide⟩

/-- C17: for a job of type ADD_PROBLEM or REUPLOAD_PROBLEM that has not
failed, `job_done` sends one update which, on every row of the job that is not
CANCELED, writes status PENDING and the type's variant that awaits the model
solution's judgment when the flag `need_main_solution_judge_report_` is set,
and status DONE with the type as it is otherwise; and `build_package`, when it
completes without failing the job, sets that flag exactly when Conver's status
is NEED_MODEL_SOLUTION_JUDGE_REPORT. -/
theorem job_done_requeues_for_model_solution (env : PackageEnv) (s : BState)
    (hnf : s.h.job_failed = false)
    (htype : s.h.job_type_ = JobType.ADD_PROBLEM ∨ s.h.job_type_ = JobType.REUPLOAD_PROBLEM) :
    (∃ s1, AddOrReuploadProblemBase.job_done env s = .done s1 ∧ s1.h = s.h ∧
      s1.w.jobs.length = s.w.jobs.length ∧
      ∀ (i : Nat) (row : JobRecord), s.w.jobs[i]? = some row → row.id = s.h.job_id_ →
        row.status ≠ JobStatus.CANCELED →
        ∃ written, s1.w.jobs[i]? = some written ∧ written.id = row.id ∧
          (s.h.need_main_solution_judge_report_ = true →
            written.status = JobStatus.PENDING ∧
            (s.h.job_type_ = JobType.ADD_PROBLEM →
              written.type = JobType.ADD_PROBLEM__JUDGE_MODEL_SOLUTION) ∧
            (s.h.job_type_ = JobType.REUPLOAD_PROBLEM →
              written.type = JobType.REUPLOAD_PROBLEM__JUDGE_MODEL_SOLUTION)) ∧
          (s.h.need_main_solution_judge_report_ = false →
            written.status = JobStatus.DONE ∧ written.type = s.h.job_type_)) ∧
    (∀ (s0 : BState) (cr : ConstructionResult), env.construct_simfile = .ok cr →
      AddOrReuploadProblemBase.build_package env s0 = .done s →
      (s.h.need_main_solution_judge_report_ = true ↔
        cr.status = ConverStatus.NEED_MODEL_SOLUTION_JUDGE_REPORT)) := by
  constructor
  · have htarget : AddOrReuploadProblemBase.job_done_target s.h =
        .ok (if s.h.need_main_solution_judge_report_ then JobStatus.PENDING else JobStatus.DONE,
          if s.h.need_main_solution_judge_report_ then
            (if s.h.job_type_ = JobType.ADD_PROBLEM then
              JobType.ADD_PROBLEM__JUDGE_MODEL_SOLUTION
             else JobType.REUPLOAD_PROBLEM__JUDGE_MODEL_SOLUTION)
          else s.h.job_type_) := by
      unfold AddOrReuploadProblemBase.job_done_target
      rcases htype with h | h <;> cases hneed : s.h.need_main_solution_judge_report_ <;>
        simp [h]
    refine ⟨(AddOrReuploadProblemBase.job_done env s).state, ?_, ?_, ?_, ?_⟩
    · simp [AddOrReuploadProblemBase.job_done, hnf, htarget, BRes.state]
    · simp [AddOrReuploadProblemBase.job_done, hnf, htarget, BRes.state]
    · simp [AddOrReuploadProblemBase.job_done, hnf, htarget, BRes.state]
    · intro i row hrow hid hstatus
      refine ⟨AddOrReuploadProblemBase.job_done_row env s.h
        (if s.h.need_main_solution_judge_report_ then JobStatus.PENDING else JobStatus.DONE)
        (if s.h.need_main_solution_judge_report_ then
            (if s.h.job_type_ = JobType.ADD_PROBLEM then
              JobType.ADD_PROBLEM__JUDGE_MODEL_SOLUTION
             else JobType.REUPLOAD_PROBLEM__JUDGE_MODEL_SOLUTION)
          else s.h.job_type_) row, ?_, ?_, ?_, ?_⟩
      · simp [AddOrReuploadProblemBase.job_done, hnf, htarget, BRes.state,
          List.getElem?_map, hrow]
      · simp [AddOrReuploadProblemBase.job_done_row, hid, hstatus]
      · intro hneed
        refine ⟨by simp [AddOrReuploadProblemBase.job_done_row, hid, hstatus, hneed],
          fun h => by simp [AddOrReuploadProblemBase.job_done_row, hid, hstatus, hneed, h],
          fun h => by simp [AddOrReuploadProblemBase.job_done_row, hid, hstatus, hneed, h]⟩
      · intro hneed
        exact ⟨by simp [AddOrReuploadProblemBase.job_done_row, hid, hstatus, hneed],
          by simp [AddOrReuploadProblemBase.job_done_row, hid, hstatus, hneed]⟩
  · intro s0 cr hcr hbuild
    have h0 : s0.h.job_failed = false := by
      cases h : s0.h.job_failed with
      | false => rfl
      | true =>
        simp only [AddOrReuploadProblemBase.build_package, h, if_true, BRes.done.injEq]
          at hbuild
        rw [← hbuild, h] at hnf
        exact absurd hnf (by decide)
    have htx : s0.w.in_transaction = true := by
      cases h : s0.w.in_transaction with
      | true => rfl
      | false => simp [AddOrReuploadProblemBase.build_package, h0, h] at hbuild
    by_cases hn : env.name_max_len < cr.simfile.name.utf8ByteSize
    · simp [AddOrReuploadProblemBase.build_package, h0, htx, hcr, hn] at hbuild
      subst hbuild
      simp [AddOrReuploadProblemBase.set_failure] at hnf
    · by_cases hl : env.label_max_len < cr.simfile.label.utf8ByteSize
      · simp [AddOrReuploadProblemBase.build_package, h0, htx, hcr, hn, hl] at hbuild
        subst hbuild
        simp [AddOrReuploadProblemBase.set_failure] at hnf
      · cases hfile : lookup_file s0.h.job_file_id_ s0.w.files with
        | none =>
          simp [AddOrReuploadProblemBase.build_package, h0, htx, hcr, hn, hl, hfile] at hbuild
        | some src_zip =>
          cases hcopy : AddOrReuploadProblemBase.copy_entries
              (cr.pkg_main_dir ++ "Simfile") cr.simfile.dump src_zip [] with
          | error what =>
            simp [AddOrReuploadProblemBase.build_package, h0, htx, hcr, hn, hl, hfile,
              hcopy] at hbuild
          | ok dest_zip =>
            cases hstatus : cr.status <;>
              simp [AddOrReuploadProblemBase.build_package, h0, htx, hcr, hn, hl, hfile,
                hcopy, hstatus] at hbuild <;>
              subst hbuild <;> simp

theorem job_done_requeues_for_model_solution_witness :
    (AddOrReuploadProblemBase.build_package example_package_env_need_report
      (example_bstate example_source)).state.h.job_failed = false ∧
    (AddOrReuploadProblemBase.job_done example_package_env_need_report
      (AddOrReuploadProblemBase.build_package example_package_env_need_report
        (example_bstate example_source)).state).state.w.jobs =
      [⟨9, some 1, some 2, some 1, .ADD_PROBLEM__JUDGE_MODEL_SOLUTION, 5, .PENDING,
        "2020-01-03 00:00:00", none, "info", ["report"]⟩] ∧
    ∃ s1, AddOrReuploadProblemBase.job_done example_package_env_need_report
        (AddOrReuploadProblemBase.build_package example_package_env_need_report
          (example_bstate example_source)).state = .done s1 ∧
      s1.w.jobs.length = 1 := by
  obtain ⟨s1, h1, _, h3, _⟩ :=
    (job_done_requeues_for_model_solution example_package_env_need_report
      (AddOrReuploadProblemBase.build_package example_package_env_need_report
        (example_bstate example_source)).state (by decide) (Or.inl (by decide))).1
  exact ⟨by decide, by decide, s1, h1, h3⟩

/-! ## Writes to a canceled job -/

theorem affected_rows_self {α : Type} [DecidableEq α] (rows : List α) :
    affected_rows rows rows = 0 := by
  unfold affected_rows
  rw [List.length_eq_zero, List.filter_eq_nil_iff]
  intro pair hpair
  have := List.of_mem_zip hpair
  induction rows with
  | nil => simp at hpair
  | cons a rest ih =>
    simp only [List.zip_cons_cons, List.mem_cons] at hpair
    rcases hpair with h | h
    · subst h
      simp
    · exact ih h (List.of_mem_zip h)

theorem map_guarded_of_canceled {α : Type} (rows : List α) (guard : α → Prop)
    [DecidablePred guard] (f : α → α) (h : ∀ row ∈ rows, ¬ guard row) :
    rows.map (fun row => if guard row then f row else row) = rows := by
  have : ∀ row ∈ rows, (fun row => if guard row then f row else row) row = id row := by
    intro row hrow
    simp [h row hrow]
  rw [List.map_congr_left this, List.map_id]

theorem lookup_file_removed (file_id : Nat) (files : List (Nat × List ZipEntry)) :
    lookup_file file_id (files.filter (fun file => file.1 ≠ file_id)) = none := by
  unfold lookup_file
  have : (files.filter (fun file => decide (file.1 ≠ file_id))).find?
      (fun file => decide (file.1 = file_id)) = none := by
    rw [List.find?_eq_none]
    intro file hfile
    have := (List.mem_filter.1 hfile).2
    simpa using this
  rw [this]

/-- C20, the claim as stated fails: job 4 is CANCELED when
`judge_or_rejudge_submission` runs on it and the checker fails to compile;
the handler writes the submission and its `job_done` sets the job DONE. -/
theorem canceled_judge_job_becomes_done :
    example_db_canceled.jobs = [⟨4, JobStatus.CANCELED, []⟩] ∧
    (judge_or_rejudge_submission example_env_checker_failed 4 7 "2020-01-05 00:00:00"
      example_db_canceled).db.jobs =
      [⟨4, JobStatus.DONE,
        ["Loading problem package...", " done.", "Compiling checker...", " failed."]⟩] ∧
    last_submission_write
      (judge_or_rejudge_submission example_env_checker_failed 4 7 "2020-01-05 00:00:00"
        example_db_canceled).db.trace =
      some (7,
        { final_candidate := false
          initial_status := SubmissionStatus.CHECKER_COMPILATION_ERROR
          full_status := SubmissionStatus.CHECKER_COMPILATION_ERROR
          score := none
          last_judgment := "2020-01-03 00:00:00"
          initial_report := "<pre class=\"compilation-errors\">no main</pre>"
          final_report := "" }) := by
  decide

/-- C20, amended: CANCELED is kept by the writes that carry the guard
`status!=CANCELED`. On a canceled job, `job_done` of the add and reupload
handler leaves table `jobs` as it is and reports the cancellation; the handler
`problem_add_or_reupload_jugde_model_solution` leaves table `jobs` as it is on
every way out and removes its staged package; the failure writes of
`reset_problem_time_limits_using_model_solution` leave everything as it is.
The writes of the judge submission handler are keyed by the id alone: its
`job_done` sets the job DONE whatever its status was. -/
theorem canceled_kept_by_guarded_writes (env : PackageEnv) (s : BState)
    (menv : ModelEnv) (job_id problem_id : Nat) (original_job_type : JobType)
    (w : ModelWorld)
    (hs : ∀ row ∈ s.w.jobs, row.id = s.h.job_id_ → row.status = JobStatus.CANCELED)
    (hw : ∀ row ∈ w.jobs, row.id = job_id → row.status = JobStatus.CANCELED) :
    ((AddOrReuploadProblemBase.job_done env s).state.w = s.w ∧
      (AddOrReuploadProblemBase.job_done env s).state.h = s.h ∧
      (∀ s1, AddOrReuploadProblemBase.job_done env s = .done s1 → s.h.job_failed = false →
        s1.job_was_canceled = true)) ∧
    ((problem_add_or_reupload_jugde_model_solution menv job_id original_job_type w).w.jobs =
        w.jobs ∧
      (problem_add_or_reupload_jugde_model_solution menv job_id original_job_type
        w).w.problems = w.problems ∧
      lookup_file job_id (problem_add_or_reupload_jugde_model_solution menv job_id
        original_job_type w).w.job_packages = none) ∧
    (((w.problems.filter (fun row => row.id = problem_id)).isEmpty = true ∨
        (menv.load_package = none ∧
          ∃ log, judge_model_solution menv ["Judging the model solution"] = .failed log)) →
      (reset_problem_time_limits_using_model_solution menv job_id problem_id w).w = w) ∧
    (∀ (ctx : JudgeCtx) (st : HState), ∀ row ∈ (job_done ctx st).db.jobs,
      row.id = ctx.job_id → row.status = JobStatus.DONE) := by
  have hguard : ∀ row ∈ w.jobs, ¬ (row.id = job_id ∧ row.status ≠ JobStatus.CANCELED) :=
    fun row hrow hc => hc.2 (hw row hrow hc.1)
  have hfail1 : ∀ log, set_failure_concat job_id log w.jobs = w.jobs := fun log =>
    map_guarded_of_canceled w.jobs
      (fun row => row.id = job_id ∧ row.status ≠ JobStatus.CANCELED) _ hguard
  have hfail2 : ∀ log, set_failure_replace job_id log w.jobs = w.jobs := fun log =>
    map_guarded_of_canceled w.jobs
      (fun row => row.id = job_id ∧ row.status ≠ JobStatus.CANCELED) _ hguard
  have hrequeue : ∀ log, requeue_job job_id original_job_type log w.jobs = w.jobs :=
    fun log => map_guarded_of_canceled w.jobs
      (fun row => row.id = job_id ∧ row.status ≠ JobStatus.CANCELED) _ hguard
  refine ⟨?_, ?_, ?_, ?_⟩
  · have hrows : ∀ status type,
        s.w.jobs.map (AddOrReuploadProblemBase.job_done_row env s.h status type) = s.w.jobs := by
      intro status type
      have := map_guarded_of_canceled s.w.jobs
        (fun row => row.id = s.h.job_id_ ∧ row.status ≠ JobStatus.CANCELED)
        (fun row => { row with tmp_file_id := s.h.tmp_file_id_, type := type,
                               priority := env.priority type, status := status,
                               aux_id := s.h.problem_id_, info := s.h.info_dump,
                               data := s.h.log })
        (fun row hrow hc => hc.2 (hs row hrow hc.1))
      exact this
    unfold AddOrReuploadProblemBase.job_done
    by_cases hf : s.h.job_failed = true
    · simp [hf, BRes.state]
    · simp only [hf, Bool.false_eq_true, if_false]
      cases htarget : AddOrReuploadProblemBase.job_done_target s.h with
      | error what => simp [BRes.state]
      | ok target =>
        obtain ⟨status, type⟩ := target
        simp only [hrows, affected_rows_self, BRes.state]
        refine ⟨trivial, trivial, ?_⟩
        intro s1 h1 _
        simp only [BRes.done.injEq] at h1
        rw [← h1]
        simp
  · have hrem : ∀ files : List (Nat × List ZipEntry),
        lookup_file job_id (files.filter (fun file => !decide (file.1 = job_id))) = none :=
      fun files => by simpa using lookup_file_removed job_id files
    unfold problem_add_or_reupload_jugde_model_solution
    cases menv.load_package with
    | some what => simp [remove_job_package, hrem]
    | none =>
      simp only []
      cases judge_model_solution menv ["Stage: Judging the model solution"] with
      | escaped what => simp [remove_job_package, hrem]
      | failed log => simp [remove_job_package, hrem, hfail1]
      | calibrated simfile_str log =>
        simp only []
        cases lookup_file job_id w.job_packages with
        | none => simp [remove_job_package, hrem]
        | some zip =>
          simp only []
          cases put_simfile menv simfile_str zip with
          | error what => simp [remove_job_package, hrem]
          | ok written =>
            simp [remove_job_package, hrem, hrequeue, affected_rows_self]
  · intro h
    unfold reset_problem_time_limits_using_model_solution
    rcases h with h | ⟨hload, log, hlog⟩
    · simp [h, hfail2]
    · by_cases hp : (w.problems.filter (fun row => row.id = problem_id)).isEmpty = true
      · simp [hp, hfail2]
      · simp [hp, hload, hlog, hfail2]
  · intro ctx st row hrow hid
    rw [job_done_jobs] at hrow
    exact (mem_set_job_status_data ctx.job_id JobStatus.DONE _ _ row hrow hid).1

theorem canceled_kept_by_guarded_writes_witness :
    (AddOrReuploadProblemBase.job_done example_package_env example_bstate_canceled).state.w =
      example_bstate_canceled.w ∧
    (AddOrReuploadProblemBase.job_done example_package_env
      example_bstate_canceled).state.job_was_canceled = true ∧
    (problem_add_or_reupload_jugde_model_solution example_model_env 9 JobType.ADD_PROBLEM
      example_model_world_canceled).w.jobs =
      [⟨9, .ADD_PROBLEM__JUDGE_MODEL_SOLUTION, .CANCELED, ["added"]⟩] ∧
    lookup_file 9 (problem_add_or_reupload_jugde_model_solution example_model_env 9
      JobType.ADD_PROBLEM example_model_world_canceled).w.job_packages = none :=
  ⟨(canceled_kept_by_guarded_writes example_package_env example_bstate_canceled
      example_model_env 9 2 JobType.ADD_PROBLEM example_model_world_canceled
      (by decide) (by decide)).1.1,
   by decide,
   (canceled_kept_by_guarded_writes example_package_env example_bstate_canceled
      example_model_env 9 2 JobType.ADD_PROBLEM example_model_world_canceled
      (by decide) (by decide)).2.1.1,
   (canceled_kept_by_guarded_writes example_package_env example_bstate_canceled
      example_model_env 9 2 JobType.ADD_PROBLEM example_model_world_canceled
      (by decide) (by decide)).2.1.2.2⟩

/-! ## The model solution handlers: failure of Conver and success -/

/-- The log a model solution handler has written when Conver is reached. -/
theorem judge_model_solution_of_judged (menv : ModelEnv) (job_log : List String)
    (initial_jrep final_jrep : JudgeReport)
    (hcc : menv.compile_checker = .succeeded) (hcs : menv.compile_solution = .succeeded)
    (hi : menv.initial_judge = .ok initial_jrep) (hf : menv.final_judge = .ok final_jrep) :
    judge_model_solution menv job_log =
      match menv.reset_time_limits with
      | .error what =>
        .failed (job_log ++ ["Model solution: " ++ menv.model_solution] ++
          ["Compiling checker..."] ++ [" done.", "Compiling the model solution..."] ++
          [" done.", "Judging..."] ++
          ["Initial judge report: " ++ initial_jrep.judge_log,
           "Final judge report: " ++ final_jrep.judge_log] ++ ["Conver failed: " ++ what])
      | .ok simfile_str =>
        .calibrated simfile_str
          (job_log ++ ["Model solution: " ++ menv.model_solution] ++
          ["Compiling checker..."] ++ [" done.", "Compiling the model solution..."] ++
          [" done.", "Judging..."] ++
          ["Initial judge report: " ++ initial_jrep.judge_log,
           "Final judge report: " ++ final_jrep.judge_log]) := by
  simp only [judge_model_solution, hcc, hcs, hi, hf]

/-- C21, the claim as stated fails: when Conver fails in
`problem_add_or_reupload_jugde_model_solution`, the job is set FAILED and the
staged package of job 9, present before the run, is removed. -/
theorem staged_package_removed_on_conver_failure :
    lookup_file 9 example_model_world.job_packages = some example_source ∧
    (problem_add_or_reupload_jugde_model_solution example_model_env_conver_failed 9
      JobType.ADD_PROBLEM example_model_world).escaped = none ∧
    lookup_file 9 (problem_add_or_reupload_jugde_model_solution
      example_model_env_conver_failed 9 JobType.ADD_PROBLEM
      example_model_world).w.job_packages = none ∧
    ((problem_add_or_reupload_jugde_model_solution example_model_env_conver_failed 9
      JobType.ADD_PROBLEM example_model_world).w.jobs.map (fun row => row.status)) =
      [JobStatus.FAILED] := by
  decide

/-- C21, amended: when Conver fails in a model solution handler (the package
loaded, both compilations succeeded, both passes returned), the handler
returns, every row of the job that is not CANCELED gets status FAILED and the
others are kept, and no manifest is written. The handler
`reset_problem_time_limits_using_model_solution` leaves the packages and the
table `problems` as they are; `problem_add_or_reupload_jugde_model_solution`
leaves the table `problems` as it is and removes its staged package. -/
theorem conver_failure_fails_job (menv : ModelEnv) (job_id problem_id : Nat)
    (original_job_type : JobType) (w : ModelWorld)
    (initial_jrep final_jrep : JudgeReport) (what : String)
    (hload : menv.load_package = none)
    (hcc : menv.compile_checker = .succeeded) (hcs : menv.compile_solution = .succeeded)
    (hi : menv.initial_judge = .ok initial_jrep) (hf : menv.final_judge = .ok final_jrep)
    (hreset : menv.reset_time_limits = .error what)
    (hproblem : (w.problems.filter (fun row => row.id = problem_id)).isEmpty = false) :
    ((problem_add_or_reupload_jugde_model_solution menv job_id original_job_type
        w).escaped = none ∧
      (problem_add_or_reupload_jugde_model_solution menv job_id original_job_type
        w).w.problems = w.problems ∧
      (problem_add_or_reupload_jugde_model_solution menv job_id original_job_type
        w).w.problem_packages = w.problem_packages ∧
      lookup_file job_id (problem_add_or_reupload_jugde_model_solution menv job_id
        original_job_type w).w.job_packages = none ∧
      ∀ (i : Nat) (row : ModelJobRow), w.jobs[i]? = some row →
        ∃ written, (problem_add_or_reupload_jugde_model_solution menv job_id
            original_job_type w).w.jobs[i]? = some written ∧
          (row.id = job_id → row.status ≠ JobStatus.CANCELED →
            written.status = JobStatus.FAILED ∧ written.id = row.id ∧
            written.type = row.type) ∧
          (¬ (row.id = job_id ∧ row.status ≠ JobStatus.CANCELED) → written = row)) ∧
    ((reset_problem_time_limits_using_model_solution menv job_id problem_id w).escaped =
        none ∧
      (reset_problem_time_limits_using_model_solution menv job_id problem_id
        w).w.problems = w.problems ∧
      (reset_problem_time_limits_using_model_solution menv job_id problem_id
        w).w.problem_packages = w.problem_packages ∧
      (reset_problem_time_limits_using_model_solution menv job_id problem_id
        w).w.job_packages = w.job_packages ∧
      ∀ (i : Nat) (row : ModelJobRow), w.jobs[i]? = some row →
        ∃ written, (reset_problem_time_limits_using_model_solution menv job_id
            problem_id w).w.jobs[i]? = some written ∧
          (row.id = job_id → row.status ≠ JobStatus.CANCELED →
            written.status = JobStatus.FAILED ∧ written.id = row.id ∧
            written.type = row.type) ∧
          (¬ (row.id = job_id ∧ row.status ≠ JobStatus.CANCELED) → written = row)) := by
  have hrun : ∀ log, judge_model_solution menv log =
      .failed (log ++ ["Model solution: " ++ menv.model_solution] ++
        ["Compiling checker..."] ++ [" done.", "Compiling the model solution..."] ++
        [" done.", "Judging..."] ++
        ["Initial judge report: " ++ initial_jrep.judge_log,
         "Final judge report: " ++ final_jrep.judge_log] ++ ["Conver failed: " ++ what]) := by
    intro log
    rw [judge_model_solution_of_judged menv log initial_jrep final_jrep hcc hcs hi hf, hreset]
  have hrem : ∀ files : List (Nat × List ZipEntry),
      lookup_file job_id (files.filter (fun file => !decide (file.1 = job_id))) = none :=
    fun files => by simpa using lookup_file_removed job_id files
  constructor
  · simp only [problem_add_or_reupload_jugde_model_solution, hload, hrun, remove_job_package]
    refine ⟨trivial, trivial, trivial, by simpa using hrem w.job_packages, ?_⟩
    intro i row hrow
    by_cases hc : row.id = job_id ∧ row.status ≠ JobStatus.CANCELED
    · refine ⟨_, by simp [set_failure_concat, List.getElem?_map, hrow, hc]; rfl, ?_, ?_⟩
      · intro _ _
        exact ⟨rfl, hc.1.symm, rfl⟩
      · intro hn
        exact absurd hc hn
    · refine ⟨row, by simp [set_failure_concat, List.getElem?_map, hrow, hc], ?_, ?_⟩
      · intro h1 h2
        exact absurd ⟨h1, h2⟩ hc
      · intro _
        rfl
  · simp only [reset_problem_time_limits_using_model_solution, hproblem, hload, hrun,
      Bool.false_eq_true, if_false]
    refine ⟨trivial, trivial, trivial, trivial, ?_⟩
    intro i row hrow
    by_cases hc : row.id = job_id ∧ row.status ≠ JobStatus.CANCELED
    · refine ⟨_, by simp [set_failure_replace, List.getElem?_map, hrow, hc]; rfl, ?_, ?_⟩
      · intro _ _
        exact ⟨rfl, hc.1.symm, rfl⟩
      · intro hn
        exact absurd hc hn
    · refine ⟨row, by simp [set_failure_replace, List.getElem?_map, hrow, hc], ?_, ?_⟩
      · intro h1 h2
        exact absurd ⟨h1, h2⟩ hc
      · intro _
        rfl

theorem get_index_eq_findIdx (name : String) (zip : List ZipEntry) :
    get_index name zip = zip.findIdx? (fun entry => entry.name = name) := by
  unfold get_index
  cases zip.findIdx? (fun entry => entry.name = name) <;> rfl

/-- Extraction at the position `get_index` gives is the content of the first
entry of that name. -/
theorem extract_get_index (name : String) (zip : List ZipEntry) :
    extract_to_str zip (get_index name zip) =
      match zip.find? (fun entry => entry.name = name) with
      | some entry => .ok entry.content
      | none => .error "no such entry" := by
  rw [get_index_eq_findIdx]
  induction zip with
  | nil => rfl
  | cons a t ih =>
    rw [List.findIdx?_cons, List.find?_cons]
    by_cases ha : a.name = name
    · simp [ha, extract_to_str]
    · simp only [ha, decide_False, Bool.false_eq_true, if_false]
      rw [← ih, List.findIdx?_succ]
      cases t.findIdx? (fun entry => decide (entry.name = name)) with
      | none => rfl
      | some i => simp [extract_to_str]

/-- Adding with the overwrite flag succeeds, and the archive then holds the
content under the name. -/
theorem file_add_overwrite (name content : String) (zip : List ZipEntry) :
    ∃ written, file_add name content true zip = .ok written ∧
      extract_to_str written (get_index name written) = .ok content := by
  unfold file_add
  by_cases hany : zip.any (fun entry => entry.name = name) = true
  · simp only [hany, if_true]
    refine ⟨_, rfl, ?_⟩
    rw [extract_get_index, List.find?_map]
    have hcomp : ((fun entry : ZipEntry => decide (entry.name = name)) ∘
        (fun entry : ZipEntry =>
          if entry.name = name then { entry with content := content } else entry)) =
        (fun entry : ZipEntry => decide (entry.name = name)) := by
      funext entry
      by_cases h : entry.name = name <;> simp [h]
    rw [hcomp]
    obtain ⟨entry, hmem, hname⟩ := List.any_eq_true.mp hany
    cases hfind : zip.find? (fun entry => decide (entry.name = name)) with
    | none =>
      have := List.find?_eq_none.mp hfind entry hmem
      exact absurd hname this
    | some found =>
      have hfound := List.find?_some hfind
      simp only [decide_eq_true_eq] at hfound
      simp [hfound]
  · have hfalse : zip.any (fun entry => entry.name = name) = false := by
      simpa using hany
    simp only [hfalse, Bool.false_eq_true, if_false]
    refine ⟨_, rfl, ?_⟩
    rw [extract_get_index, List.find?_append]
    have hnone : zip.find? (fun entry => decide (entry.name = name)) = none := by
      rw [List.find?_eq_none]
      intro entry hmem
      have := List.any_eq_false.mp hfalse entry hmem
      simpa using this
    rw [hnone]
    simp

/-- An update that changes a row of the table affects at least one row. -/
theorem affected_rows_map_pos {α : Type} [DecidableEq α] (f : α → α) (rows : List α)
    (row : α) (hmem : row ∈ rows) (hne : f row ≠ row) :
    affected_rows rows (rows.map f) > 0 := by
  unfold affected_rows
  apply List.length_pos_of_mem (a := (row, f row))
  rw [List.mem_filter]
  refine ⟨?_, by simpa using fun h => hne h.symm⟩
  induction rows with
  | nil => cases hmem
  | cons a t ih =>
    rcases List.mem_cons.mp hmem with h | h
    · subst h
      simp
    · simp only [List.map_cons, List.zip_cons_cons, List.mem_cons]
      exact Or.inr (ih h)

/-- C22, the claim as stated fails: after a run of
`problem_add_or_reupload_jugde_model_solution` in which both compilations
and Conver succeed on a job that is not canceled, the job is PENDING with the
original type, not DONE. -/
theorem add_model_solution_job_left_pending :
    (problem_add_or_reupload_jugde_model_solution example_model_env 9
      JobType.ADD_PROBLEM example_model_world).escaped = none ∧
    (example_model_world.jobs.map (fun row => row.status)) = [JobStatus.IN_PROGRESS] ∧
    ((problem_add_or_reupload_jugde_model_solution example_model_env 9
      JobType.ADD_PROBLEM example_model_world).w.jobs.map
        (fun row => (row.id, row.type, row.status))) =
      [(9, JobType.ADD_PROBLEM, JobStatus.PENDING)] := by
  decide

/-- C22, amended: when the package loaded, both compilations succeeded, both
passes returned and Conver reset the time limits, each handler whose package
can be opened returns with the revised manifest stored in that package.
`problem_add_or_reupload_jugde_model_solution`, given a row of the job that
is not CANCELED, sets every such row to PENDING with the original job type
and keeps the staged package;
`reset_problem_time_limits_using_model_solution`, given that the problem
exists, sets the manifest of the problem rows and sets the rows of the job to
DONE. -/
theorem calibration_success_stores_manifest (menv : ModelEnv) (job_id problem_id : Nat)
    (original_job_type : JobType) (w : ModelWorld)
    (initial_jrep final_jrep : JudgeReport) (simfile_str : String)
    (hload : menv.load_package = none)
    (hcc : menv.compile_checker = .succeeded) (hcs : menv.compile_solution = .succeeded)
    (hi : menv.initial_judge = .ok initial_jrep) (hf : menv.final_judge = .ok final_jrep)
    (hreset : menv.reset_time_limits = .ok simfile_str) :
    (∀ zip, lookup_file job_id w.job_packages = some zip →
      (∃ row ∈ w.jobs, row.id = job_id ∧ row.status ≠ JobStatus.CANCELED) →
      (problem_add_or_reupload_jugde_model_solution menv job_id original_job_type
        w).escaped = none ∧
      (∃ written, lookup_file job_id (problem_add_or_reupload_jugde_model_solution menv
            job_id original_job_type w).w.job_packages = some written ∧
          extract_to_str written
            (get_index (menv.zip_package_master_dir zip ++ "Simfile") written) =
            .ok simfile_str) ∧
      ∀ (i : Nat) (row : ModelJobRow), w.jobs[i]? = some row → row.id = job_id →
        row.status ≠ JobStatus.CANCELED →
        ∃ written, (problem_add_or_reupload_jugde_model_solution menv job_id
            original_job_type w).w.jobs[i]? = some written ∧
          written.id = job_id ∧ written.status = JobStatus.PENDING ∧
          written.type = original_job_type) ∧
    (∀ zip, lookup_file problem_id w.problem_packages = some zip →
      (w.problems.filter (fun row => row.id = problem_id)).isEmpty = false →
      (reset_problem_time_limits_using_model_solution menv job_id problem_id w).escaped =
        none ∧
      (∃ written, lookup_file problem_id (reset_problem_time_limits_using_model_solution
            menv job_id problem_id w).w.problem_packages = some written ∧
          extract_to_str written
            (get_index (menv.zip_package_master_dir zip ++ "Simfile") written) =
            .ok simfile_str) ∧
      (∀ row ∈ (reset_problem_time_limits_using_model_solution menv job_id problem_id
          w).w.problems, row.id = problem_id → row.simfile = simfile_str) ∧
      ∀ (i : Nat) (row : ModelJobRow), w.jobs[i]? = some row → row.id = job_id →
        ∃ written, (reset_problem_time_limits_using_model_solution menv job_id
            problem_id w).w.jobs[i]? = some written ∧
          written.id = job_id ∧ written.status = JobStatus.DONE ∧
          written.type = row.type) := by
  have hrun : ∀ log, judge_model_solution menv log =
      .calibrated simfile_str (log ++ ["Model solution: " ++ menv.model_solution] ++
        ["Compiling checker..."] ++ [" done.", "Compiling the model solution..."] ++
        [" done.", "Judging..."] ++
        ["Initial judge report: " ++ initial_jrep.judge_log,
         "Final judge report: " ++ final_jrep.judge_log]) := by
    intro log
    rw [judge_model_solution_of_judged menv log initial_jrep final_jrep hcc hcs hi hf, hreset]
  constructor
  · intro zip hpkg hrow
    obtain ⟨written, hadd, hext⟩ :=
      file_add_overwrite (menv.zip_package_master_dir zip ++ "Simfile") simfile_str zip
    have hput : put_simfile menv simfile_str zip = .ok written := hadd
    obtain ⟨row0, hmem0, hid0, hst0⟩ := hrow
    have haff : ∀ log : List String, log ≠ [] →
        affected_rows w.jobs (requeue_job job_id original_job_type log w.jobs) > 0 := by
      intro log hlog
      unfold requeue_job
      apply affected_rows_map_pos _ w.jobs row0 hmem0
      rw [if_pos ⟨hid0, hst0⟩]
      intro h
      have hdata := congrArg ModelJobRow.data h
      simp only [List.append_right_eq_self] at hdata
      exact hlog hdata
    simp only [problem_add_or_reupload_jugde_model_solution, hload, hrun, hpkg, hput]
    rw [if_pos (haff _ (by simp))]
    refine ⟨rfl, ⟨written, lookup_file_store_file job_id written w.job_packages, hext⟩, ?_⟩
    intro i row hget hid hst
    refine ⟨_, by simp [requeue_job, List.getElem?_map, hget, hid, hst]; rfl, rfl, rfl, rfl⟩
  · intro zip hpkg hproblem
    obtain ⟨written, hadd, hext⟩ :=
      file_add_overwrite (menv.zip_package_master_dir zip ++ "Simfile") simfile_str zip
    have hput : put_simfile menv simfile_str zip = .ok written := hadd
    simp only [reset_problem_time_limits_using_model_solution, hproblem, hload, hrun, hpkg,
      hput, Bool.false_eq_true, if_false]
    refine ⟨trivial, ⟨written, lookup_file_store_file problem_id written w.problem_packages,
      hext⟩, ?_, ?_⟩
    · intro row hmem hid
      obtain ⟨old, _, hold⟩ := List.mem_map.mp hmem
      by_cases h : old.id = problem_id
      · rw [if_pos h] at hold
        rw [← hold]
      · rw [if_neg h] at hold
        rw [← hold] at hid
        exact absurd hid h
    · intro i row hget hid
      simp only [List.getElem?_map, hget, Option.map_some', if_pos hid]
      exact ⟨_, rfl, hid, rfl, rfl⟩

theorem calibration_success_stores_manifest_witness :
    lookup_file 9 example_model_world.job_packages = some example_source ∧
    (∃ row ∈ example_model_world.jobs, row.id = 9 ∧ row.status ≠ JobStatus.CANCELED) ∧
    lookup_file 2 example_model_world.problem_packages = some example_source ∧
    (example_model_world.problems.filter (fun row => row.id = 2)).isEmpty = false ∧
    (∃ written, lookup_file 9 (problem_add_or_reupload_jugde_model_solution
          example_model_env 9 JobType.ADD_PROBLEM example_model_world).w.job_packages =
          some written ∧
        extract_to_str written (get_index ("p/" ++ "Simfile") written) =
          .ok "new manifest") ∧
    (∃ written, lookup_file 2 (reset_problem_time_limits_using_model_solution
          example_model_env 9 2 example_model_world).w.problem_packages = some written ∧
        extract_to_str written (get_index ("p/" ++ "Simfile") written) =
          .ok "new manifest") :=
  have h := calibration_success_stores_manifest example_model_env 9 2 JobType.ADD_PROBLEM
    example_model_world report_ok report_full "new manifest" rfl rfl rfl rfl rfl rfl
  have hrow : ∃ row ∈ example_model_world.jobs,
      row.id = 9 ∧ row.status ≠ JobStatus.CANCELED :=
    ⟨⟨9, .ADD_PROBLEM__JUDGE_MODEL_SOLUTION, .IN_PROGRESS, ["added"]⟩, by decide, by decide,
      by decide⟩
  ⟨by decide, hrow, by decide, by decide,
    (h.1 example_source (by decide) hrow).2.1,
    (h.2 example_source (by decide) (by decide)).2.1⟩

theorem conver_failure_fails_job_witness :
    (example_model_world.problems.filter (fun row => row.id = 2)).isEmpty = false ∧
    lookup_file 9 (problem_add_or_reupload_jugde_model_solution
      example_model_env_conver_failed 9 JobType.ADD_PROBLEM
      example_model_world).w.job_packages = none ∧
    (reset_problem_time_limits_using_model_solution example_model_env_conver_failed 9 2
      example_model_world).w.problem_packages = example_model_world.problem_packages :=
  have h := conver_failure_fails_job example_model_env_conver_failed 9 2 JobType.ADD_PROBLEM
    example_model_world report_ok report_full "model solution failed" rfl rfl rfl rfl rfl rfl
    (by decide)
  ⟨by decide, h.1.2.2.2.1, h.2.2.2.1⟩

/-! ## Exceptions in `processJobQueue` -/

theorem catch_clauses_some (thrown : Thrown) : ∃ clause, catch_clauses thrown = some clause := by
  cases thrown with
  | std_exception what => exact ⟨_, rfl⟩
  | other => exact ⟨_, rfl⟩

/-- The `try` block takes the `break` only when the query did not throw and
fetched nothing. -/
theorem try_block_break (env : IterationEnv) (job_queue : List JobQueueRow)
    (h : try_block env job_queue = .break_loop) :
    env.query = none ∧ select_pending job_queue = none := by
  unfold try_block at h
  cases hq : env.query with
  | some thrown => simp [hq] at h
  | none =>
    refine ⟨rfl, ?_⟩
    simp only [hq] at h
    cases hs : select_pending job_queue with
    | none => rfl
    | some job =>
      simp only [hs] at h
      cases hc : env.claim with
      | some thrown => simp [hc] at h
      | none =>
        simp only [hc] at h
        split at h
        · split at h <;> cases h
        · cases h
        · split at h <;> cases h

/-- C23: for every job table, every behaviour of the handlers and of the
database connection in each iteration, and every number of iterations, no
exception leaves `processJobQueue`; an exception thrown in the `try` block of
an iteration by the query, the claim, the cancel update or a handler is taken
by one of the two `catch` clauses, after which the function sleeps once and
goes on with the next iteration on the table as the exception left it; and
the function returns only after a query that did not throw and fetched no
PENDING row. -/
theorem processJobQueue_never_propagates (env : Nat → IterationEnv) (fuel iteration : Nat)
    (job_queue : List JobQueueRow) (sleeps : Nat) :
    (∀ thrown, processJobQueue_run env fuel iteration job_queue sleeps ≠
      .propagated thrown) ∧
    (∀ thrown next, try_block (env iteration) job_queue = .threw thrown next →
      (∃ clause, catch_clauses thrown = some clause) ∧
      processJobQueue_run env (fuel + 1) iteration job_queue sleeps =
        processJobQueue_run env fuel (iteration + 1) next (sleeps + 1)) ∧
    (∀ last slept, processJobQueue_run env fuel iteration job_queue sleeps =
        .returned last slept →
      select_pending last = none ∧
      ∃ k, k < fuel ∧ (env (iteration + k)).query = none ∧
        try_block (env (iteration + k)) last = .break_loop) := by
  refine ⟨?_, ?_, ?_⟩
  · induction fuel generalizing iteration job_queue sleeps with
    | zero =>
      intro thrown h
      cases h
    | succ fuel ih =>
      intro thrown
      simp only [processJobQueue_run]
      cases htry : try_block (env iteration) job_queue with
      | break_loop =>
        intro h
        cases h
      | completed next => exact ih _ _ _ thrown
      | threw t next =>
        obtain ⟨clause, hclause⟩ := catch_clauses_some t
        simp only [hclause]
        exact ih _ _ _ thrown
  · intro thrown next htry
    obtain ⟨clause, hclause⟩ := catch_clauses_some thrown
    refine ⟨⟨clause, hclause⟩, ?_⟩
    simp only [processJobQueue_run, htry, hclause]
  · induction fuel generalizing iteration job_queue sleeps with
    | zero =>
      intro last slept h
      cases h
    | succ fuel ih =>
      intro last slept
      simp only [processJobQueue_run]
      cases htry : try_block (env iteration) job_queue with
      | break_loop =>
        intro h
        simp only [QueueRun.returned.injEq] at h
        obtain ⟨hq, hs⟩ := try_block_break _ _ htry
        rw [← h.1]
        exact ⟨hs, 0, Nat.succ_pos _, hq, htry⟩
      | completed next =>
        intro h
        obtain ⟨hs, k, hk, hq, hb⟩ := ih _ _ _ last slept h
        refine ⟨hs, k + 1, by omega, ?_, ?_⟩
        · rw [show iteration + (k + 1) = iteration + 1 + k by omega]
          exact hq
        · rw [show iteration + (k + 1) = iteration + 1 + k by omega]
          exact hb
      | threw t next =>
        obtain ⟨clause, hclause⟩ := catch_clauses_some t
        simp only [hclause]
        intro h
        obtain ⟨hs, k, hk, hq, hb⟩ := ih _ _ _ last slept h
        refine ⟨hs, k + 1, by omega, ?_, ?_⟩
        · rw [show iteration + (k + 1) = iteration + 1 + k by omega]
          exact hq
        · rw [show iteration + (k + 1) = iteration + 1 + k by omega]
          exact hb

theorem processJobQueue_never_propagates_witness :
    try_block (example_iterations 0) example_queue = .threw Thrown.other example_queue ∧
    processJobQueue_run example_iterations 5 0 example_queue 0 =
      .returned
        [⟨1, .JUDGE_SUBMISSION, some "7", "", "1", .IN_PROGRESS, 5⟩,
         ⟨3, .JUDGE_SUBMISSION, some "8", "", "1", .IN_PROGRESS, 10⟩,
         ⟨2, .ADD_PROBLEM, none, "", "1", .IN_PROGRESS, 10⟩,
         ⟨4, .JUDGE_SUBMISSION, some "9", "", "1", .DONE, 20⟩] 2 ∧
    processJobQueue_run example_iterations 5 0 example_queue 0 =
      processJobQueue_run example_iterations 4 1 example_queue 1 :=
  ⟨by decide, by decide,
    ((processJobQueue_never_propagates example_iterations 4 0 example_queue 0).2.1
      Thrown.other example_queue (by decide)).2⟩

/-! ## Deleting an internal file -/

theorem filter_ne_of_not_mem (id : Nat) (ids : List Nat) (h : id ∉ ids) :
    ids.filter (fun other => other ≠ id) = ids := by
  rw [List.filter_eq_self]
  intro other hmem
  have : other ≠ id := fun heq => h (heq ▸ hmem)
  simpa using this

theorem not_mem_filter_ne (id : Nat) (ids : List Nat) :
    id ∉ ids.filter (fun other => other ≠ id) := by
  simp [List.mem_filter]

/-- C24, the claim as stated fails: when `unlink` fails on the file 5, which
is there, the run still completes: the row of the file is deleted and the job
is DONE, but the file is still there; and a second run, in which `unlink`
succeeds, then changes the file store. -/
theorem failed_unlink_leaves_file :
    (DeleteInternalFileJobHandler.run true example_delete_handler example_file_world).2 =
      { blobs := [5, 6], internal_files := [6],
        jobs := [⟨11, .DONE, ["Internal file ID: 5"]⟩], committed := 1 } ∧
    5 ∈ (DeleteInternalFileJobHandler.run true example_delete_handler
      example_file_world).2.blobs ∧
    (DeleteInternalFileJobHandler.run false example_delete_handler
      (DeleteInternalFileJobHandler.run true example_delete_handler
        example_file_world).2).2.blobs = [6] ∧
    (DeleteInternalFileJobHandler.run false example_delete_handler
      (DeleteInternalFileJobHandler.run true example_delete_handler
        example_file_world).2).2.blobs ≠
      (DeleteInternalFileJobHandler.run true example_delete_handler
        example_file_world).2.blobs := by
  decide

/-- C24, amended: whether or not the file and its row in `internal_files`
exist, and whether or not `unlink` fails, a run of
`DeleteInternalFileJobHandler::run` ends without the row, keeps every other
file and row, and leaves every row of the job DONE, and a second run for the
same file by any job does not change table `internal_files` and again leaves
every row of its job DONE. When `unlink` does not fail on a file that is
there, the run also ends without the file, and the second run does not change
the files. When `unlink` fails, the run leaves the files as they were. -/
theorem delete_internal_file_idempotent (h again : DeleteInternalFileJobHandler)
    (w : FileWorld) (unlink_fails again_unlink_fails : Bool)
    (hagain : again.internal_file_id = h.internal_file_id) :
    h.internal_file_id ∉ (DeleteInternalFileJobHandler.run unlink_fails h w).2.internal_files ∧
    (∀ id, id ≠ h.internal_file_id →
      (id ∈ (DeleteInternalFileJobHandler.run unlink_fails h w).2.blobs ↔ id ∈ w.blobs) ∧
      (id ∈ (DeleteInternalFileJobHandler.run unlink_fails h w).2.internal_files ↔
        id ∈ w.internal_files)) ∧
    (∀ row ∈ (DeleteInternalFileJobHandler.run unlink_fails h w).2.jobs, row.id = h.job_id →
      row.status = JobStatus.DONE) ∧
    (DeleteInternalFileJobHandler.run unlink_fails h w).2.jobs.map (fun row => row.id) =
      w.jobs.map (fun row => row.id) ∧
    (DeleteInternalFileJobHandler.run again_unlink_fails again
      (DeleteInternalFileJobHandler.run unlink_fails h w).2).2.internal_files =
      (DeleteInternalFileJobHandler.run unlink_fails h w).2.internal_files ∧
    (∀ row ∈ (DeleteInternalFileJobHandler.run again_unlink_fails again
        (DeleteInternalFileJobHandler.run unlink_fails h w).2).2.jobs,
      row.id = again.job_id → row.status = JobStatus.DONE) ∧
    ((unlink_fails = true → h.internal_file_id ∉ w.blobs) →
      h.internal_file_id ∉ (DeleteInternalFileJobHandler.run unlink_fails h w).2.blobs ∧
      (DeleteInternalFileJobHandler.run again_unlink_fails again
        (DeleteInternalFileJobHandler.run unlink_fails h w).2).2.blobs =
        (DeleteInternalFileJobHandler.run unlink_fails h w).2.blobs) ∧
    (unlink_fails = true →
      (DeleteInternalFileJobHandler.run unlink_fails h w).2.blobs = w.blobs) := by
  have hjobs : ∀ (g : DeleteInternalFileJobHandler) (jobs : List JobRow) (log : List String),
      ∀ row ∈ DeleteInternalFileJobHandler.job_done { g with log := log } jobs,
        row.id = g.job_id → row.status = JobStatus.DONE := by
    intro g jobs log row hrow hid
    exact (mem_set_job_status_data g.job_id JobStatus.DONE log jobs row hrow hid).1
  refine ⟨?_, ?_, ?_, ?_, ?_, ?_, ?_, ?_⟩
  · exact not_mem_filter_ne _ _
  · intro id hid
    cases unlink_fails <;>
      simp [DeleteInternalFileJobHandler.run, DeleteInternalFileJobHandler.unlink,
        List.mem_filter, hid]
  · exact hjobs h w.jobs _
  · simp only [DeleteInternalFileJobHandler.run, DeleteInternalFileJobHandler.job_done,
      set_job_status_data, List.map_map]
    apply List.map_congr_left
    intro row _
    by_cases hrow : row.id = h.job_id <;> simp [hrow]
  · simp only [DeleteInternalFileJobHandler.run, hagain]
    exact filter_ne_of_not_mem _ _ (not_mem_filter_ne _ _)
  · exact hjobs again _ _
  · intro hunlink
    have habsent : h.internal_file_id ∉
        (DeleteInternalFileJobHandler.run unlink_fails h w).2.blobs := by
      cases unlink_fails with
      | true => exact hunlink rfl
      | false => exact not_mem_filter_ne _ _
    refine ⟨habsent, ?_⟩
    have hsecond : (DeleteInternalFileJobHandler.run again_unlink_fails again
        (DeleteInternalFileJobHandler.run unlink_fails h w).2).2.blobs =
        DeleteInternalFileJobHandler.unlink again_unlink_fails h.internal_file_id
          (DeleteInternalFileJobHandler.run unlink_fails h w).2.blobs := by
      simp only [DeleteInternalFileJobHandler.run, hagain]
    rw [hsecond]
    unfold DeleteInternalFileJobHandler.unlink
    cases again_unlink_fails with
    | true => rfl
    | false =>
      simp only [Bool.false_eq_true, if_false]
      exact filter_ne_of_not_mem _ _ habsent
  · intro hfails
    subst hfails
    rfl

theorem delete_internal_file_idempotent_witness :
    (DeleteInternalFileJobHandler.run false example_delete_handler example_file_world).2 =
      { blobs := [6], internal_files := [6],
        jobs := [⟨11, .DONE, ["Internal file ID: 5"]⟩], committed := 1 } ∧
    (DeleteInternalFileJobHandler.run false example_delete_handler
      (DeleteInternalFileJobHandler.run false example_delete_handler
        example_file_world).2).2.blobs =
      (DeleteInternalFileJobHandler.run false example_delete_handler
        example_file_world).2.blobs ∧
    (DeleteInternalFileJobHandler.run false example_delete_handler
      (DeleteInternalFileJobHandler.run true example_delete_handler
        example_file_world).2).2.internal_files =
      (DeleteInternalFileJobHandler.run true example_delete_handler
        example_file_world).2.internal_files :=
  ⟨by decide,
    ((delete_internal_file_idempotent example_delete_handler example_delete_handler
      example_file_world false false rfl).2.2.2.2.2.2.1 (by decide)).2,
    (delete_internal_file_idempotent example_delete_handler example_delete_handler
      example_file_world true false rfl).2.2.2.2.1⟩

/-! ## Submitting the solutions of a package: the rows inserted -/

theorem filename_to_lang_of_known (env : SubmitEnv) (solution : String)
    (h : env.sim_filename_to_lang solution ≠ PackageSolutionLanguage.UNKNOWN) :
    ∃ lang, AddOrReuploadProblemBase.filename_to_lang env solution = .ok lang := by
  unfold AddOrReuploadProblemBase.filename_to_lang
  cases hl : env.sim_filename_to_lang solution with
  | UNKNOWN => exact absurd hl h
  | C11 => exact ⟨_, rfl⟩
  | CPP11 => exact ⟨_, rfl⟩
  | CPP14 => exact ⟨_, rfl⟩
  | CPP17 => exact ⟨_, rfl⟩
  | PASCAL => exact ⟨_, rfl⟩

theorem extract_of_mem (name : String) (zip : List ZipEntry)
    (h : ∃ entry ∈ zip, entry.name = name) :
    ∃ content, extract_to_str zip (get_index name zip) = .ok content := by
  rw [extract_get_index]
  obtain ⟨entry, hmem, hname⟩ := h
  cases hfind : zip.find? (fun entry => decide (entry.name = name)) with
  | none =>
    have := List.find?_eq_none.mp hfind entry hmem
    simp [hname] at this
  | some found => exact ⟨_, rfl⟩

/-- Sorting by id keeps a list whose ids count up from a base. -/
theorem order_by_id_of_counting (rows : List SolutionSubmission) (base : Nat)
    (h : ∀ (i : Nat) (row : SolutionSubmission), rows[i]? = some row → row.id = base + i) :
    order_by_id rows = rows := by
  induction rows generalizing base with
  | nil => rfl
  | cons a t ih =>
    have ht : ∀ (i : Nat) (row : SolutionSubmission), t[i]? = some row →
        row.id = base + 1 + i := by
      intro i row hrow
      have := h (i + 1) row (by simpa using hrow)
      omega
    rw [order_by_id, ih (base + 1) ht]
    cases t with
    | nil => rfl
    | cons b r =>
      have ha := h 0 a (by simp)
      have hb := ht 0 b (by simp)
      have hlt : ¬ b.id ≤ a.id := by omega
      simp [insert_by_id, hlt]

/-- The jobs inserted for the selected submissions, by position. -/
theorem judge_jobs_getElem (env : SubmitEnv) (h : AddOrReupload) (problem_id next_job_id : Nat)
    (selected : List SolutionSubmission) (i : Nat) :
    (AddOrReuploadProblemBase.judge_jobs env h problem_id next_job_id selected)[i]? =
      (selected[i]?).map (fun submission =>
        { id := next_job_id + i, file_id := none, tmp_file_id := none, creator := none,
          type := JobType.JUDGE_SUBMISSION,
          priority := env.priority JobType.JUDGE_SUBMISSION + 1,
          status := JobStatus.PENDING, added := h.current_date_,
          aux_id := some submission.id,
          info := env.dump_string (toString problem_id), data := [] }) := by
  induction selected generalizing next_job_id i with
  | nil => simp [AddOrReuploadProblemBase.judge_jobs]
  | cons a t ih =>
    cases i with
    | zero => simp [AddOrReuploadProblemBase.judge_jobs]
    | succ i =>
      simp only [AddOrReuploadProblemBase.judge_jobs, List.getElem?_cons_succ]
      rw [ih (next_job_id + 1) i]
      rw [show next_job_id + 1 + i = next_job_id + (i + 1) by omega]

theorem judge_jobs_length (env : SubmitEnv) (h : AddOrReupload) (problem_id next_job_id : Nat)
    (selected : List SolutionSubmission) :
    (AddOrReuploadProblemBase.judge_jobs env h problem_id next_job_id selected).length =
      selected.length := by
  induction selected generalizing next_job_id with
  | nil => rfl
  | cons a t ih => simp [AddOrReuploadProblemBase.judge_jobs, ih]

/-- The loop of `submit_solutions` when every solution has a supported
language and an entry in the package: it returns, and has added one
submission and one source file per solution, in the order of the
solutions. -/
theorem submit_loop_done (env : SubmitEnv) (solutions : List String) (h : AddOrReupload)
    (w : SubmitWorld)
    (hlang : ∀ solution ∈ solutions,
      env.sim_filename_to_lang solution ≠ PackageSolutionLanguage.UNKNOWN)
    (hzip : ∀ solution ∈ solutions, ∃ entry ∈ h.zip_, entry.name = h.main_dir_ ++ solution) :
    ∃ h1 w1 added sources,
      AddOrReuploadProblemBase.submit_loop env solutions (h, w) = .ok (h1, w1) ∧
      h1.problem_id_ = h.problem_id_ ∧ h1.current_date_ = h.current_date_ ∧
      w1.jobs = w.jobs ∧ w1.next_job_id = w.next_job_id ∧
      w1.submissions = w.submissions ++ added ∧ w1.sources = w.sources ++ sources ∧
      added.length = solutions.length ∧
      ∀ (i : Nat) (row : SolutionSubmission), added[i]? = some row →
        row.id = w.next_submission_id + i ∧ row.file_id = w.next_internal_file_id + i ∧
        row.problem_id = h.problem_id_ ∧ row.type = SubmissionType.PROBLEM_SOLUTION ∧
        row.owner = none ∧ row.initial_status = SubmissionStatus.PENDING ∧
        row.full_status = SubmissionStatus.PENDING ∧
        ∃ solution content, solutions[i]? = some solution ∧
          AddOrReuploadProblemBase.filename_to_lang env solution = .ok row.language ∧
          extract_to_str h.zip_ (get_index (h.main_dir_ ++ solution) h.zip_) = .ok content ∧
          (row.file_id, content) ∈ sources := by
  induction solutions generalizing h w with
  | nil =>
    refine ⟨h, w, [], [], rfl, rfl, rfl, rfl, rfl, by simp, by simp, rfl, ?_⟩
    intro i row hrow
    simp at hrow
  | cons solution rest ih =>
    obtain ⟨lang, hl⟩ := filename_to_lang_of_known env solution
      (hlang solution (List.mem_cons_self _ _))
    obtain ⟨content, hc⟩ := extract_of_mem (h.main_dir_ ++ solution) h.zip_
      (hzip solution (List.mem_cons_self _ _))
    have hc1 : extract_to_str (AddOrReuploadProblemBase.job_log ("Submit: " ++ solution) h).zip_
        (get_index ((AddOrReuploadProblemBase.job_log ("Submit: " ++ solution) h).main_dir_ ++
          solution) (AddOrReuploadProblemBase.job_log ("Submit: " ++ solution) h).zip_) =
        .ok content := hc
    simp only [AddOrReuploadProblemBase.submit_loop, hl, hc1]
    obtain ⟨h1, w1, added, sources, hrun, hp, hd, hj, hn, hs, hsrc, hlen, hrows⟩ :=
      ih (AddOrReuploadProblemBase.job_log ("Submit: " ++ solution) h)
        { in_transaction := w.in_transaction, jobs := w.jobs, next_job_id := w.next_job_id,
          submissions := w.submissions ++
            [{ id := w.next_submission_id, file_id := w.next_internal_file_id, owner := none,
               problem_id := h.problem_id_, contest_problem_id := none,
               contest_round_id := none, contest_id := none,
               type := SubmissionType.PROBLEM_SOLUTION, language := lang,
               initial_status := SubmissionStatus.PENDING,
               full_status := SubmissionStatus.PENDING, submit_time := h.current_date_,
               last_judgment := env.zero_date, initial_report := "", final_report := "" }],
          next_submission_id := w.next_submission_id + 1,
          internal_files := w.internal_files ++ [w.next_internal_file_id],
          next_internal_file_id := w.next_internal_file_id + 1,
          sources := w.sources ++ [(w.next_internal_file_id, content)] }
        (fun sol hsol => hlang sol (List.mem_cons_of_mem _ hsol))
        (fun sol hsol => hzip sol (List.mem_cons_of_mem _ hsol))
    refine ⟨h1, w1,
      ({ id := w.next_submission_id, file_id := w.next_internal_file_id, owner := none,
         problem_id := h.problem_id_, contest_problem_id := none,
         contest_round_id := none, contest_id := none,
         type := SubmissionType.PROBLEM_SOLUTION, language := lang,
         initial_status := SubmissionStatus.PENDING,
         full_status := SubmissionStatus.PENDING, submit_time := h.current_date_,
         last_judgment := env.zero_date, initial_report := "", final_report := "" } :
        SolutionSubmission) :: added,
      (w.next_internal_file_id, content) :: sources, hrun, hp, hd, hj, hn, ?_, ?_, ?_, ?_⟩
    · rw [hs]
      simp
    · rw [hsrc]
      simp
    · simp [hlen]
    · intro i row hrow
      cases i with
      | zero =>
        simp only [List.getElem?_cons_zero, Option.some.injEq] at hrow
        subst hrow
        exact ⟨rfl, rfl, rfl, rfl, rfl, rfl, rfl, solution, content, by simp, hl, hc,
          List.mem_cons_self _ _⟩
      | succ i =>
        simp only [List.getElem?_cons_succ] at hrow
        obtain ⟨h1', h2', h3', h4', h5', h6', h7', sol, cont, hsol, hlang', hext, hmem⟩ :=
          hrows i row hrow
        refine ⟨by rw [h1']; simp only []; omega, by rw [h2']; simp only []; omega,
          h3', h4', h5', h6', h7', sol, cont, by simpa using hsol, hlang', hext,
          List.mem_cons_of_mem _ hmem⟩

/-- C25: the DELETE of `replace_problem_in_db` leaves no PROBLEM_SOLUTION
submission of the problem; and when the handler has not failed, a transaction
is open, the problem id is set, no PROBLEM_SOLUTION submission of the problem
exists, and each of the n solutions of the manifest has a supported language
and an entry in the package, `submit_solutions` returns having appended
exactly n submissions, which are then the PROBLEM_SOLUTION submissions of the
problem, with consecutive ids in the order of the manifest and the sources
stored, and exactly n jobs, the job at position i of type JUDGE_SUBMISSION,
PENDING, with `aux_id` the id of the submission at position i and a priority
one above that of an ordinary JUDGE_SUBMISSION job. -/
theorem submit_solutions_schedules_jobs (env : SubmitEnv) (h : AddOrReupload)
    (w : SubmitWorld) (simfile : SimfileData) (problem_id : Nat)
    (hnf : h.job_failed = false) (htx : w.in_transaction = true)
    (hsim : h.simfile_ = some simfile) (hpid : h.problem_id_ = some problem_id)
    (hlang : ∀ solution ∈ simfile.solutions,
      env.sim_filename_to_lang solution ≠ PackageSolutionLanguage.UNKNOWN)
    (hzip : ∀ solution ∈ simfile.solutions,
      ∃ entry ∈ h.zip_, entry.name = h.main_dir_ ++ solution)
    (hfresh : ∀ row ∈ w.submissions,
      ¬ (row.problem_id = some problem_id ∧ row.type = SubmissionType.PROBLEM_SOLUTION)) :
    (∀ submissions : List SolutionSubmission,
      ∀ row ∈ AddOrReuploadProblemBase.delete_old_solutions h.problem_id_ submissions,
        ¬ (row.problem_id = some problem_id ∧ row.type = SubmissionType.PROBLEM_SOLUTION)) ∧
    ∃ h1 w1 added inserted,
      AddOrReuploadProblemBase.submit_solutions env h w = .ok (h1, w1) ∧
      w1.submissions = w.submissions ++ added ∧ w1.jobs = w.jobs ++ inserted ∧
      added.length = simfile.solutions.length ∧
      inserted.length = simfile.solutions.length ∧
      w1.submissions.filter (fun row => row.problem_id = some problem_id ∧
        row.type = SubmissionType.PROBLEM_SOLUTION) = added ∧
      (∀ (i : Nat) (row : SolutionSubmission), added[i]? = some row →
        row.id = w.next_submission_id + i ∧
        row.type = SubmissionType.PROBLEM_SOLUTION ∧ row.problem_id = some problem_id ∧
        ∃ solution content, simfile.solutions[i]? = some solution ∧
          extract_to_str h.zip_ (get_index (h.main_dir_ ++ solution) h.zip_) = .ok content ∧
          (row.file_id, content) ∈ w1.sources) ∧
      (∀ (i : Nat) (job : JobRecord), inserted[i]? = some job →
        job.id = w.next_job_id + i ∧ job.type = JobType.JUDGE_SUBMISSION ∧
        job.status = JobStatus.PENDING ∧ job.aux_id = some (w.next_submission_id + i) ∧
        job.priority = env.priority JobType.JUDGE_SUBMISSION + 1 ∧
        env.priority JobType.JUDGE_SUBMISSION < job.priority) := by
  constructor
  · intro submissions row hrow hmatch
    rw [hpid] at hrow
    simp only [AddOrReuploadProblemBase.delete_old_solutions, List.mem_filter] at hrow
    have := hrow.2
    simp [hmatch.1, hmatch.2] at this
  · obtain ⟨h1, w1, added, sources, hrun, hp, _, hj, hn, hs, hsrc, hlen, hrows⟩ :=
      submit_loop_done env simfile.solutions
        (AddOrReuploadProblemBase.job_log "Submitting solutions..." h) w hlang hzip
    have hp1 : h1.problem_id_ = some problem_id := by
      rw [hp]
      exact hpid
    have hmatch : ∀ row ∈ added, (decide (row.problem_id = some problem_id ∧
        row.type = SubmissionType.PROBLEM_SOLUTION)) = true := by
      intro row hmem
      obtain ⟨i, hi⟩ := List.getElem?_of_mem hmem
      obtain ⟨_, _, h3, h4, _⟩ := hrows i row hi
      have h3' : row.problem_id = some problem_id := by
        rw [h3]
        exact hpid
      simp [h3', h4]
    have hold : w.submissions.filter (fun row => decide (row.problem_id = some problem_id ∧
        row.type = SubmissionType.PROBLEM_SOLUTION)) = [] := by
      rw [List.filter_eq_nil_iff]
      intro row hmem
      simpa using hfresh row hmem
    have hfilter : w1.submissions.filter (fun row => decide (row.problem_id = some problem_id ∧
        row.type = SubmissionType.PROBLEM_SOLUTION)) = added := by
      rw [hs, List.filter_append, hold, List.nil_append, List.filter_eq_self]
      exact hmatch
    have hsorted : order_by_id added = added :=
      order_by_id_of_counting added w.next_submission_id
        (fun i row hrow => (hrows i row hrow).1)
    have hsolutions : (match (AddOrReuploadProblemBase.job_log "Submitting solutions..."
        h).simfile_ with
        | some simfile => simfile.solutions
        | none => []) = simfile.solutions := by
      have : (AddOrReuploadProblemBase.job_log "Submitting solutions..." h).simfile_ =
          some simfile := hsim
      rw [this]
    refine ⟨AddOrReuploadProblemBase.job_log "Done." h1,
      { w1 with jobs := w1.jobs ++ AddOrReuploadProblemBase.judge_jobs env h1 problem_id
                  w1.next_job_id added,
                next_job_id := w1.next_job_id + (AddOrReuploadProblemBase.judge_jobs env h1
                  problem_id w1.next_job_id added).length },
      added, AddOrReuploadProblemBase.judge_jobs env h1 problem_id w1.next_job_id added,
      ?_, hs, ?_, hlen, ?_, hfilter, ?_, ?_⟩
    · simp only [AddOrReuploadProblemBase.submit_solutions, hnf, htx, hsolutions, hrun, hp1,
        hfilter, hsorted]
      simp
    · simp only [hj]
    · rw [judge_jobs_length, hlen]
    · intro i row hrow
      obtain ⟨h1', _, h3, h4, _, _, _, solution, content, hsol, _, hext, hmem⟩ :=
        hrows i row hrow
      refine ⟨h1', h4, ?_, solution, content, hsol, hext, ?_⟩
      · rw [h3]
        exact hpid
      · simp only [hsrc]
        exact List.mem_append_right _ hmem
    · intro i job hjob
      rw [judge_jobs_getElem] at hjob
      cases hsub : added[i]? with
      | none => simp [hsub] at hjob
      | some submission =>
        simp only [hsub, Option.map_some', Option.some.injEq] at hjob
        have hid := (hrows i submission hsub).1
        subst hjob
        refine ⟨by simp only [hn], rfl, rfl, by simp only [hid], rfl, ?_⟩
        simp only []
        omega

theorem submit_solutions_schedules_jobs_witness :
    (AddOrReuploadProblemBase.submit_solutions example_submit_env example_submit_handler
        example_submit_world).toOption.map (fun state =>
          (state.2.jobs.map (fun job =>
              (job.id, job.type, job.status, job.aux_id, job.priority)),
            state.2.submissions.map (fun row => (row.id, row.file_id, row.type)))) =
      some ([(40, JobType.JUDGE_SUBMISSION, JobStatus.PENDING, some 70, 6),
             (41, JobType.JUDGE_SUBMISSION, JobStatus.PENDING, some 71, 6)],
            [(70, 31, SubmissionType.PROBLEM_SOLUTION),
             (71, 32, SubmissionType.PROBLEM_SOLUTION)]) ∧
    ∃ h1 w1, AddOrReuploadProblemBase.submit_solutions example_submit_env
      example_submit_handler example_submit_world = .ok (h1, w1) ∧ w1.jobs.length = 2 :=
  have h := submit_solutions_schedules_jobs example_submit_env example_submit_handler
    example_submit_world ⟨"name", "label", ["prog/sol.cpp", "prog/sol.cpp"], ""⟩ 2
    rfl rfl rfl rfl (by decide) (by decide) (by decide)
  ⟨rfl,
    match h.2 with
    | ⟨h1, w1, _, inserted, hrun, _, hjobs, _, hlen, _⟩ =>
      ⟨h1, w1, hrun, by rw [hjobs, List.length_append, hlen]; rfl⟩⟩

/-! ## User permissions -/

/-- C26: for a session user whose id is not the SIM root id and a user of
another id, `users_get_permissions` grants none of EDIT, DELETE, CHANGE_PASS,
ADMIN_CHANGE_PASS, MAKE_ADMIN, MAKE_TEACHER and MAKE_NORMAL when the index of
the user (type, plus one when the id is not the SIM root id) is at most the
index of the session user; and a session user of type NORMAL gets NONE over
every user of another id. -/
theorem users_get_permissions_no_power_upwards (SIM_ROOT_UID session_user_id : String)
    (session_user_type : UserType) (uid : String) (utype : UserType)
    (hsession : session_user_id ≠ SIM_ROOT_UID) (hother : session_user_id ≠ uid) :
    (rank_index SIM_ROOT_UID uid utype ≤
        rank_index SIM_ROOT_UID session_user_id session_user_type →
      ∀ permission ∈ [Permission.EDIT, Permission.DELETE, Permission.CHANGE_PASS,
          Permission.ADMIN_CHANGE_PASS, Permission.MAKE_ADMIN, Permission.MAKE_TEACHER,
          Permission.MAKE_NORMAL],
        permission ∉ users_get_permissions SIM_ROOT_UID session_user_id session_user_type
          uid utype) ∧
    (session_user_type = UserType.NORMAL →
      users_get_permissions SIM_ROOT_UID session_user_id session_user_type uid utype =
        PERM.NONE) := by
  constructor
  · intro hrank
    simp only [users_get_permissions, rank_index, if_neg hother, if_pos hsession] at hrank ⊢
    by_cases huid : uid = SIM_ROOT_UID
    · simp only [huid, ne_eq, not_true_eq_false, if_false] at hrank ⊢
      cases session_user_type <;> cases utype <;>
        first
        | (exfalso; revert hrank; decide)
        | decide
    · simp only [ne_eq, huid, not_false_eq_true, if_true] at hrank ⊢
      cases session_user_type <;> cases utype <;>
        first
        | (exfalso; revert hrank; decide)
        | decide
  · intro hnormal
    subst hnormal
    simp only [users_get_permissions, rank_index, if_neg hother, if_pos hsession]
    by_cases huid : uid = SIM_ROOT_UID
    · simp only [huid, ne_eq, not_true_eq_false, if_false]
      cases utype <;> rfl
    · simp only [ne_eq, huid, not_false_eq_true, if_true]
      cases utype <;> rfl

theorem users_get_permissions_no_power_upwards_witness :
    "5" ≠ "1" ∧ "5" ≠ "6" ∧
    rank_index "1" "6" UserType.TEACHER ≤ rank_index "1" "5" UserType.TEACHER ∧
    users_get_permissions "1" "5" UserType.TEACHER "6" UserType.TEACHER =
      [Permission.VIEW, Permission.VIEW_ALL] ∧
    Permission.EDIT ∉ users_get_permissions "1" "5" UserType.TEACHER "6" UserType.TEACHER :=
  ⟨by decide, by decide, by decide, by decide,
    (users_get_permissions_no_power_upwards "1" "5" UserType.TEACHER "6" UserType.TEACHER
      (by decide) (by decide)).1 (by decide) Permission.EDIT (by decide)⟩

/-! ## The places of the ranking -/

/-- The loop of the places on the rows left, when the rows before have
scores at least `last_user_score`, the rows left have scores at most that and
are sorted, and `place` is one more than the number of rows of greater
score. -/
theorem ranking_places_from_eq (rows before left : List RankingRow) (place : Nat)
    (last_user_score : Int) (hrows : rows = before ++ left)
    (hsorted : left.Pairwise (fun a b => b.score ≤ a.score))
    (hbefore : ∀ row ∈ before, last_user_score ≤ row.score)
    (hleft : ∀ row ∈ left, row.score ≤ last_user_score)
    (hplace : place = 1 + rows.countP (fun other => last_user_score < other.score)) :
    ranking_places_from before.length place last_user_score left =
      left.map (fun row => 1 + rows.countP (fun other => row.score < other.score)) := by
  induction left generalizing before place last_user_score with
  | nil => rfl
  | cons row rest ih =>
    have hle : row.score ≤ last_user_score := hleft row (List.mem_cons_self _ _)
    have hrest : ∀ other ∈ rest, other.score ≤ row.score :=
      fun other hmem => (List.pairwise_cons.mp hsorted).1 other hmem
    have hplace1 : (if last_user_score ≠ row.score then before.length + 1 else place) =
        1 + rows.countP (fun other => row.score < other.score) := by
      by_cases heq : last_user_score = row.score
      · simp only [heq, ne_eq, not_true_eq_false, if_false]
        rw [hplace, heq]
      · simp only [ne_eq, heq, not_false_eq_true, if_true]
        have hlt : row.score < last_user_score := lt_of_le_of_ne hle (Ne.symm heq)
        have hcb : before.countP (fun other => decide (row.score < other.score)) =
            before.length := by
          rw [List.countP_eq_length]
          intro other hmem
          have := hbefore other hmem
          simp only [decide_eq_true_eq]
          omega
        have hcl : (row :: rest).countP (fun other => decide (row.score < other.score)) =
            0 := by
          rw [List.countP_eq_zero]
          intro other hmem
          simp only [decide_eq_true_eq, not_lt]
          rcases List.mem_cons.mp hmem with h | h
          · rw [h]
          · exact hrest other h
        rw [hrows, List.countP_append, hcb, hcl]
        omega
    simp only [ranking_places_from, List.map_cons]
    rw [hplace1]
    congr 1
    have hlen : before.length + 1 = (before ++ [row]).length := by simp
    rw [hlen]
    apply ih (before ++ [row])
    · rw [hrows]
      simp
    · exact (List.pairwise_cons.mp hsorted).2
    · intro other hmem
      rcases List.mem_append.mp hmem with h | h
      · exact le_trans hle (hbefore other h)
      · rw [List.mem_singleton.mp h]
    · exact hrest
    · rfl

/-- C27: for rows sorted by score, greatest first, the place
`Contest::ranking` prints for the row at index i is one more than the number
of rows of strictly greater score; so there is a place for every row, the
first row has place 1, and rows of equal score have the same place. -/
theorem ranking_place_counts_greater (sorted_rows : List RankingRow)
    (hne : sorted_rows ≠ [])
    (hsorted : sorted_rows.Pairwise (fun a b => b.score ≤ a.score)) :
    (∀ (i : Nat) (row : RankingRow), sorted_rows[i]? = some row →
      (ranking_places sorted_rows)[i]? =
        some (1 + sorted_rows.countP (fun other => row.score < other.score))) ∧
    (ranking_places sorted_rows).length = sorted_rows.length ∧
    (ranking_places sorted_rows)[0]? = some 1 ∧
    (∀ (i j : Nat) (a b : RankingRow), sorted_rows[i]? = some a →
      sorted_rows[j]? = some b → a.score = b.score →
      (ranking_places sorted_rows)[i]? = (ranking_places sorted_rows)[j]?) := by
  have heq : ranking_places sorted_rows =
      sorted_rows.map (fun row =>
        1 + sorted_rows.countP (fun other => row.score < other.score)) := by
    cases hrows : sorted_rows with
    | nil => exact absurd hrows hne
    | cons front rest =>
      rw [hrows] at hsorted
      have hfront : ∀ row ∈ front :: rest, row.score ≤ front.score := by
        intro row hmem
        rcases List.mem_cons.mp hmem with h | h
        · rw [h]
        · exact (List.pairwise_cons.mp hsorted).1 row h
      have hzero : (front :: rest).countP (fun other => decide (front.score < other.score)) =
          0 := by
        rw [List.countP_eq_zero]
        intro other hmem
        simpa using hfront other hmem
      exact ranking_places_from_eq (front :: rest) [] (front :: rest) 1 front.score rfl
        hsorted (fun _ h => absurd h (List.not_mem_nil _)) hfront (by rw [hzero])
  have hget : ∀ (i : Nat) (row : RankingRow), sorted_rows[i]? = some row →
      (ranking_places sorted_rows)[i]? =
        some (1 + sorted_rows.countP (fun other => row.score < other.score)) := by
    intro i row hrow
    rw [heq, List.getElem?_map, hrow]
    rfl
  refine ⟨hget, by rw [heq, List.length_map], ?_, ?_⟩
  · cases hrows : sorted_rows with
    | nil => exact absurd hrows hne
    | cons front rest =>
      rw [← hrows, hget 0 front (by rw [hrows]; simp)]
      have hzero : sorted_rows.countP (fun other => decide (front.score < other.score)) =
          0 := by
        rw [List.countP_eq_zero]
        intro other hmem
        rw [hrows] at hmem hsorted
        simp only [decide_eq_true_eq, not_lt]
        rcases List.mem_cons.mp hmem with h | h
        · rw [h]
        · exact (List.pairwise_cons.mp hsorted).1 other h
      rw [hzero]
  · intro i j a b ha hb hab
    rw [hget i a ha, hget j b hb, hab]

theorem ranking_place_counts_greater_witness :
    example_ranking ≠ [] ∧
    example_ranking.Pairwise (fun a b => b.score ≤ a.score) ∧
    ranking_places example_ranking = [1, 2, 2, 4] ∧
    (ranking_places example_ranking)[0]? = some 1 :=
  ⟨by decide, by decide, by decide,
    (ranking_place_counts_greater example_ranking (by decide) (by decide)).2.2.1⟩

/-! ## Short entry tokens -/

/-- The comparison `a <= b` holds exactly when `b < a` does not. -/
theorem chars_le_eq_not_lt (a b : List Char) : chars_le a b = !chars_lt b a := by
  induction a generalizing b with
  | nil => cases b <;> rfl
  | cons x xs ih =>
    cases b with
    | nil => rfl
    | cons y ys =>
      simp only [chars_le, chars_lt]
      by_cases h1 : x.toNat < y.toNat
      · have h2 : ¬ y.toNat < x.toNat := by omega
        simp [h1, h2]
      · by_cases h2 : y.toNat < x.toNat
        · simp [h1, h2]
        · simp [h1, h2, ih]

/-- C28: for a contest with a row in `contest_entry_tokens` and every current
time, `api_contest_entry_token_short_add` passes its checks exactly when the
short token has no expiration or the expiration is not after now,
`api_contest_entry_token_short_regen` passes its checks exactly when the
expiration exists and is after now, and so exactly one of the two passes;
for a contest without a row both return error 400. -/
theorem short_token_add_or_regen (mysql_date : String)
    (contest_entry_tokens : List ContestEntryTokenRow) (contest_id : String) :
    (∀ short_token_expiration : Option String,
      select_short_token_expiration contest_entry_tokens contest_id =
        some short_token_expiration →
      (api_contest_entry_token_short_add mysql_date contest_entry_tokens contest_id =
          .update_reached ↔
        (short_token_expiration = none ∨
          ∃ value, short_token_expiration = some value ∧ text_lt mysql_date value = false)) ∧
      (api_contest_entry_token_short_regen mysql_date contest_entry_tokens contest_id =
          .update_reached ↔
        ∃ value, short_token_expiration = some value ∧ text_lt mysql_date value = true) ∧
      (api_contest_entry_token_short_add mysql_date contest_entry_tokens contest_id =
          .update_reached ↔
        api_contest_entry_token_short_regen mysql_date contest_entry_tokens contest_id ≠
          .update_reached)) ∧
    (select_short_token_expiration contest_entry_tokens contest_id = none →
      api_contest_entry_token_short_add mysql_date contest_entry_tokens contest_id =
        .api_error400 "Contest does not have an entry token" ∧
      api_contest_entry_token_short_regen mysql_date contest_entry_tokens contest_id =
        .api_error400 "Contest does not have an entry token") := by
  constructor
  · intro short_token_expiration hselect
    simp only [api_contest_entry_token_short_add, api_contest_entry_token_short_regen, hselect]
    cases short_token_expiration with
    | none => simp
    | some value =>
      have hle : text_le value mysql_date = !text_lt mysql_date value :=
        chars_le_eq_not_lt value.data mysql_date.data
      cases hlt : text_lt mysql_date value <;> simp [hle, hlt]
  · intro hselect
    simp only [api_contest_entry_token_short_add, api_contest_entry_token_short_regen, hselect]
    exact ⟨trivial, trivial⟩

theorem short_token_add_or_regen_witness :
    select_short_token_expiration example_tokens "1" = some (some "2020-01-05 00:00:00") ∧
    api_contest_entry_token_short_add "2020-01-03 00:00:00" example_tokens "1" =
      .api_error400 "Contest already has a short entry token" ∧
    api_contest_entry_token_short_regen "2020-01-03 00:00:00" example_tokens "1" =
      .update_reached ∧
    api_contest_entry_token_short_add "2020-01-03 00:00:00" example_tokens "2" =
      .update_reached ∧
    api_contest_entry_token_short_regen "2020-01-03 00:00:00" example_tokens "3" =
      .api_error400 "Contest does not have an entry token" ∧
    (api_contest_entry_token_short_add "2020-01-03 00:00:00" example_tokens "1" =
        .update_reached ↔
      api_contest_entry_token_short_regen "2020-01-03 00:00:00" example_tokens "1" ≠
        .update_reached) :=
  ⟨by decide, by decide, by decide, by decide, by decide,
    ((short_token_add_or_regen "2020-01-03 00:00:00" example_tokens "1").1
      (some "2020-01-05 00:00:00") (by decide)).2.2⟩

/-! ## Restarting a job -/

theorem find_job_by_id (jobs : List JobRecord)
    (hunique : (jobs.map (fun row => row.id)).Nodup) (row : JobRecord) (hrow : row ∈ jobs) :
    jobs.find? (fun other => decide (other.id = row.id)) = some row := by
  cases hfind : jobs.find? (fun other => decide (other.id = row.id)) with
  | none =>
    have := List.find?_eq_none.mp hfind row hrow
    simp at this
  | some found =>
    have hmem := List.mem_of_find?_eq_some hfind
    have hid := List.find?_some hfind
    simp only [decide_eq_true_eq] at hid
    rw [List.inj_on_of_nodup_map hunique hmem hrow hid]

theorem filter_job_with_tmp_file (jobs : List JobRecord)
    (hunique : (jobs.map (fun row => row.id)).Nodup) (row : JobRecord) (hrow : row ∈ jobs) :
    jobs.filter (fun other => decide (other.id = row.id) && other.tmp_file_id.isSome) =
      if row.tmp_file_id.isSome then [row] else [] := by
  have h := filter_key_eq_singleton (fun other : JobRecord => other.id) jobs hunique row hrow
  have hsplit : jobs.filter (fun other => decide (other.id = row.id) &&
      other.tmp_file_id.isSome) =
      (jobs.filter (fun other => decide (other.id = row.id))).filter
        (fun other => other.tmp_file_id.isSome) := by
    rw [List.filter_filter]
    congr 1
    funext other
    exact Bool.and_comm _ _
  rw [hsplit, h]
  cases htmp : row.tmp_file_id <;> simp [htmp]

theorem map_where_id_eq (jobs : List JobRecord)
    (hunique : (jobs.map (fun row => row.id)).Nodup) (row : JobRecord) (hrow : row ∈ jobs)
    (f : JobRecord → JobRecord) :
    jobs.map (fun other => if other.id = row.id then f other else other) =
      jobs.map (fun other => if other = row then f other else other) := by
  apply List.map_congr_left
  intro other hother
  by_cases h : other = row
  · simp [h]
  · have hne : other.id ≠ row.id :=
      fun hid => h (List.inj_on_of_nodup_map hunique hother hrow hid)
    simp [h, hne]

/-- C29: with ids unique and below the id of the next insertion,
`restart_job` on the job with the given id, called with the type and info of
its row, leaves a job of type ADD_PROBLEM, ADD_PROBLEM__JUDGE_MODEL_SOLUTION,
REUPLOAD_PROBLEM or REUPLOAD_PROBLEM__JUDGE_MODEL_SOLUTION with the base type,
status PENDING, `tmp_file_id` NULL and the info with stage FIRST, keeps every
other row, and appends one PENDING DELETE_FILE job for the previous
`tmp_file_id` when it was not NULL and no row otherwise; for a job of another
type only the status of its row changes, to PENDING; the job server is
notified exactly when asked. -/
theorem restart_job_resets (env : RestartEnv) (job_id : Nat) (notify_job_server : Bool)
    (w : JobsWorld) (row : JobRecord)
    (hrow : row ∈ w.jobs) (hid : row.id = job_id)
    (hunique : (w.jobs.map (fun other => other.id)).Nodup)
    (hnext : ∀ other ∈ w.jobs, other.id < w.next_job_id) :
    restart_job_by_id env job_id notify_job_server w =
      restart_job env job_id row.type row.info notify_job_server w ∧
    ((row.type = JobType.ADD_PROBLEM ∨ row.type = JobType.ADD_PROBLEM__JUDGE_MODEL_SOLUTION ∨
        row.type = JobType.REUPLOAD_PROBLEM ∨
        row.type = JobType.REUPLOAD_PROBLEM__JUDGE_MODEL_SOLUTION) →
      (restart_job_by_id env job_id notify_job_server w).jobs =
        w.jobs.map (fun other =>
          if other = row then
            { other with
              type := if row.type = JobType.ADD_PROBLEM ∨
                  row.type = JobType.ADD_PROBLEM__JUDGE_MODEL_SOLUTION
                then JobType.ADD_PROBLEM else JobType.REUPLOAD_PROBLEM,
              status := JobStatus.PENDING, tmp_file_id := none,
              info := env.dump { env.parse_info row.info with stage := .FIRST } }
          else other) ++
        (match row.tmp_file_id with
          | some file =>
            [{ id := w.next_job_id, file_id := some file, tmp_file_id := none,
               creator := none, type := JobType.DELETE_FILE,
               priority := env.priority JobType.DELETE_FILE, status := JobStatus.PENDING,
               added := env.mysql_date, aux_id := none, info := "", data := [] }]
          | none => [])) ∧
    (¬ (row.type = JobType.ADD_PROBLEM ∨ row.type = JobType.ADD_PROBLEM__JUDGE_MODEL_SOLUTION ∨
        row.type = JobType.REUPLOAD_PROBLEM ∨
        row.type = JobType.REUPLOAD_PROBLEM__JUDGE_MODEL_SOLUTION) →
      (restart_job_by_id env job_id notify_job_server w).jobs =
        w.jobs.map (fun other =>
          if other = row then { other with status := JobStatus.PENDING } else other)) ∧
    (restart_job_by_id env job_id notify_job_server w).notified =
      w.notified + (if notify_job_server then 1 else 0) := by
  subst hid
  have hfind : restart_job_by_id env row.id notify_job_server w =
      restart_job env row.id row.type row.info notify_job_server w := by
    unfold restart_job_by_id
    rw [find_job_by_id w.jobs hunique row hrow]
  have hlt : row.id < w.next_job_id := hnext row hrow
  have hne : ¬ w.next_job_id = row.id := by omega
  refine ⟨hfind, ?_, ?_, ?_⟩
  · intro hfour
    rw [hfind]
    have hswitch : (decide (row.type = JobType.ADD_PROBLEM) ||
        decide (row.type = JobType.ADD_PROBLEM__JUDGE_MODEL_SOLUTION) ||
        (decide (row.type = JobType.REUPLOAD_PROBLEM) ||
          decide (row.type = JobType.REUPLOAD_PROBLEM__JUDGE_MODEL_SOLUTION))) = true := by
      rcases hfour with h | h | h | h <;> simp [h]
    have hjobs : ∀ w1 : JobsWorld,
        (if notify_job_server = true then { w1 with notified := w1.notified + 1 }
          else w1).jobs = w1.jobs := by
      intro w1
      cases notify_job_server <;> rfl
    simp only [restart_job, hswitch, if_true, hjobs,
      filter_job_with_tmp_file w.jobs hunique row hrow, List.map_append,
      map_where_id_eq w.jobs hunique row hrow, Bool.or_eq_true, decide_eq_true_eq]
    cases htmp : row.tmp_file_id with
    | none => cases notify_job_server <;> simp [delete_file_jobs]
    | some file => cases notify_job_server <;> simp [delete_file_jobs, hne, htmp]
  · intro hother
    rw [hfind]
    have hswitch : (decide (row.type = JobType.ADD_PROBLEM) ||
        decide (row.type = JobType.ADD_PROBLEM__JUDGE_MODEL_SOLUTION) ||
        (decide (row.type = JobType.REUPLOAD_PROBLEM) ||
          decide (row.type = JobType.REUPLOAD_PROBLEM__JUDGE_MODEL_SOLUTION))) = false := by
      simp only [not_or] at hother
      simp [hother.1, hother.2.1, hother.2.2.1, hother.2.2.2]
    have hjobs : ∀ w1 : JobsWorld,
        (if notify_job_server = true then { w1 with notified := w1.notified + 1 }
          else w1).jobs = w1.jobs := by
      intro w1
      cases notify_job_server <;> rfl
    simp only [restart_job, hswitch, hjobs, Bool.false_eq_true, if_false,
      map_where_id_eq w.jobs hunique row hrow]
    cases notify_job_server <;> rfl
  · rw [hfind]
    simp only [restart_job]
    cases notify_job_server
    · simp only [Bool.false_eq_true, if_false]
      split <;> simp
    · simp only [if_true]
      split <;> rfl

theorem restart_job_resets_witness :
    (restart_job_by_id example_restart_env 9 true example_jobs_world).jobs =
      [⟨9, some 30, none, some 1, .ADD_PROBLEM, 5, .PENDING,
        "2020-01-01 00:00:00", none, "1opts", ["log"]⟩,
       ⟨10, none, none, some 1, .JUDGE_SUBMISSION, 5, .DONE,
        "2020-01-02 00:00:00", some 7, "", ["judged"]⟩,
       ⟨11, some 31, none, none, .DELETE_FILE, 3, .PENDING,
        "2020-01-03 00:00:00", none, "", []⟩] ∧
    (restart_job_by_id example_restart_env 10 false example_jobs_world).jobs =
      [⟨9, some 30, some 31, some 1, .ADD_PROBLEM__JUDGE_MODEL_SOLUTION, 5, .FAILED,
        "2020-01-01 00:00:00", none, "2opts", ["log"]⟩,
       ⟨10, none, none, some 1, .JUDGE_SUBMISSION, 5, .PENDING,
        "2020-01-02 00:00:00", some 7, "", ["judged"]⟩] ∧
    (restart_job_by_id example_restart_env 9 true example_jobs_world).notified =
      example_jobs_world.notified + (if true then 1 else 0) :=
  ⟨by decide, by decide,
    (restart_job_resets example_restart_env 9 true example_jobs_world
      ⟨9, some 30, some 31, some 1, .ADD_PROBLEM__JUDGE_MODEL_SOLUTION, 5, .FAILED,
        "2020-01-01 00:00:00", none, "2opts", ["log"]⟩
      (by decide) rfl (by decide) (by decide)).2.2.2⟩

/-! ## The order of texts and `findWithId` -/

theorem char_eq_of_toNat_eq (a b : Char) (h : a.toNat = b.toNat) : a = b := by
  have ha := Char.ofNat_toNat a
  have hb := Char.ofNat_toNat b
  rw [← ha, ← hb, h]

theorem chars_lt_irrefl (a : List Char) : chars_lt a a = false := by
  induction a with
  | nil => rfl
  | cons x xs ih => simp [chars_lt, ih]

theorem chars_eq_of_not_lt (a b : List Char) (hab : chars_lt a b = false)
    (hba : chars_lt b a = false) : a = b := by
  induction a generalizing b with
  | nil =>
    cases b with
    | nil => rfl
    | cons y ys => simp [chars_lt] at hab
  | cons x xs ih =>
    cases b with
    | nil => simp [chars_lt] at hba
    | cons y ys =>
      simp only [chars_lt] at hab hba
      by_cases h1 : x.toNat < y.toNat
      · simp [h1] at hab
      · by_cases h2 : y.toNat < x.toNat
        · simp [h2] at hba
        · simp only [h1, h2, if_false] at hab hba
          rw [char_eq_of_toNat_eq x y (by omega), ih ys hab hba]

/-- In the order of texts, `a <= b` and `b < c` give `a < c`. -/
theorem chars_lt_of_le_of_lt (a b c : List Char) (hab : chars_lt b a = false)
    (hbc : chars_lt b c = true) : chars_lt a c = true := by
  induction a generalizing b c with
  | nil =>
    cases c with
    | nil => cases b <;> simp [chars_lt] at hbc
    | cons z zs => rfl
  | cons x xs ih =>
    cases c with
    | nil => cases b <;> simp [chars_lt] at hbc
    | cons z zs =>
      cases b with
      | nil => simp [chars_lt] at hab
      | cons y ys =>
        simp only [chars_lt] at hab hbc ⊢
        by_cases h1 : y.toNat < x.toNat
        · simp [h1] at hab
        · by_cases h2 : x.toNat < y.toNat
          · by_cases h3 : y.toNat < z.toNat
            · have : x.toNat < z.toNat := by omega
              simp [this]
            · by_cases h4 : z.toNat < y.toNat
              · simp [h3, h4] at hbc
              · have : x.toNat < z.toNat := by omega
                simp [this]
          · simp only [h1, h2, if_false] at hab
            by_cases h3 : y.toNat < z.toNat
            · have : x.toNat < z.toNat := by omega
              simp [this]
            · by_cases h4 : z.toNat < y.toNat
              · simp [h3, h4] at hbc
              · simp only [h3, h4, if_false] at hbc
                have h5 : ¬ x.toNat < z.toNat := by omega
                have h6 : ¬ z.toNat < x.toNat := by omega
                simp only [h5, h6, if_false]
                exact ih ys zs hab hbc

/-- Sortedness by id, by positions. -/
theorem sorted_by_id_getElem (x : List RankingRound)
    (hsorted : x.Pairwise (fun a b => text_lt b.id a.id = false))
    (i j : Nat) (a b : RankingRound) (hij : i ≤ j) (ha : x[i]? = some a)
    (hb : x[j]? = some b) : text_lt b.id a.id = false := by
  rcases Nat.lt_or_eq_of_le hij with hlt | heq
  · obtain ⟨hi, hai⟩ := List.getElem?_eq_some.mp ha
    obtain ⟨hj, hbj⟩ := List.getElem?_eq_some.mp hb
    have := List.pairwise_iff_getElem.mp hsorted i j hi hj hlt
    rw [hai, hbj] at this
    exact this
  · subst heq
    rw [ha] at hb
    cases hb
    exact chars_lt_irrefl _

/-- The loop of `findWithId` on a list sorted by id ends within one iteration
more than the distance of the iterators, at the first position whose element
is not less than the id. -/
theorem findWithId_loop_lower_bound (x : List RankingRound) (id : String)
    (hsorted : x.Pairwise (fun a b => text_lt b.id a.id = false))
    (fuel beg end_ : Nat) (hle : beg ≤ end_) (hend : end_ ≤ x.length)
    (hfuel : end_ - beg < fuel)
    (hlow : ∀ (i : Nat) (element : RankingRound), i < beg → x[i]? = some element →
      text_lt element.id id = true)
    (hhigh : ∀ (i : Nat) (element : RankingRound), end_ ≤ i → x[i]? = some element →
      text_lt element.id id = false) :
    ∃ found, findWithId_loop x id fuel beg end_ = some found ∧ found ≤ x.length ∧
      (∀ (i : Nat) (element : RankingRound), i < found → x[i]? = some element →
        text_lt element.id id = true) ∧
      (∀ (i : Nat) (element : RankingRound), found ≤ i → x[i]? = some element →
        text_lt element.id id = false) := by
  induction fuel generalizing beg end_ with
  | zero => omega
  | succ fuel ih =>
    by_cases hbe : beg = end_
    · subst hbe
      refine ⟨beg, by simp [findWithId_loop], hend, hlow, hhigh⟩
    · have hmid1 : beg ≤ beg + ((end_ - beg) >>> 1) := by omega
      have hshift : (end_ - beg) >>> 1 = (end_ - beg) / 2 := by
        rw [Nat.shiftRight_eq_div_pow]
      have hmid2 : beg + ((end_ - beg) >>> 1) < end_ := by
        rw [hshift]
        omega
      have hlen : beg + ((end_ - beg) >>> 1) < x.length := by omega
      have hget : x[beg + ((end_ - beg) >>> 1)]? =
          some (x.get ⟨beg + ((end_ - beg) >>> 1), hlen⟩) := List.getElem?_eq_getElem hlen
      simp only [findWithId_loop, ne_eq, hbe, not_false_eq_true, if_true, hget]
      cases hlt : text_lt (x.get ⟨beg + ((end_ - beg) >>> 1), hlen⟩).id id with
      | true =>
        simp only [if_true]
        apply ih (beg + ((end_ - beg) >>> 1) + 1) end_ (by omega) hend (by omega)
        · intro i element hi helem
          have hsort := sorted_by_id_getElem x hsorted i (beg + ((end_ - beg) >>> 1))
            element _ (by omega) helem hget
          exact chars_lt_of_le_of_lt _ _ _ hsort hlt
        · exact hhigh
      | false =>
        simp only [Bool.false_eq_true, if_false]
        apply ih beg (beg + ((end_ - beg) >>> 1)) hmid1 (by omega) (by omega) hlow
        intro i element hi helem
        have hsort := sorted_by_id_getElem x hsorted (beg + ((end_ - beg) >>> 1)) i
          _ element hi hget helem
        cases hc : text_lt element.id id with
        | false => rfl
        | true =>
          have := chars_lt_of_le_of_lt _ _ _ hsort hc
          exact absurd (show text_lt (x.get ⟨beg + ((end_ - beg) >>> 1), hlen⟩).id id = true
            from this) (by rw [hlt]; simp)

/-- C30: for a sequence sorted ascending by id in the order of texts and
every id, `findWithId` ends and returns a position; when an element of the
sequence has the id, the position is that of an element with the id, and
when none has (as in the empty sequence) it is the end. -/
theorem findWithId_finds (x : List RankingRound) (id : String)
    (hsorted : x.Pairwise (fun a b => text_lt b.id a.id = false)) :
    ∃ found, findWithId x id = some found ∧ found ≤ x.length ∧
      ((∃ element ∈ x, element.id = id) →
        ∃ element, x[found]? = some element ∧ element.id = id) ∧
      ((¬ ∃ element ∈ x, element.id = id) → found = x.length) := by
  obtain ⟨beg, hloop, hbeg, hlow, hhigh⟩ :=
    findWithId_loop_lower_bound x id hsorted (x.length + 1) 0 x.length (Nat.zero_le _)
      (Nat.le_refl _) (by omega) (fun i _ hi _ => absurd hi (Nat.not_lt_zero i))
      (fun i element hi helem => by
        have := (List.getElem?_eq_some.mp helem).1
        omega)
  simp only [findWithId, hloop]
  by_cases hhit : beg ≠ x.length ∧ (x[beg]?).map (fun element => element.id) = some id
  · rw [if_pos hhit]
    refine ⟨beg, rfl, hbeg, ?_, ?_⟩
    · intro _
      cases hget : x[beg]? with
      | none => simp [hget] at hhit
      | some element =>
        refine ⟨element, rfl, ?_⟩
        have := hhit.2
        simpa [hget] using this
    · intro hnone
      exfalso
      apply hnone
      cases hget : x[beg]? with
      | none => simp [hget] at hhit
      | some element =>
        refine ⟨element, List.getElem?_mem hget, ?_⟩
        have := hhit.2
        simpa [hget] using this
  · rw [if_neg hhit]
    refine ⟨x.length, rfl, Nat.le_refl _, ?_, fun _ => rfl⟩
    intro hsome
    exfalso
    obtain ⟨element, hmem, hid⟩ := hsome
    obtain ⟨j, hj⟩ := List.getElem?_of_mem hmem
    by_cases hjb : j < beg
    · have := hlow j element hjb hj
      rw [hid, show text_lt id id = chars_lt id.data id.data from rfl, chars_lt_irrefl] at this
      cases this
    · have hjlen := (List.getElem?_eq_some.mp hj).1
      have hblen : beg < x.length := by omega
      have hgetb : x[beg]? = some (x.get ⟨beg, hblen⟩) := List.getElem?_eq_getElem hblen
      have h1 := hhigh beg _ (Nat.le_refl _) hgetb
      have h2 := sorted_by_id_getElem x hsorted beg j _ element (by omega) hgetb hj
      rw [hid] at h2
      have heq : (x.get ⟨beg, hblen⟩).id = id :=
        String.ext (chars_eq_of_not_lt _ _ h1 h2)
      apply hhit
      refine ⟨by omega, ?_⟩
      rw [hgetb]
      simpa using heq

theorem findWithId_finds_witness :
    example_rounds.Pairwise (fun a b => text_lt b.id a.id = false) ∧
    findWithId example_rounds "2" = some 1 ∧ findWithId example_rounds "3" = some 3 ∧
    findWithId [] "2" = some 0 ∧
    ∃ found, findWithId example_rounds "31" = some found ∧ found ≤ example_rounds.length :=
  ⟨by decide, by decide, by decide, by decide,
    match findWithId_finds example_rounds "31" (by decide) with
    | ⟨found, hfound, hle, _⟩ => ⟨found, hfound, hle⟩⟩

end Sim
